import Mathlib

/-!
# Laundry-Print-Agent: the print-job composition

A shallow embedding of the receipt composition performed by the HTTP handler
`print` of `src/main.go` and of the ESC/POS encoders it calls, of the variants
of that handler in `src/linux/main.go`, `src/app-windows/main.go` and
`src/app-windows/main-console.go`, of the checks of `print` before the
composition and of the printer dropdown of `src/app-windows/main.go`, followed
by the properties of the specification that concern them.

Conventions of the embedding:

* a Go `string` and a Go `[]byte` are both a sequence of bytes (`Bytes`); a byte
  is a natural number, and the conversion `byte(x)` of an `int` is `x % 256`;
* `[]byte(s)` is the identity, `s + t` and `append(a, b...)` are list append;
* `len` of a string is its number of bytes, an `int` that cannot overflow when
  3 is added to it, so it is a natural number;
* string literals of the source are all ASCII and are written as literals
  (`lit "..."`), one byte per character.
-/

namespace PrintAgent

/-! ## Data model -/

/-- Byte sequences: Go's `string` and `[]byte`. -/
abbrev Bytes := List Nat

/-- The bytes of an ASCII string literal of the source (`[]byte("...")`). -/
def lit (s : String) : Bytes := s.toList.map Char.toNat

/-- Go's conversion `byte(x)` of a non-negative `int`. -/
def toByte (x : Nat) : Nat := x % 256

/-- Go `type QRCodeData struct` (main.go, lines 23-28). -/
structure QRCodeData where
  ServiceName : Bytes
  OrderID : Bytes
  Body : Bytes
  QRValue : Bytes
deriving DecidableEq, Repr

/-- Go `type PrintRequest struct` (main.go, lines 30-39). -/
structure PrintRequest where
  Token : Bytes
  Title : Bytes
  OrderID : Bytes
  Body : Bytes
  QRValue : Bytes
  PrintMode : Bytes
  QRCodes : List QRCodeData
  NoPaperCut : Bool
deriving DecidableEq, Repr

/-! ## ESC/POS functions (main.go, lines 528-572) -/

/-- Go `escInit`. -/
def escInit : Bytes := [0x1B, 0x40]

/-- Go `escBold(on bool)`; the parameter `on` is written `isOn`. -/
def escBold (isOn : Bool) : Bytes :=
  if isOn then [0x1B, 0x45, 0x01] else [0x1B, 0x45, 0x00]

/-- Go `escAlignCenter`. -/
def escAlignCenter : Bytes := [0x1B, 0x61, 0x01]

/-- Go `escAlignLeft`. -/
def escAlignLeft : Bytes := [0x1B, 0x61, 0x00]

/-- Go `escCut`. -/
def escCut : Bytes := [0x1D, 0x56, 0x00]

/-- Go `escDoubleHeight`. -/
def escDoubleHeight (isOn : Bool) : Bytes :=
  if isOn then [0x1B, 0x21, 0x10] else [0x1B, 0x21, 0x00]

/-- Go `escUnderline`. -/
def escUnderline (isOn : Bool) : Bytes :=
  if isOn then [0x1B, 0x2D, 0x01] else [0x1B, 0x2D, 0x00]

/-- Go `escFontSize`. -/
def escFontSize (normal : Bool) : Bytes :=
  if normal then [0x1B, 0x21, 0x00] else [0x1B, 0x21, 0x01]

/-! ## QR code (main.go, lines 576-612) -/

/-- Go `escQRCode`: the five command groups, built by successive appends. -/
def escQRCode (data : Bytes) : Bytes :=
  let cmd : Bytes := []
  -- Model 2
  let cmd := cmd ++ [0x1D, 0x28, 0x6B, 0x04, 0x00, 0x31, 0x41, 0x32, 0x00]
  -- Size (7)
  let cmd := cmd ++ [0x1D, 0x28, 0x6B, 0x03, 0x00, 0x31, 0x43, 0x07]
  -- Error correction level (M)
  let cmd := cmd ++ [0x1D, 0x28, 0x6B, 0x03, 0x00, 0x31, 0x45, 0x31]
  -- Store data
  let dataBytes := data
  let pL := toByte (dataBytes.length + 3)
  let pH := toByte 0x00
  let pH := if dataBytes.length + 3 > 255 then toByte ((dataBytes.length + 3) / 256) else pH
  let pL := if dataBytes.length + 3 > 255 then toByte ((dataBytes.length + 3) % 256) else pL
  let cmd := cmd ++ [0x1D, 0x28, 0x6B, pL, pH, 0x31, 0x50, 0x30]
  let cmd := cmd ++ dataBytes
  -- Print QR code
  let cmd := cmd ++ [0x1D, 0x28, 0x6B, 0x03, 0x00, 0x31, 0x51, 0x30]
  cmd

/-! ## The composition of `print` (main.go, lines 131-419) -/

/-- The loop `for i, qrData := range req.QRCodes` of the qr-only branch
(main.go, lines 195-248): `n` is `len(req.QRCodes)`, the second argument is the
index `i`, the third the entries still to visit, the last the buffer `receipt`. -/
def qrOnlyLoop (n : Nat) : Nat → List QRCodeData → Bytes → Bytes
  | _, [], receipt => receipt
  | i, qrData :: rest, receipt =>
    let receipt := if i > 0 then receipt ++ lit "\n\n" else receipt
    -- Header - Service name
    let receipt := receipt ++ escAlignCenter
    let receipt := receipt ++ escBold true
    let receipt := receipt ++ escDoubleHeight true
    let receipt := receipt ++ (qrData.ServiceName ++ lit "\n")
    let receipt := receipt ++ escDoubleHeight false
    let receipt := receipt ++ escBold false
    -- Separator line
    let receipt := receipt ++ escAlignCenter
    let receipt := receipt ++ lit "================================\n"
    -- Order ID - Centered and Bold
    let receipt := receipt ++ escAlignCenter
    let receipt := receipt ++ escBold true
    let receipt := receipt ++ (lit "ORDER: " ++ qrData.OrderID ++ lit "\n")
    let receipt := receipt ++ escBold false
    -- Separator
    let receipt := receipt ++ escAlignCenter
    let receipt := receipt ++ lit "--------------------------------\n"
    -- Body content - Left aligned
    let receipt := receipt ++ escAlignLeft
    let receipt := receipt ++ qrData.Body
    -- Separator before QR code
    let receipt := receipt ++ escAlignCenter
    let receipt := receipt ++ lit "\n--------------------------------\n"
    -- QR CODE - Centered
    let receipt := receipt ++ lit "\n"
    let receipt := receipt ++ escAlignCenter
    let receipt := receipt ++ escQRCode qrData.QRValue
    -- Text below QR code
    let receipt := receipt ++ lit "\n\n"
    let receipt := receipt ++ escAlignCenter
    let receipt := receipt ++ escBold true
    let receipt := receipt ++ lit "Scan untuk update status\n"
    let receipt := receipt ++ escBold false
    -- Bottom spacing before cut (only after last QR code)
    let receipt :=
      if (i : Int) = (n : Int) - 1 then (receipt ++ lit "\n\n") ++ escCut else receipt
    qrOnlyLoop n (i + 1) rest receipt

/-- The loop `for i, qrData := range req.QRCodes` of the final `else` branch
(main.go, lines 333-386), with the same arguments as `qrOnlyLoop`. -/
def allLoop (n : Nat) : Nat → List QRCodeData → Bytes → Bytes
  | _, [], receipt => receipt
  | i, qrData :: rest, receipt =>
    let receipt := if i > 0 then receipt ++ lit "\n\n" else receipt
    -- Header - Service name
    let receipt := receipt ++ escAlignCenter
    let receipt := receipt ++ escBold true
    let receipt := receipt ++ escDoubleHeight true
    let receipt := receipt ++ (qrData.ServiceName ++ lit "\n")
    let receipt := receipt ++ escDoubleHeight false
    let receipt := receipt ++ escBold false
    -- Separator line
    let receipt := receipt ++ escAlignCenter
    let receipt := receipt ++ lit "================================\n"
    -- Order ID - Centered and Bold
    let receipt := receipt ++ escAlignCenter
    let receipt := receipt ++ escBold true
    let receipt := receipt ++ (lit "ORDER: " ++ qrData.OrderID ++ lit "\n")
    let receipt := receipt ++ escBold false
    -- Separator
    let receipt := receipt ++ escAlignCenter
    let receipt := receipt ++ lit "--------------------------------\n"
    -- Body content - Left aligned
    let receipt := receipt ++ escAlignLeft
    let receipt := receipt ++ qrData.Body
    -- Separator before QR code
    let receipt := receipt ++ escAlignCenter
    let receipt := receipt ++ lit "\n--------------------------------\n"
    -- QR CODE - Centered
    let receipt := receipt ++ lit "\n"
    let receipt := receipt ++ escAlignCenter
    let receipt := receipt ++ escQRCode qrData.QRValue
    -- Text below QR code
    let receipt := receipt ++ lit "\n\n"
    let receipt := receipt ++ escAlignCenter
    let receipt := receipt ++ escBold true
    let receipt := receipt ++ lit "Scan untuk update status\n"
    let receipt := receipt ++ escBold false
    -- Cut paper only after last QR code
    let receipt :=
      if (i : Int) = (n : Int) - 1 then (receipt ++ lit "\n\n") ++ escCut else receipt
    allLoop n (i + 1) rest receipt

/-- The byte buffer `receipt` that the handler `print` has composed when it
calls `writeToCOM(com, receipt)` (main.go, lines 131-419). The steps of the
handler before the composition (method, JSON decoding, token, COM port
detection) do not touch the buffer. -/
def printReceipt (req : PrintRequest) : Bytes :=
  let receipt : Bytes := []
  -- Initialize printer
  let receipt := receipt ++ escInit
  -- Determine print mode
  let printMode := req.PrintMode
  let printMode :=
    if printMode = lit "" then
      if req.QRCodes.length > 0 then lit "all"
      else if req.QRValue ≠ lit "" then lit "all"
      else lit "receipt-only"
    else printMode
  if printMode = lit "receipt-only" then
    -- Top spacing
    let receipt := receipt ++ lit "\n"
    -- Header - Branch name
    let receipt := receipt ++ escAlignCenter
    let receipt := receipt ++ escBold true
    let receipt := receipt ++ escDoubleHeight true
    let receipt := receipt ++ (req.Title ++ lit "\n")
    let receipt := receipt ++ escDoubleHeight false
    let receipt := receipt ++ escBold false
    -- Separator line (32 chars for 57mm paper)
    let receipt := receipt ++ escAlignCenter
    let receipt := receipt ++ lit "================================\n"
    -- Order ID - Centered and Bold
    let receipt := receipt ++ escAlignCenter
    let receipt := receipt ++ escBold true
    let receipt := receipt ++ (lit "ORDER: " ++ req.OrderID ++ lit "\n")
    let receipt := receipt ++ escBold false
    -- Separator
    let receipt := receipt ++ escAlignCenter
    let receipt := receipt ++ lit "--------------------------------\n"
    -- Body content - Left aligned
    let receipt := receipt ++ escAlignLeft
    let receipt := receipt ++ req.Body
    -- Bottom spacing and thank you message
    let receipt := receipt ++ escAlignCenter
    let receipt := receipt ++ lit "\n================================\n"
    let receipt := receipt ++ escBold true
    let receipt := receipt ++ lit "Terima kasih\n"
    let receipt := receipt ++ escBold false
    let receipt := receipt ++ lit "Atas kepercayaan Anda\n"
    -- Bottom spacing before cut
    let receipt := receipt ++ lit "\n\n"
    let receipt := receipt ++ escCut
    receipt
  else if printMode = lit "qr-only" then
    -- Print all QR codes from the array
    let receipt := qrOnlyLoop req.QRCodes.length 0 req.QRCodes receipt
    -- Backward compatibility: single QR value
    if req.QRCodes.length = 0 ∧ req.QRValue ≠ lit "" then
      let receipt := receipt ++ escAlignCenter
      let receipt := receipt ++ escBold true
      let receipt := receipt ++ escDoubleHeight true
      let receipt := receipt ++ (req.Title ++ lit "\n")
      let receipt := receipt ++ escDoubleHeight false
      let receipt := receipt ++ escBold false
      let receipt := receipt ++ escAlignCenter
      let receipt := receipt ++ lit "================================\n"
      let receipt := receipt ++ escAlignCenter
      let receipt := receipt ++ escBold true
      let receipt := receipt ++ (lit "ORDER: " ++ req.OrderID ++ lit "\n")
      let receipt := receipt ++ escBold false
      let receipt := receipt ++ escAlignCenter
      let receipt := receipt ++ lit "--------------------------------\n"
      let receipt := receipt ++ escAlignLeft
      let receipt := receipt ++ req.Body
      let receipt := receipt ++ escAlignCenter
      let receipt := receipt ++ lit "\n--------------------------------\n"
      let receipt := receipt ++ lit "\n"
      let receipt := receipt ++ escAlignCenter
      let receipt := receipt ++ escQRCode req.QRValue
      let receipt := receipt ++ lit "\n\n"
      let receipt := receipt ++ escAlignCenter
      let receipt := receipt ++ escBold true
      let receipt := receipt ++ lit "Scan untuk update status\n"
      let receipt := receipt ++ escBold false
      let receipt := receipt ++ lit "\n\n"
      let receipt := receipt ++ escCut
      receipt
    else receipt
  else
    -- ALL MODE: Print receipt, separator, then all QR codes
    -- 1. Print receipt
    let receipt := receipt ++ lit "\n"
    -- Header - Branch name
    let receipt := receipt ++ escAlignCenter
    let receipt := receipt ++ escBold true
    let receipt := receipt ++ escDoubleHeight true
    let receipt := receipt ++ (req.Title ++ lit "\n")
    let receipt := receipt ++ escDoubleHeight false
    let receipt := receipt ++ escBold false
    -- Separator line
    let receipt := receipt ++ escAlignCenter
    let receipt := receipt ++ lit "================================\n"
    -- Order ID - Centered and Bold
    let receipt := receipt ++ escAlignCenter
    let receipt := receipt ++ escBold true
    let receipt := receipt ++ (lit "ORDER: " ++ req.OrderID ++ lit "\n")
    let receipt := receipt ++ escBold false
    -- Separator
    let receipt := receipt ++ escAlignCenter
    let receipt := receipt ++ lit "--------------------------------\n"
    -- Body content - Left aligned
    let receipt := receipt ++ escAlignLeft
    let receipt := receipt ++ req.Body
    -- Bottom spacing and thank you message
    let receipt := receipt ++ escAlignCenter
    let receipt := receipt ++ lit "\n================================\n"
    let receipt := receipt ++ escBold true
    let receipt := receipt ++ lit "Terima kasih\n"
    let receipt := receipt ++ escBold false
    let receipt := receipt ++ lit "Atas kepercayaan Anda\n"
    -- 2. Print separator barrier
    let receipt := receipt ++ lit "\n\n"
    let receipt := receipt ++ escAlignCenter
    let receipt := receipt ++ lit "--------------------------------\n"
    let receipt := receipt ++ escAlignCenter
    let receipt := receipt ++ escBold true
    let receipt := receipt ++ lit "--- Untuk Staff ---\n"
    let receipt := receipt ++ escBold false
    let receipt := receipt ++ escAlignCenter
    let receipt := receipt ++ lit "--------------------------------\n"
    let receipt := receipt ++ lit "\n\n"
    -- 3. Print all QR codes
    let receipt := allLoop req.QRCodes.length 0 req.QRCodes receipt
    -- Backward compatibility: single QR value
    if req.QRCodes.length = 0 ∧ req.QRValue ≠ lit "" then
      let receipt := receipt ++ escAlignCenter
      let receipt := receipt ++ escBold true
      let receipt := receipt ++ escDoubleHeight true
      let receipt := receipt ++ (req.Title ++ lit "\n")
      let receipt := receipt ++ escDoubleHeight false
      let receipt := receipt ++ escBold false
      let receipt := receipt ++ escAlignCenter
      let receipt := receipt ++ lit "================================\n"
      let receipt := receipt ++ escAlignCenter
      let receipt := receipt ++ escBold true
      let receipt := receipt ++ (lit "ORDER: " ++ req.OrderID ++ lit "\n")
      let receipt := receipt ++ escBold false
      let receipt := receipt ++ escAlignCenter
      let receipt := receipt ++ lit "--------------------------------\n"
      let receipt := receipt ++ escAlignLeft
      let receipt := receipt ++ req.Body
      let receipt := receipt ++ escAlignCenter
      let receipt := receipt ++ lit "\n--------------------------------\n"
      let receipt := receipt ++ lit "\n"
      let receipt := receipt ++ escAlignCenter
      let receipt := receipt ++ escQRCode req.QRValue
      let receipt := receipt ++ lit "\n\n"
      let receipt := receipt ++ escAlignCenter
      let receipt := receipt ++ escBold true
      let receipt := receipt ++ lit "Scan untuk update status\n"
      let receipt := receipt ++ escBold false
      let receipt := receipt ++ lit "\n\n"
      let receipt := receipt ++ escCut
      receipt
    else receipt

/-! ## `src/linux/main.go` -/

namespace Linux

/-- Go `type PrintRequest struct` (linux/main.go, lines 20-27). -/
structure PrintRequest where
  Token : Bytes
  Title : Bytes
  OrderID : Bytes
  Body : Bytes
  QRValue : Bytes
  PrintMode : Bytes
deriving DecidableEq, Repr

/-- Go `escInit` (linux/main.go, line 239). -/
def escInit : Bytes := [0x1B, 0x40]

/-- Go `escBold(on bool)` (linux/main.go, line 243). -/
def escBold (isOn : Bool) : Bytes :=
  if isOn then [0x1B, 0x45, 0x01] else [0x1B, 0x45, 0x00]

/-- Go `escAlignCenter` (linux/main.go, line 250). -/
def escAlignCenter : Bytes := [0x1B, 0x61, 0x01]

/-- Go `escAlignLeft` (linux/main.go, line 254). -/
def escAlignLeft : Bytes := [0x1B, 0x61, 0x00]

/-- Go `escCut` (linux/main.go, line 258). -/
def escCut : Bytes := [0x1D, 0x56, 0x00]

/-- Go `escDoubleHeight(on bool)` (linux/main.go, line 262). -/
def escDoubleHeight (isOn : Bool) : Bytes :=
  if isOn then [0x1B, 0x21, 0x10] else [0x1B, 0x21, 0x00]

/-- Go `escUnderline(on bool)` (linux/main.go, line 269). -/
def escUnderline (isOn : Bool) : Bytes :=
  if isOn then [0x1B, 0x2D, 0x01] else [0x1B, 0x2D, 0x00]

/-- Go `escFontSize` (linux/main.go, line 276). -/
def escFontSize (normal : Bool) : Bytes :=
  if normal then [0x1B, 0x21, 0x00] else [0x1B, 0x21, 0x01]

/-- Go `escQRCode` (linux/main.go, lines 285-321). -/
def escQRCode (data : Bytes) : Bytes :=
  let cmd : Bytes := []
  -- Model 2
  let cmd := cmd ++ [0x1D, 0x28, 0x6B, 0x04, 0x00, 0x31, 0x41, 0x32, 0x00]
  -- Size (7)
  let cmd := cmd ++ [0x1D, 0x28, 0x6B, 0x03, 0x00, 0x31, 0x43, 0x07]
  -- Error correction level (M)
  let cmd := cmd ++ [0x1D, 0x28, 0x6B, 0x03, 0x00, 0x31, 0x45, 0x31]
  -- Store data
  let dataBytes := data
  let pL := toByte (dataBytes.length + 3)
  let pH := toByte 0x00
  let pH := if dataBytes.length + 3 > 255 then toByte ((dataBytes.length + 3) / 256) else pH
  let pL := if dataBytes.length + 3 > 255 then toByte ((dataBytes.length + 3) % 256) else pL
  let cmd := cmd ++ [0x1D, 0x28, 0x6B, pL, pH, 0x31, 0x50, 0x30]
  let cmd := cmd ++ dataBytes
  -- Print QR code
  let cmd := cmd ++ [0x1D, 0x28, 0x6B, 0x03, 0x00, 0x31, 0x51, 0x30]
  cmd

/-- The byte buffer `receipt` that `printHandler` has composed when it calls
`os.WriteFile(PRINTER_DEV, receipt, 0666)` (linux/main.go, lines 84-224). -/
def printHandlerReceipt (req : PrintRequest) : Bytes :=
  let receipt : Bytes := []
  -- Initialize printer
  let receipt := receipt ++ escInit
  -- Determine print mode
  let printMode := req.PrintMode
  let printMode :=
    if printMode = lit "" then
      if req.QRValue ≠ lit "" then lit "all"
      else lit "receipt-only"
    else printMode
  -- Top spacing
  let receipt := receipt ++ lit "\n"
  if printMode = lit "separator" then
    -- Add spacing before separator
    let receipt := receipt ++ lit "\n\n"
    -- Separator line
    let receipt := receipt ++ escAlignCenter
    let receipt := receipt ++ lit "--------------------------------\n"
    -- Text: --- Untuk Staff ---
    let receipt := receipt ++ escAlignCenter
    let receipt := receipt ++ escBold true
    let receipt := receipt ++ lit "--- Untuk Staff ---\n"
    let receipt := receipt ++ escBold false
    -- Separator line
    let receipt := receipt ++ escAlignCenter
    let receipt := receipt ++ lit "--------------------------------\n"
    -- Bottom spacing
    let receipt := receipt ++ lit "\n\n"
    -- Paper cut
    let receipt := receipt ++ escCut
    receipt
  else if printMode = lit "qr-only" then
    -- Staff label at the top
    let receipt := receipt ++ escAlignCenter
    let receipt := receipt ++ escBold true
    let receipt := receipt ++ escBold false
    -- Header - Service name
    let receipt := receipt ++ escAlignCenter
    let receipt := receipt ++ escBold true
    let receipt := receipt ++ escDoubleHeight true
    let receipt := receipt ++ (req.Title ++ lit "\n")
    let receipt := receipt ++ escDoubleHeight false
    let receipt := receipt ++ escBold false
    -- Separator line
    let receipt := receipt ++ escAlignCenter
    let receipt := receipt ++ lit "================================\n"
    -- Order ID - Centered and Bold
    let receipt := receipt ++ escAlignCenter
    let receipt := receipt ++ escBold true
    let receipt := receipt ++ (lit "ORDER: " ++ req.OrderID ++ lit "\n")
    let receipt := receipt ++ escBold false
    -- Separator
    let receipt := receipt ++ escAlignCenter
    let receipt := receipt ++ lit "--------------------------------\n"
    -- Body content - Left aligned
    let receipt := receipt ++ escAlignLeft
    let receipt := receipt ++ req.Body
    -- Separator before QR code
    let receipt := receipt ++ escAlignCenter
    let receipt := receipt ++ lit "\n--------------------------------\n"
    -- QR CODE - Centered
    let receipt := receipt ++ lit "\n"
    let receipt := receipt ++ escAlignCenter
    let receipt := receipt ++ escQRCode req.QRValue
    -- Text below QR code
    let receipt := receipt ++ lit "\n\n"
    let receipt := receipt ++ escAlignCenter
    let receipt := receipt ++ escBold true
    let receipt := receipt ++ lit "Scan untuk update status\n"
    let receipt := receipt ++ escBold false
    -- Bottom spacing before cut
    let receipt := receipt ++ lit "\n\n"
    let receipt := receipt ++ escCut
    receipt
  else
    -- RECEIPT-ONLY MODE or ALL MODE: Print receipt
    -- Header - Branch name
    let receipt := receipt ++ escAlignCenter
    let receipt := receipt ++ escBold true
    let receipt := receipt ++ escDoubleHeight true
    let receipt := receipt ++ (req.Title ++ lit "\n")
    let receipt := receipt ++ escDoubleHeight false
    let receipt := receipt ++ escBold false
    -- Separator line (32 chars for 57mm paper)
    let receipt := receipt ++ escAlignCenter
    let receipt := receipt ++ lit "================================\n"
    -- Order ID - Centered and Bold
    let receipt := receipt ++ escAlignCenter
    let receipt := receipt ++ escBold true
    let receipt := receipt ++ (lit "ORDER: " ++ req.OrderID ++ lit "\n")
    let receipt := receipt ++ escBold false
    -- Separator
    let receipt := receipt ++ escAlignCenter
    let receipt := receipt ++ lit "--------------------------------\n"
    -- Body content - Left aligned
    let receipt := receipt ++ escAlignLeft
    let receipt := receipt ++ req.Body
    -- Bottom spacing and thank you message
    let receipt := receipt ++ escAlignCenter
    let receipt := receipt ++ lit "\n================================\n"
    let receipt := receipt ++ escBold true
    let receipt := receipt ++ lit "Terima kasih\n"
    let receipt := receipt ++ escBold false
    let receipt := receipt ++ lit "Atas kepercayaan Anda\n"
    -- Bottom spacing before cut
    let receipt := receipt ++ lit "\n\n"
    -- Paper cut
    let receipt := receipt ++ escCut
    receipt

end Linux

/-! ## `src/app-windows/main.go` -/

namespace AppWindows

/-- Go `type QRCodeData struct` (app-windows/main.go, lines 36-41). -/
structure QRCodeData where
  ServiceName : Bytes
  OrderID : Bytes
  Body : Bytes
  QRValue : Bytes
deriving DecidableEq, Repr

/-- Go `type PrintRequest struct` (app-windows/main.go, lines 43-52). -/
structure PrintRequest where
  Token : Bytes
  Title : Bytes
  OrderID : Bytes
  Body : Bytes
  QRValue : Bytes
  PrintMode : Bytes
  QRCodes : List QRCodeData
  NoPaperCut : Bool
deriving DecidableEq, Repr

/-- Go `escInit` (app-windows/main.go). -/
def escInit : Bytes := [0x1B, 0x40]

/-- Go `escBold(on bool)` (app-windows/main.go). -/
def escBold (isOn : Bool) : Bytes :=
  if isOn then [0x1B, 0x45, 0x01] else [0x1B, 0x45, 0x00]

/-- Go `escAlignCenter` (app-windows/main.go). -/
def escAlignCenter : Bytes := [0x1B, 0x61, 0x01]

/-- Go `escAlignLeft` (app-windows/main.go). -/
def escAlignLeft : Bytes := [0x1B, 0x61, 0x00]

/-- Go `escCut` (app-windows/main.go). -/
def escCut : Bytes := [0x1D, 0x56, 0x00]

/-- Go `escDoubleHeight(on bool)` (app-windows/main.go). -/
def escDoubleHeight (isOn : Bool) : Bytes :=
  if isOn then [0x1B, 0x21, 0x10] else [0x1B, 0x21, 0x00]

/-- Go `escUnderline(on bool)` (app-windows/main.go). -/
def escUnderline (isOn : Bool) : Bytes :=
  if isOn then [0x1B, 0x2D, 0x01] else [0x1B, 0x2D, 0x00]

/-- Go `escFontSize` (app-windows/main.go). -/
def escFontSize (normal : Bool) : Bytes :=
  if normal then [0x1B, 0x21, 0x00] else [0x1B, 0x21, 0x01]

/-- Go `escQRCode` (app-windows/main.go): module size 6 and error correction
level H. -/
def escQRCode (data : Bytes) : Bytes :=
  let cmd : Bytes := []
  -- Model 2
  let cmd := cmd ++ [0x1D, 0x28, 0x6B, 0x04, 0x00, 0x31, 0x41, 0x32, 0x00]
  -- Size (6)
  let cmd := cmd ++ [0x1D, 0x28, 0x6B, 0x03, 0x00, 0x31, 0x43, 0x06]
  -- Error correction level (H)
  let cmd := cmd ++ [0x1D, 0x28, 0x6B, 0x03, 0x00, 0x31, 0x45, 0x33]
  -- Store data
  let dataBytes := data
  let pL := toByte (dataBytes.length + 3)
  let pH := toByte 0x00
  let pH := if dataBytes.length + 3 > 255 then toByte ((dataBytes.length + 3) / 256) else pH
  let pL := if dataBytes.length + 3 > 255 then toByte ((dataBytes.length + 3) % 256) else pL
  let cmd := cmd ++ [0x1D, 0x28, 0x6B, pL, pH, 0x31, 0x50, 0x30]
  let cmd := cmd ++ dataBytes
  -- Print QR code
  let cmd := cmd ++ [0x1D, 0x28, 0x6B, 0x03, 0x00, 0x31, 0x51, 0x30]
  cmd

/-- The loop `for i, qrData := range req.QRCodes` of the qr-only branch
(app-windows/main.go, lines 468-523): `n` is `len(req.QRCodes)`, then the index
`i`, the entries still to visit and the buffer `receipt`. -/
def qrOnlyLoop (req : PrintRequest) (n : Nat) : Nat → List QRCodeData → Bytes → Bytes
  | _, [], receipt => receipt
  | i, qrData :: rest, receipt =>
    let receipt := if i > 0 then receipt ++ lit "\n\n\n\n" else receipt
    -- Header - Service name
    let receipt := receipt ++ escAlignCenter
    let receipt := receipt ++ escBold true
    let receipt := receipt ++ escDoubleHeight true
    let receipt := receipt ++ (qrData.ServiceName ++ lit "\n")
    let receipt := receipt ++ escDoubleHeight false
    let receipt := receipt ++ escBold false
    -- Separator line
    let receipt := receipt ++ escAlignCenter
    let receipt := receipt ++ lit "================================\n"
    -- Order ID - Centered and Bold
    let receipt := receipt ++ escAlignCenter
    let receipt := receipt ++ escBold true
    let receipt := receipt ++ (lit "ORDER: " ++ qrData.OrderID ++ lit "\n")
    let receipt := receipt ++ escBold false
    -- Separator
    let receipt := receipt ++ escAlignCenter
    let receipt := receipt ++ lit "--------------------------------\n"
    -- Body content - Left aligned
    let receipt := receipt ++ escAlignLeft
    let receipt := receipt ++ qrData.Body
    -- Separator before QR code
    let receipt := receipt ++ escAlignCenter
    let receipt := receipt ++ lit "\n--------------------------------\n"
    -- QR CODE - Centered
    let receipt := receipt ++ lit "\n\n"
    let receipt := receipt ++ escAlignCenter
    let receipt := receipt ++ escQRCode qrData.QRValue
    let receipt := receipt ++ lit "\n"
    -- Text below QR code
    let receipt := receipt ++ lit "\n\n"
    let receipt := receipt ++ escAlignCenter
    let receipt := receipt ++ escBold true
    let receipt := receipt ++ lit "Scan untuk update status\n"
    let receipt := receipt ++ escBold false
    let receipt :=
      if (i : Int) = (n : Int) - 1 then
        ((receipt ++ lit "\n\n\n\n\n\n") ++ escCut) ++ escInit
      else receipt
    qrOnlyLoop req n (i + 1) rest receipt

/-- The loop `for i, qrData := range req.QRCodes` of the label branch
(app-windows/main.go, lines 561-603), with the arguments of `qrOnlyLoop`. -/
def labelLoop (req : PrintRequest) (n : Nat) : Nat → List QRCodeData → Bytes → Bytes
  | _, [], receipt => receipt
  | i, qrData :: rest, receipt =>
    let receipt := if i > 0 then receipt ++ lit "\n\n\n\n" else receipt
    -- 1. Branch Name (Title) - Centered, Bold
    let receipt := receipt ++ escAlignCenter
    let receipt := receipt ++ escBold true
    let receipt := receipt ++ escDoubleHeight true
    let receipt := receipt ++ (req.Title ++ lit "\n")
    let receipt := receipt ++ escDoubleHeight false
    let receipt := receipt ++ escBold false
    -- 2. Separator under Title
    let receipt := receipt ++ escAlignCenter
    let receipt := receipt ++ lit "--------------------------------\n"
    -- 3. Body (Details) - Left aligned
    let receipt := receipt ++ escAlignLeft
    let receipt := receipt ++ qrData.Body
    -- 4. Separator before QR
    let receipt := receipt ++ escAlignCenter
    let receipt := receipt ++ lit "--------------------------------\n"
    -- 5. Scan Barcode Text
    let receipt := receipt ++ lit "\n"
    let receipt := receipt ++ escAlignCenter
    let receipt := receipt ++ lit "Scan Barcode\n"
    -- 6. QR Code
    let receipt := receipt ++ lit "\n"
    let receipt := receipt ++ escQRCode qrData.QRValue
    let receipt := receipt ++ lit "\n"
    let receipt :=
      if (i : Int) = (n : Int) - 1 then
        ((receipt ++ lit "\n\n\n\n\n\n") ++ escCut) ++ escInit
      else receipt
    labelLoop req n (i + 1) rest receipt

/-- The loop `for i, qrData := range req.QRCodes` of the final `else` branch
(app-windows/main.go, lines 647-689), with the arguments of `qrOnlyLoop`. -/
def allLoop (req : PrintRequest) (n : Nat) : Nat → List QRCodeData → Bytes → Bytes
  | _, [], receipt => receipt
  | i, qrData :: rest, receipt =>
    let receipt := if i > 0 then receipt ++ lit "\n\n\n\n" else receipt
    -- 1. Branch Name (Title) - Centered, Bold
    let receipt := receipt ++ escAlignCenter
    let receipt := receipt ++ escBold true
    let receipt := receipt ++ escDoubleHeight true
    let receipt := receipt ++ (req.Title ++ lit "\n")
    let receipt := receipt ++ escDoubleHeight false
    let receipt := receipt ++ escBold false
    -- 2. Separator under Title
    let receipt := receipt ++ escAlignCenter
    let receipt := receipt ++ lit "--------------------------------\n"
    -- 3. Body (Details) - Left aligned
    let receipt := receipt ++ escAlignLeft
    let receipt := receipt ++ qrData.Body
    -- 4. Separator before QR
    let receipt := receipt ++ escAlignCenter
    let receipt := receipt ++ lit "--------------------------------\n"
    -- 5. Scan Barcode Text
    let receipt := receipt ++ lit "\n"
    let receipt := receipt ++ escAlignCenter
    let receipt := receipt ++ lit "Scan Barcode\n"
    -- 6. QR Code
    let receipt := receipt ++ lit "\n"
    let receipt := receipt ++ escQRCode qrData.QRValue
    let receipt := receipt ++ lit "\n"
    let receipt :=
      if (i : Int) = (n : Int) - 1 then
        ((receipt ++ lit "\n\n\n\n\n\n") ++ escCut) ++ escInit
      else receipt
    allLoop req n (i + 1) rest receipt

/-- The byte buffer `receipt` that `printHandler` has composed when it calls
`writeToCOM(com, receipt)` (app-windows/main.go, lines 410-724). The steps of
the handler before the composition (method, JSON decoding, token, selected COM
port) do not touch the buffer. -/
def printHandlerReceipt (req : PrintRequest) : Bytes :=
  let receipt : Bytes := []
  -- Initialize printer
  let receipt := receipt ++ escInit
  -- Determine print mode
  let printMode := req.PrintMode
  let printMode :=
    if printMode = lit "" then
      if req.QRCodes.length > 0 then lit "all"
      else if req.QRValue ≠ lit "" then lit "all"
      else lit "receipt-only"
    else printMode
  if printMode = lit "receipt-only" then
    -- Top spacing
    let receipt := receipt ++ lit "\n"
    -- Header - Branch name (Centered, Bold)
    let receipt := receipt ++ escAlignCenter
    let receipt := receipt ++ escBold true
    let receipt := receipt ++ escDoubleHeight true
    let receipt := receipt ++ (req.Title ++ lit "\n")
    let receipt := receipt ++ escDoubleHeight false
    let receipt := receipt ++ escBold false
    -- Separator under Title
    let receipt := receipt ++ escAlignCenter
    let receipt := receipt ++ lit "--------------------------------\n"
    -- Spacing after title
    let receipt := receipt ++ lit "\n"
    -- Body content - Left aligned
    let receipt := receipt ++ escAlignLeft
    let receipt := receipt ++ req.Body
    -- Bottom spacing
    let receipt := receipt ++ lit "\n"
    -- Thank you message - Centered
    let receipt := receipt ++ escAlignCenter
    let receipt := receipt ++ lit "Terimakasih\n"
    let receipt := receipt ++ lit "Atas Kepercayaan Anda\n"
    -- Bottom spacing before cut
    let receipt := receipt ++ lit "\n\n\n\n\n\n"
    let receipt := receipt ++ escCut
    let receipt := receipt ++ escInit
    receipt
  else if printMode = lit "qr-only" then
    -- Print all QR codes from the array
    let receipt := qrOnlyLoop req req.QRCodes.length 0 req.QRCodes receipt
    -- Backward compatibility: single QR value
    if req.QRCodes.length = 0 ∧ req.QRValue ≠ lit "" then
      let receipt := receipt ++ escAlignCenter
      let receipt := receipt ++ escBold true
      let receipt := receipt ++ escDoubleHeight true
      let receipt := receipt ++ (req.Title ++ lit "\n")
      let receipt := receipt ++ escDoubleHeight false
      let receipt := receipt ++ escBold false
      let receipt := receipt ++ escAlignCenter
      let receipt := receipt ++ lit "================================\n"
      let receipt := receipt ++ escAlignCenter
      let receipt := receipt ++ escBold true
      let receipt := receipt ++ (lit "ORDER: " ++ req.OrderID ++ lit "\n")
      let receipt := receipt ++ escBold false
      let receipt := receipt ++ escAlignCenter
      let receipt := receipt ++ lit "--------------------------------\n"
      let receipt := receipt ++ escAlignLeft
      let receipt := receipt ++ req.Body
      let receipt := receipt ++ escAlignCenter
      let receipt := receipt ++ lit "\n--------------------------------\n"
      let receipt := receipt ++ lit "\n\n"
      let receipt := receipt ++ escAlignCenter
      let receipt := receipt ++ escQRCode req.QRValue
      let receipt := receipt ++ lit "\n"
      let receipt := receipt ++ lit "\n\n"
      let receipt := receipt ++ escAlignCenter
      let receipt := receipt ++ escBold true
      let receipt := receipt ++ lit "Scan untuk update status\n"
      let receipt := receipt ++ escBold false
      let receipt := receipt ++ lit "\n\n\n\n\n\n"
      let receipt := receipt ++ escCut
      let receipt := receipt ++ escInit
      receipt
    else receipt
  else if printMode = lit "label" then
    -- Print all QR codes from the array
    let receipt := labelLoop req req.QRCodes.length 0 req.QRCodes receipt
    receipt
  else
    -- ALL MODE: Print receipt, separator, then all QR codes
    -- 1. Print receipt
    let receipt := receipt ++ lit "\n"
    -- Header - Branch name (Centered, Bold)
    let receipt := receipt ++ escAlignCenter
    let receipt := receipt ++ escBold true
    let receipt := receipt ++ (req.Title ++ lit "\n")
    let receipt := receipt ++ escBold false
    -- Separator under Title
    let receipt := receipt ++ escAlignCenter
    let receipt := receipt ++ lit "--------------------------------\n"
    -- Spacing after title
    let receipt := receipt ++ lit "\n"
    -- Body content - Left aligned
    let receipt := receipt ++ escAlignLeft
    let receipt := receipt ++ req.Body
    -- Bottom spacing
    let receipt := receipt ++ lit "\n"
    -- Thank you message - Centered
    let receipt := receipt ++ escAlignCenter
    let receipt := receipt ++ lit "Terimakasih\n"
    let receipt := receipt ++ lit "Atas Kepercayaan Anda\n"
    -- 2. Print separator barrier
    let receipt := receipt ++ lit "\n\n"
    let receipt := receipt ++ escAlignCenter
    let receipt := receipt ++ lit "--------------------------------\n"
    let receipt := receipt ++ escAlignCenter
    let receipt := receipt ++ escBold true
    let receipt := receipt ++ lit "--- Untuk Staff ---\n"
    let receipt := receipt ++ escBold false
    let receipt := receipt ++ escAlignCenter
    let receipt := receipt ++ lit "--------------------------------\n"
    let receipt := receipt ++ lit "\n\n"
    -- 3. Print all QR codes
    let receipt := allLoop req req.QRCodes.length 0 req.QRCodes receipt
    -- Backward compatibility: single QR value
    if req.QRCodes.length = 0 ∧ req.QRValue ≠ lit "" then
      let receipt := receipt ++ escAlignCenter
      let receipt := receipt ++ escBold true
      let receipt := receipt ++ escDoubleHeight true
      let receipt := receipt ++ (req.Title ++ lit "\n")
      let receipt := receipt ++ escDoubleHeight false
      let receipt := receipt ++ escBold false
      let receipt := receipt ++ escAlignCenter
      let receipt := receipt ++ lit "================================\n"
      let receipt := receipt ++ escAlignCenter
      let receipt := receipt ++ escBold true
      let receipt := receipt ++ (lit "ORDER: " ++ req.OrderID ++ lit "\n")
      let receipt := receipt ++ escBold false
      let receipt := receipt ++ escAlignCenter
      let receipt := receipt ++ lit "--------------------------------\n"
      let receipt := receipt ++ escAlignLeft
      let receipt := receipt ++ req.Body
      let receipt := receipt ++ escAlignCenter
      let receipt := receipt ++ lit "\n--------------------------------\n"
      let receipt := receipt ++ lit "\n\n"
      let receipt := receipt ++ escAlignCenter
      let receipt := receipt ++ escQRCode req.QRValue
      let receipt := receipt ++ lit "\n"
      let receipt := receipt ++ lit "\n\n"
      let receipt := receipt ++ escAlignCenter
      let receipt := receipt ++ escBold true
      let receipt := receipt ++ lit "Scan untuk update status\n"
      let receipt := receipt ++ escBold false
      let receipt := receipt ++ lit "\n\n\n\n\n\n"
      let receipt := receipt ++ escCut
      let receipt := receipt ++ escInit
      receipt
    else receipt

end AppWindows

/-! ## `src/app-windows/main-console.go` -/

namespace Console

/-- Go `escInit` (main-console.go). -/
def escInit : Bytes := [0x1B, 0x40]

/-- Go `escBold(on bool)` (main-console.go). -/
def escBold (isOn : Bool) : Bytes :=
  if isOn then [0x1B, 0x45, 0x01] else [0x1B, 0x45, 0x00]

/-- Go `escAlignCenter` (main-console.go). -/
def escAlignCenter : Bytes := [0x1B, 0x61, 0x01]

/-- Go `escAlignLeft` (main-console.go). -/
def escAlignLeft : Bytes := [0x1B, 0x61, 0x00]

/-- Go `escCut` (main-console.go). -/
def escCut : Bytes := [0x1D, 0x56, 0x00]

/-- Go `escDoubleHeight(on bool)` (main-console.go). -/
def escDoubleHeight (isOn : Bool) : Bytes :=
  if isOn then [0x1B, 0x21, 0x10] else [0x1B, 0x21, 0x00]

/-- Go `escUnderline(on bool)` (main-console.go). -/
def escUnderline (isOn : Bool) : Bytes :=
  if isOn then [0x1B, 0x2D, 0x01] else [0x1B, 0x2D, 0x00]

/-- Go `escFontSize` (main-console.go). -/
def escFontSize (normal : Bool) : Bytes :=
  if normal then [0x1B, 0x21, 0x00] else [0x1B, 0x21, 0x01]

/-- Go `escQRCode` (main-console.go, lines 715-751). -/
def escQRCode (data : Bytes) : Bytes :=
  let cmd : Bytes := []
  -- Model 2
  let cmd := cmd ++ [0x1D, 0x28, 0x6B, 0x04, 0x00, 0x31, 0x41, 0x32, 0x00]
  -- Size (7)
  let cmd := cmd ++ [0x1D, 0x28, 0x6B, 0x03, 0x00, 0x31, 0x43, 0x07]
  -- Error correction level (M)
  let cmd := cmd ++ [0x1D, 0x28, 0x6B, 0x03, 0x00, 0x31, 0x45, 0x31]
  -- Store data
  let dataBytes := data
  let pL := toByte (dataBytes.length + 3)
  let pH := toByte 0x00
  let pH := if dataBytes.length + 3 > 255 then toByte ((dataBytes.length + 3) / 256) else pH
  let pL := if dataBytes.length + 3 > 255 then toByte ((dataBytes.length + 3) % 256) else pL
  let cmd := cmd ++ [0x1D, 0x28, 0x6B, pL, pH, 0x31, 0x50, 0x30]
  let cmd := cmd ++ dataBytes
  -- Print QR code
  let cmd := cmd ++ [0x1D, 0x28, 0x6B, 0x03, 0x00, 0x31, 0x51, 0x30]
  cmd

/-- The loop `for i, qrData := range req.QRCodes` of the qr-only branch
(main-console.go, lines 335-388): `n` is `len(req.QRCodes)`, then the index
`i`, the entries still to visit and the buffer `receipt`. -/
def qrOnlyLoop (n : Nat) : Nat → List QRCodeData → Bytes → Bytes
  | _, [], receipt => receipt
  | i, qrData :: rest, receipt =>
    let receipt := if i > 0 then receipt ++ lit "\n\n" else receipt
    -- Header - Service name
    let receipt := receipt ++ escAlignCenter
    let receipt := receipt ++ escBold true
    let receipt := receipt ++ escDoubleHeight true
    let receipt := receipt ++ (qrData.ServiceName ++ lit "\n")
    let receipt := receipt ++ escDoubleHeight false
    let receipt := receipt ++ escBold false
    -- Separator line
    let receipt := receipt ++ escAlignCenter
    let receipt := receipt ++ lit "================================\n"
    -- Order ID - Centered and Bold
    let receipt := receipt ++ escAlignCenter
    let receipt := receipt ++ escBold true
    let receipt := receipt ++ (lit "ORDER: " ++ qrData.OrderID ++ lit "\n")
    let receipt := receipt ++ escBold false
    -- Separator
    let receipt := receipt ++ escAlignCenter
    let receipt := receipt ++ lit "--------------------------------\n"
    -- Body content - Left aligned
    let receipt := receipt ++ escAlignLeft
    let receipt := receipt ++ qrData.Body
    -- Separator before QR code
    let receipt := receipt ++ escAlignCenter
    let receipt := receipt ++ lit "\n--------------------------------\n"
    -- QR CODE - Centered
    let receipt := receipt ++ lit "\n"
    let receipt := receipt ++ escAlignCenter
    let receipt := receipt ++ escQRCode qrData.QRValue
    -- Text below QR code
    let receipt := receipt ++ lit "\n\n"
    let receipt := receipt ++ escAlignCenter
    let receipt := receipt ++ escBold true
    let receipt := receipt ++ lit "Scan untuk update status\n"
    let receipt := receipt ++ escBold false
    let receipt :=
      if (i : Int) = (n : Int) - 1 then (receipt ++ lit "\n\n") ++ escCut else receipt
    qrOnlyLoop n (i + 1) rest receipt

/-- The loop `for i, qrData := range req.QRCodes` of the final `else` branch
(main-console.go, lines 473-526), with the arguments of `qrOnlyLoop`. -/
def allLoop (n : Nat) : Nat → List QRCodeData → Bytes → Bytes
  | _, [], receipt => receipt
  | i, qrData :: rest, receipt =>
    let receipt := if i > 0 then receipt ++ lit "\n\n" else receipt
    -- Header - Service name
    let receipt := receipt ++ escAlignCenter
    let receipt := receipt ++ escBold true
    let receipt := receipt ++ escDoubleHeight true
    let receipt := receipt ++ (qrData.ServiceName ++ lit "\n")
    let receipt := receipt ++ escDoubleHeight false
    let receipt := receipt ++ escBold false
    -- Separator line
    let receipt := receipt ++ escAlignCenter
    let receipt := receipt ++ lit "================================\n"
    -- Order ID - Centered and Bold
    let receipt := receipt ++ escAlignCenter
    let receipt := receipt ++ escBold true
    let receipt := receipt ++ (lit "ORDER: " ++ qrData.OrderID ++ lit "\n")
    let receipt := receipt ++ escBold false
    -- Separator
    let receipt := receipt ++ escAlignCenter
    let receipt := receipt ++ lit "--------------------------------\n"
    -- Body content - Left aligned
    let receipt := receipt ++ escAlignLeft
    let receipt := receipt ++ qrData.Body
    -- Separator before QR code
    let receipt := receipt ++ escAlignCenter
    let receipt := receipt ++ lit "\n--------------------------------\n"
    -- QR CODE - Centered
    let receipt := receipt ++ lit "\n"
    let receipt := receipt ++ escAlignCenter
    let receipt := receipt ++ escQRCode qrData.QRValue
    -- Text below QR code
    let receipt := receipt ++ lit "\n\n"
    let receipt := receipt ++ escAlignCenter
    let receipt := receipt ++ escBold true
    let receipt := receipt ++ lit "Scan untuk update status\n"
    let receipt := receipt ++ escBold false
    let receipt :=
      if (i : Int) = (n : Int) - 1 then (receipt ++ lit "\n\n") ++ escCut else receipt
    allLoop n (i + 1) rest receipt

/-- The byte buffer `receipt` that `printHandler` has composed when it calls
`writeToCOM(com, receipt)` (main-console.go, lines 271-559). The request type
of main-console.go (lines 31-48) has the fields of the request type of main.go,
with the same names, types and JSON tags, so the decoded request is the same
value. -/
def printHandlerReceipt (req : PrintRequest) : Bytes :=
  let receipt : Bytes := []
  -- Initialize printer
  let receipt := receipt ++ escInit
  -- Determine print mode
  let printMode := req.PrintMode
  let printMode :=
    if printMode = lit "" then
      if req.QRCodes.length > 0 then lit "all"
      else if req.QRValue ≠ lit "" then lit "all"
      else lit "receipt-only"
    else printMode
  if printMode = lit "receipt-only" then
    -- Top spacing
    let receipt := receipt ++ lit "\n"
    -- Header - Branch name
    let receipt := receipt ++ escAlignCenter
    let receipt := receipt ++ escBold true
    let receipt := receipt ++ escDoubleHeight true
    let receipt := receipt ++ (req.Title ++ lit "\n")
    let receipt := receipt ++ escDoubleHeight false
    let receipt := receipt ++ escBold false
    -- Separator line (32 chars for 57mm paper)
    let receipt := receipt ++ escAlignCenter
    let receipt := receipt ++ lit "================================\n"
    -- Order ID - Centered and Bold
    let receipt := receipt ++ escAlignCenter
    let receipt := receipt ++ escBold true
    let receipt := receipt ++ (lit "ORDER: " ++ req.OrderID ++ lit "\n")
    let receipt := receipt ++ escBold false
    -- Separator
    let receipt := receipt ++ escAlignCenter
    let receipt := receipt ++ lit "--------------------------------\n"
    -- Body content - Left aligned
    let receipt := receipt ++ escAlignLeft
    let receipt := receipt ++ req.Body
    -- Bottom spacing and thank you message
    let receipt := receipt ++ escAlignCenter
    let receipt := receipt ++ lit "\n================================\n"
    let receipt := receipt ++ escBold true
    let receipt := receipt ++ lit "Terima kasih\n"
    let receipt := receipt ++ escBold false
    let receipt := receipt ++ lit "Atas kepercayaan Anda\n"
    -- Bottom spacing before cut
    let receipt := receipt ++ lit "\n\n"
    let receipt := receipt ++ escCut
    receipt
  else if printMode = lit "qr-only" then
    -- Print all QR codes from the array
    let receipt := qrOnlyLoop req.QRCodes.length 0 req.QRCodes receipt
    -- Backward compatibility: single QR value
    if req.QRCodes.length = 0 ∧ req.QRValue ≠ lit "" then
      let receipt := receipt ++ escAlignCenter
      let receipt := receipt ++ escBold true
      let receipt := receipt ++ escDoubleHeight true
      let receipt := receipt ++ (req.Title ++ lit "\n")
      let receipt := receipt ++ escDoubleHeight false
      let receipt := receipt ++ escBold false
      let receipt := receipt ++ escAlignCenter
      let receipt := receipt ++ lit "================================\n"
      let receipt := receipt ++ escAlignCenter
      let receipt := receipt ++ escBold true
      let receipt := receipt ++ (lit "ORDER: " ++ req.OrderID ++ lit "\n")
      let receipt := receipt ++ escBold false
      let receipt := receipt ++ escAlignCenter
      let receipt := receipt ++ lit "--------------------------------\n"
      let receipt := receipt ++ escAlignLeft
      let receipt := receipt ++ req.Body
      let receipt := receipt ++ escAlignCenter
      let receipt := receipt ++ lit "\n--------------------------------\n"
      let receipt := receipt ++ lit "\n"
      let receipt := receipt ++ escAlignCenter
      let receipt := receipt ++ escQRCode req.QRValue
      let receipt := receipt ++ lit "\n\n"
      let receipt := receipt ++ escAlignCenter
      let receipt := receipt ++ escBold true
      let receipt := receipt ++ lit "Scan untuk update status\n"
      let receipt := receipt ++ escBold false
      let receipt := receipt ++ lit "\n\n"
      let receipt := receipt ++ escCut
      receipt
    else receipt
  else
    -- ALL MODE: Print receipt, separator, then all QR codes
    -- 1. Print receipt
    let receipt := receipt ++ lit "\n"
    -- Header - Branch name
    let receipt := receipt ++ escAlignCenter
    let receipt := receipt ++ escBold true
    let receipt := receipt ++ escDoubleHeight true
    let receipt := receipt ++ (req.Title ++ lit "\n")
    let receipt := receipt ++ escDoubleHeight false
    let receipt := receipt ++ escBold false
    -- Separator line
    let receipt := receipt ++ escAlignCenter
    let receipt := receipt ++ lit "================================\n"
    -- Order ID - Centered and Bold
    let receipt := receipt ++ escAlignCenter
    let receipt := receipt ++ escBold true
    let receipt := receipt ++ (lit "ORDER: " ++ req.OrderID ++ lit "\n")
    let receipt := receipt ++ escBold false
    -- Separator
    let receipt := receipt ++ escAlignCenter
    let receipt := receipt ++ lit "--------------------------------\n"
    -- Body content - Left aligned
    let receipt := receipt ++ escAlignLeft
    let receipt := receipt ++ req.Body
    -- Bottom spacing and thank you message
    let receipt := receipt ++ escAlignCenter
    let receipt := receipt ++ lit "\n================================\n"
    let receipt := receipt ++ escBold true
    let receipt := receipt ++ lit "Terima kasih\n"
    let receipt := receipt ++ escBold false
    let receipt := receipt ++ lit "Atas kepercayaan Anda\n"
    -- 2. Print separator barrier
    let receipt := receipt ++ lit "\n\n"
    let receipt := receipt ++ escAlignCenter
    let receipt := receipt ++ lit "--------------------------------\n"
    let receipt := receipt ++ escAlignCenter
    let receipt := receipt ++ escBold true
    let receipt := receipt ++ lit "--- Untuk Staff ---\n"
    let receipt := receipt ++ escBold false
    let receipt := receipt ++ escAlignCenter
    let receipt := receipt ++ lit "--------------------------------\n"
    let receipt := receipt ++ lit "\n\n"
    -- 3. Print all QR codes
    let receipt := allLoop req.QRCodes.length 0 req.QRCodes receipt
    -- Backward compatibility: single QR value
    if req.QRCodes.length = 0 ∧ req.QRValue ≠ lit "" then
      let receipt := receipt ++ escAlignCenter
      let receipt := receipt ++ escBold true
      let receipt := receipt ++ escDoubleHeight true
      let receipt := receipt ++ (req.Title ++ lit "\n")
      let receipt := receipt ++ escDoubleHeight false
      let receipt := receipt ++ escBold false
      let receipt := receipt ++ escAlignCenter
      let receipt := receipt ++ lit "================================\n"
      let receipt := receipt ++ escAlignCenter
      let receipt := receipt ++ escBold true
      let receipt := receipt ++ (lit "ORDER: " ++ req.OrderID ++ lit "\n")
      let receipt := receipt ++ escBold false
      let receipt := receipt ++ escAlignCenter
      let receipt := receipt ++ lit "--------------------------------\n"
      let receipt := receipt ++ escAlignLeft
      let receipt := receipt ++ req.Body
      let receipt := receipt ++ escAlignCenter
      let receipt := receipt ++ lit "\n--------------------------------\n"
      let receipt := receipt ++ lit "\n"
      let receipt := receipt ++ escAlignCenter
      let receipt := receipt ++ escQRCode req.QRValue
      let receipt := receipt ++ lit "\n\n"
      let receipt := receipt ++ escAlignCenter
      let receipt := receipt ++ escBold true
      let receipt := receipt ++ lit "Scan untuk update status\n"
      let receipt := receipt ++ escBold false
      let receipt := receipt ++ lit "\n\n"
      let receipt := receipt ++ escCut
      receipt
    else receipt

end Console

/-! ## The handler `print` of `src/main.go` (lines 107-430) -/

/-- Go `const API_TOKEN` (main.go, line 18). -/
def API_TOKEN : Bytes := lit "CLEANLINK_SECRET_123"

/-- The part of an `*http.Request` that `print` reads: the method and the
body. -/
structure HttpRequest where
  Method : Bytes
  Body : Bytes
deriving DecidableEq, Repr

/-- The collaborators of `print` outside the composition: the JSON decoder of
the standard library, the printer detection and the device write, each given
by its result in the run under consideration. -/
structure World where
  /-- Result of `json.NewDecoder(r.Body).Decode(&req)`: the decoded request, or
  nothing when decoding returns an error. -/
  decodeJSON : Bytes → Option PrintRequest
  /-- Result of `detectPrinterCOM()`: an error message or the COM port. -/
  detectPrinterCOM : Except Bytes Bytes
  /-- Result of `writeToCOM(com, data)`: an error message, or nothing on
  success. -/
  writeToCOM : Bytes → Bytes → Option Bytes

/-- The steps with an effect or a cost that `print` performs, in the order it
performs them. -/
inductive Effect where
  | detectPrinter
  | compose (req : PrintRequest)
  | writeDevice (com data : Bytes)
deriving DecidableEq, Repr

/-- The answer of `print`: the HTTP status, the message given to `http.Error`
or to `w.Write`, and the steps performed. -/
structure Response where
  status : Nat
  message : Bytes
  effects : List Effect
deriving DecidableEq, Repr

/-- Go `print` (main.go, lines 107-430): the checks before the composition,
the composition `printReceipt`, the device write and the answer. -/
def print (w : World) (r : HttpRequest) : Response :=
  if r.Method ≠ lit "POST" then
    ⟨405, lit "Method not allowed", []⟩
  else
    match w.decodeJSON r.Body with
    | none => ⟨400, lit "Invalid JSON", []⟩
    | some req =>
      if req.Token ≠ API_TOKEN then
        ⟨401, lit "Unauthorized", []⟩
      else
        match w.detectPrinterCOM with
        | .error err => ⟨500, err, [Effect.detectPrinter]⟩
        | .ok com =>
          let receipt := printReceipt req
          match w.writeToCOM com receipt with
          | some err =>
            ⟨500, err, [Effect.detectPrinter, Effect.compose req, Effect.writeDevice com receipt]⟩
          | none =>
            ⟨200, lit "\x7b\"status\":\"printed\",\"com\":\"" ++ com ++ lit "\"\x7d",
              [Effect.detectPrinter, Effect.compose req, Effect.writeDevice com receipt]⟩

/-! ## The printer dropdown of `src/app-windows/main.go` (lines 117-132, 159-170) -/

namespace AppWindows

/-- The scan behind `lastIndexByte`: the index of the last byte `c` seen so
far, `acc`, while `i` is the index of the head of the list. -/
def lastIndexFrom (c : Nat) : Bytes → Nat → Int → Int
  | [], _, acc => acc
  | b :: rest, i, acc => lastIndexFrom c rest (i + 1) (if b = c then (i : Int) else acc)

/-- Go `strings.LastIndex(s, sep)` of the standard library for a separator of
one byte `c`: the index of the last `c` in `s`, or -1. -/
def lastIndexByte (s : Bytes) (c : Nat) : Int := lastIndexFrom c s 0 (-1)

/-- Go `strings.HasSuffix(s, suffix)` of the standard library. -/
def hasSuffix (s suffix : Bytes) : Bool :=
  decide (suffix.length ≤ s.length) && s.drop (s.length - suffix.length) == suffix

/-- Go `strings.TrimSuffix(s, suffix)` of the standard library. -/
def trimSuffix (s suffix : Bytes) : Bytes :=
  if hasSuffix s suffix then s.take (s.length - suffix.length) else s

/-- The dropdown option of a printer: `fmt.Sprintf("%s (%s)", p.Name,
p.DeviceID)` (app-windows/main.go, line 119). -/
def formatOption (name deviceID : Bytes) : Bytes :=
  name ++ lit " (" ++ deviceID ++ lit ")"

/-- The callback of `printerSelect` (app-windows/main.go, lines 159-170): the
value it assigns to `selectedPrinterCOM`, or nothing when it assigns none. -/
def selectedPort (value : Bytes) : Option Bytes :=
  if value ≠ lit "" then
    let lastParenIndex := lastIndexByte value 0x28
    if lastParenIndex ≠ -1 then
      let comPort := trimSuffix (value.drop (lastParenIndex + 1).toNat) (lit ")")
      some comPort
    else none
  else none

/-- The variable `firstCOMPort` of the detect callback (app-windows/main.go,
lines 122-131) for the list `options`. -/
def firstCOMPort (options : List Bytes) : Bytes :=
  match options with
  | [] => lit ""
  | firstOption :: _ =>
    let lastParenIndex := lastIndexByte firstOption 0x28
    if lastParenIndex ≠ -1 then
      trimSuffix (firstOption.drop (lastParenIndex + 1).toNat) (lit ")")
    else lit ""

end AppWindows

/-! ## Definitions used to state the properties -/

/-- The low length byte of the store-data group for a payload of `n` bytes. -/
def lenLow (n : Nat) : Nat := (n + 3) % 256

/-- The high length byte of the store-data group for a payload of `n` bytes. -/
def lenHigh (n : Nat) : Nat := ((n + 3) / 256) % 256

/-- The line feed byte. -/
def LF : Nat := 0x0A

/-- A separator line: 32 characters `=` and a line feed. -/
def sepEq : Bytes := List.replicate 32 0x3D ++ [LF]

/-- A separator line: 32 characters `-` and a line feed. -/
def sepDash : Bytes := List.replicate 32 0x2D ++ [LF]

/-- The receipt text for a title, an order id and a body: what stands between
the initialize command and the two blank lines before the cut. -/
def receiptText (title orderID body : Bytes) : Bytes :=
  [LF] ++ (escAlignCenter ++ (escBold true ++ (escDoubleHeight true ++ (title ++ ([LF] ++
  (escDoubleHeight false ++ (escBold false ++ (escAlignCenter ++ (sepEq ++
  (escAlignCenter ++ (escBold true ++ (lit "ORDER: " ++ (orderID ++ ([LF] ++
  (escBold false ++ (escAlignCenter ++ (sepDash ++ (escAlignLeft ++ (body ++
  (escAlignCenter ++ ([LF] ++ (sepEq ++ (escBold true ++ (lit "Terima kasih" ++ ([LF] ++
  (escBold false ++ (lit "Atas kepercayaan Anda" ++ [LF])))))))))))))))))))))))))))

/-- The fixed staff banner that separates the receipt from the labels. -/
def staffBanner : Bytes :=
  escAlignCenter ++ (sepDash ++ (escAlignCenter ++ (escBold true ++
  (lit "--- Untuk Staff ---" ++ ([LF] ++ (escBold false ++ (escAlignCenter ++
  (sepDash ++ [LF, LF]))))))))

/-- The block printed for one label: header, order id, body, QR code and
caption. -/
def qrBlock (e : QRCodeData) : Bytes :=
  escAlignCenter ++ (escBold true ++ (escDoubleHeight true ++ (e.ServiceName ++ ([LF] ++
  (escDoubleHeight false ++ (escBold false ++ (escAlignCenter ++ (sepEq ++
  (escAlignCenter ++ (escBold true ++ (lit "ORDER: " ++ (e.OrderID ++ ([LF] ++
  (escBold false ++ (escAlignCenter ++ (sepDash ++ (escAlignLeft ++ (e.Body ++
  (escAlignCenter ++ ([LF] ++ (sepDash ++ ([LF] ++ (escAlignCenter ++
  (escQRCode e.QRValue ++ ([LF, LF] ++ (escAlignCenter ++ (escBold true ++
  (lit "Scan untuk update status" ++ ([LF] ++ escBold false)))))))))))))))))))))))))))))

/-- The part of a label block that stands before its QR code command group. -/
def labelHead (e : QRCodeData) : Bytes :=
  escAlignCenter ++ (escBold true ++ (escDoubleHeight true ++ (e.ServiceName ++ ([LF] ++
  (escDoubleHeight false ++ (escBold false ++ (escAlignCenter ++ (sepEq ++
  (escAlignCenter ++ (escBold true ++ (lit "ORDER: " ++ (e.OrderID ++ ([LF] ++
  (escBold false ++ (escAlignCenter ++ (sepDash ++ (escAlignLeft ++ (e.Body ++
  (escAlignCenter ++ ([LF] ++ (sepDash ++ ([LF] ++ escAlignCenter))))))))))))))))))))))

/-- The blocks of the entries after the first one, each behind a spacer of
two line feeds. -/
def spacedBlocks : List QRCodeData → Bytes
  | [] => []
  | e :: rest => [LF, LF] ++ (qrBlock e ++ spacedBlocks rest)

/-- The label part of a stream: the blocks of the entries, two line feeds and
the cut; for an empty list and a non-empty legacy value one block made of the
top-level fields; nothing when there is no barcode source at all. -/
def qrPart (req : PrintRequest) : Bytes :=
  match req.QRCodes with
  | e :: rest => qrBlock e ++ (spacedBlocks rest ++ ([LF, LF] ++ escCut))
  | [] =>
    if req.QRValue ≠ [] then
      qrBlock ⟨req.Title, req.OrderID, req.Body, req.QRValue⟩ ++ ([LF, LF] ++ escCut)
    else []

/-- The request `r` with its `print_mode` set to `m`. -/
def withMode (r : PrintRequest) (m : Bytes) : PrintRequest := { r with PrintMode := m }

/-- The number of positions of `s` at which the byte sequence `pat` starts. -/
def occurrences (pat : Bytes) : Bytes → Nat
  | [] => if pat.isPrefixOf [] then 1 else 0
  | b :: rest => (if pat.isPrefixOf (b :: rest) then 1 else 0) + occurrences pat rest

/-- No text field of the request holds the byte `1D`. -/
def textClean (req : PrintRequest) : Prop :=
  0x1D ∉ req.Title ∧ 0x1D ∉ req.OrderID ∧ 0x1D ∉ req.Body ∧ 0x1D ∉ req.QRValue ∧
  ∀ e ∈ req.QRCodes,
    0x1D ∉ e.ServiceName ∧ 0x1D ∉ e.OrderID ∧ 0x1D ∉ e.Body ∧ 0x1D ∉ e.QRValue

instance (req : PrintRequest) : Decidable (textClean req) := by
  unfold textClean; infer_instance

/-- A segment is transparent when putting it in front of a stream adds no
occurrence of the cut sequence, neither inside the segment nor across the
boundary with the stream. -/
def Transparent (s : Bytes) : Prop :=
  ∀ y : Bytes, occurrences escCut (s ++ y) = occurrences escCut y

/-- The mode that `print` resolves for a request (main.go, lines 137-148): the
`print_mode` of the request, or for an empty one `all` when there is a barcode
source and `receipt-only` otherwise. -/
def resolveMode (req : PrintRequest) : Bytes :=
  if req.PrintMode = lit "" then
    if req.QRCodes.length > 0 then lit "all"
    else if req.QRValue ≠ lit "" then lit "all"
    else lit "receipt-only"
  else req.PrintMode

/-- The request `r` with its `qr_codes` set to `codes`. -/
def withCodes (r : PrintRequest) (codes : List QRCodeData) : PrintRequest :=
  { r with QRCodes := codes }

/-- The entry made of the top-level title, order id, body and legacy value. -/
def legacyEntry (r : PrintRequest) : QRCodeData :=
  ⟨r.Title, r.OrderID, r.Body, r.QRValue⟩

/-- A store-data command header `1D 28 6B x y 31 50 30`, with any bytes `x`
and `y`, stands at the front of `s`. -/
def storeHeaderAt (s : Bytes) : Bool :=
  s.take 3 == [0x1D, 0x28, 0x6B] && (s.drop 5).take 3 == [0x31, 0x50, 0x30]

/-- A store-data command header stands at some position of `s`. -/
def hasStoreHeader : Bytes → Bool
  | [] => false
  | b :: rest => storeHeaderAt (b :: rest) || hasStoreHeader rest

/-- No store-data header can begin in a text put in front of `y` and end in
`y`: the first byte of `y` is none of `28 6B 31 50 30` and neither its second
nor its third byte is `31`. -/
def NoStraddle (y : Bytes) : Prop :=
  ∃ a b c rest, y = a :: b :: c :: rest ∧
    a ≠ 0x28 ∧ a ≠ 0x6B ∧ a ≠ 0x31 ∧ a ≠ 0x50 ∧ a ≠ 0x30 ∧ b ≠ 0x31 ∧ c ≠ 0x31

/-- The fixed bytes of the receipt text in front of the title. -/
def receiptPre : Bytes :=
  [LF] ++ (escAlignCenter ++ (escBold true ++ escDoubleHeight true))

/-- The fixed bytes of the receipt text between the title and the order id. -/
def receiptMid1 : Bytes :=
  [LF] ++ (escDoubleHeight false ++ (escBold false ++ (escAlignCenter ++ (sepEq ++
  (escAlignCenter ++ (escBold true ++ lit "ORDER: "))))))

/-- The fixed bytes of the receipt text between the order id and the body. -/
def receiptMid2 : Bytes :=
  [LF] ++ (escBold false ++ (escAlignCenter ++ (sepDash ++ escAlignLeft)))

/-- The fixed bytes of the receipt text behind the body. -/
def receiptPost : Bytes :=
  escAlignCenter ++ ([LF] ++ (sepEq ++ (escBold true ++ (lit "Terima kasih" ++ ([LF] ++
  (escBold false ++ (lit "Atas kepercayaan Anda" ++ [LF])))))))

/-- The blocks of the entries of a list, each behind the spacer `sp`. -/
def spacedWith {E : Type} (sp : Bytes) (block : E → Bytes) : List E → Bytes
  | [] => []
  | e :: rest => sp ++ (block e ++ spacedWith sp block rest)

namespace AppWindows

/-- The block that the label branch and the final branch of app-windows print
for one entry: the title of the request, the body of the entry, the caption
`Scan Barcode` and the QR code. -/
def labelBlock (title : Bytes) (e : QRCodeData) : Bytes :=
  escAlignCenter ++ (escBold true ++ (escDoubleHeight true ++ (title ++ ([LF] ++
  (escDoubleHeight false ++ (escBold false ++ (escAlignCenter ++ (sepDash ++
  (escAlignLeft ++ (e.Body ++ (escAlignCenter ++ (sepDash ++ ([LF] ++ (escAlignCenter ++
  (lit "Scan Barcode" ++ ([LF] ++ ([LF] ++ (escQRCode e.QRValue ++ [LF]))))))))))))))))))

/-- What stands behind the title line in the receipt text of app-windows, up
to the blank lines: separator, body and thank-you lines. -/
def receiptRest (body : Bytes) : Bytes :=
  escAlignCenter ++ (sepDash ++ ([LF] ++ (escAlignLeft ++ (body ++ ([LF] ++
  (escAlignCenter ++ (lit "Terimakasih" ++ ([LF] ++ (lit "Atas Kepercayaan Anda" ++ [LF])))))))))

/-- The staff banner of the final branch of app-windows. -/
def staffBanner : Bytes :=
  escAlignCenter ++ (sepDash ++ (escAlignCenter ++ (escBold true ++
  (lit "--- Untuk Staff ---" ++ ([LF] ++ (escBold false ++ (escAlignCenter ++
  (sepDash ++ [LF, LF]))))))))

/-- The request `r` with its `print_mode` set to `m`. -/
def withMode (r : PrintRequest) (m : Bytes) : PrintRequest := { r with PrintMode := m }

end AppWindows

/-- One command frame at the front of `s`: the prefix `1D 28 6B`, the length
bytes `pL pH`, then exactly `pL + 256 * pH` parameter bytes. The result is the
parameter bytes and what follows the frame. -/
def parseFrame (s : Bytes) : Option (Bytes × Bytes) :=
  if s.take 3 = [0x1D, 0x28, 0x6B] then
    match s.drop 3 with
    | pL :: pH :: rest =>
      if pL + 256 * pH ≤ rest.length then
        some (rest.take (pL + 256 * pH), rest.drop (pL + 256 * pH))
      else none
    | _ => none
  else none

/-- The parameter bytes of the frames that make up `s`, when `s` is a sequence
of frames with nothing left over; at most `fuel` frames are read. -/
def parseFrames : Nat → Bytes → Option (List Bytes)
  | _, [] => some []
  | 0, _ :: _ => none
  | fuel + 1, b :: rest =>
    match parseFrame (b :: rest) with
    | none => none
    | some (params, after) => (parseFrames fuel after).map (fun frames => params :: frames)

/-- The frames of `s`; a frame has at least five bytes, so `s.length` is fuel
enough. -/
def parse (s : Bytes) : Option (List Bytes) := parseFrames s.length s

namespace AppWindows

/-- The block that the qr-only branch of app-windows prints for one entry. -/
def qrBlock (e : QRCodeData) : Bytes :=
  escAlignCenter ++ (escBold true ++ (escDoubleHeight true ++ (e.ServiceName ++ ([LF] ++
  (escDoubleHeight false ++ (escBold false ++ (escAlignCenter ++ (sepEq ++
  (escAlignCenter ++ (escBold true ++ (lit "ORDER: " ++ (e.OrderID ++ ([LF] ++
  (escBold false ++ (escAlignCenter ++ (sepDash ++ (escAlignLeft ++ (e.Body ++
  (escAlignCenter ++ ([LF] ++ (sepDash ++ ([LF, LF] ++ (escAlignCenter ++
  (escQRCode e.QRValue ++ ([LF] ++ ([LF, LF] ++ (escAlignCenter ++ (escBold true ++
  (lit "Scan untuk update status" ++ ([LF] ++ escBold false))))))))))))))))))))))))))))))

/-- The entry made of the top-level title, order id, body and legacy value. -/
def legacyEntry (r : PrintRequest) : QRCodeData :=
  ⟨r.Title, r.OrderID, r.Body, r.QRValue⟩

end AppWindows

/-! ## Properties of `escQRCode` -/

/-- The two branches of the length computation of `escQRCode` give the same
bytes: the output is the four constant groups around the length bytes and the
payload. -/
theorem escQRCode_eq (d : Bytes) :
    escQRCode d =
      [0x1D, 0x28, 0x6B, 0x04, 0x00, 0x31, 0x41, 0x32, 0x00] ++
      ([0x1D, 0x28, 0x6B, 0x03, 0x00, 0x31, 0x43, 0x07] ++
      ([0x1D, 0x28, 0x6B, 0x03, 0x00, 0x31, 0x45, 0x31] ++
      ([0x1D, 0x28, 0x6B, lenLow d.length, lenHigh d.length, 0x31, 0x50, 0x30] ++
      (d ++ [0x1D, 0x28, 0x6B, 0x03, 0x00, 0x31, 0x51, 0x30])))) := by
  by_cases h : d.length + 3 > 255
  · simp [escQRCode, toByte, lenLow, lenHigh, h]
  · have h1 : d.length + 3 < 256 := by omega
    have h2 : (d.length + 3) / 256 = 0 := Nat.div_eq_of_lt h1
    simp [escQRCode, toByte, lenLow, lenHigh, h, h2]

/-- The byte at index 27 of `escQRCode d` is the last byte `6B` of the
store-data prefix. -/
theorem escQRCode_get27 (d : Bytes) : (escQRCode d)[27]? = some 0x6B := by
  rw [escQRCode_eq]; simp

/-- The byte at index 28 of `escQRCode d` is the low length byte. -/
theorem escQRCode_get28 (d : Bytes) : (escQRCode d)[28]? = some (lenLow d.length) := by
  rw [escQRCode_eq]; simp

/-- The byte at index 29 of `escQRCode d` is the high length byte. -/
theorem escQRCode_get29 (d : Bytes) : (escQRCode d)[29]? = some (lenHigh d.length) := by
  rw [escQRCode_eq]; simp

/-- The bytes at indices 25 to 27 of `escQRCode d` are the prefix `1D 28 6B` of
the store-data group. -/
theorem escQRCode_store_prefix (d : Bytes) :
    ((escQRCode d).take 28).drop 25 = [0x1D, 0x28, 0x6B] := by
  rw [escQRCode_eq]; simp

/-- C1, as stated, fails twice. For the empty payload the bytes at indices 27
and 28 of `escQRCode` are `6B` (the end of the prefix) and `03`, which decode
to 875 and not to 3: the length bytes are at indices 28 and 29. For a payload
of 65533 bytes the two bytes after the prefix `1D 28 6B` (indices 28 and 29)
are both 0 and the byte at index 27 is `6B`, so neither pair decodes to
65536. -/
theorem qr_length_field_overflow :
    ((escQRCode [])[27]? = some 0x6B ∧ (escQRCode [])[28]? = some 3 ∧
      0x6B + 256 * 3 ≠ ([] : Bytes).length + 3) ∧
    (((escQRCode (List.replicate 65533 0)).take 28).drop 25 = [0x1D, 0x28, 0x6B] ∧
      (escQRCode (List.replicate 65533 0))[27]? = some 0x6B ∧
      (escQRCode (List.replicate 65533 0))[28]? = some 0 ∧
      (escQRCode (List.replicate 65533 0))[29]? = some 0 ∧
      0 + 256 * 0 ≠ (List.replicate 65533 0).length + 3 ∧
      0x6B + 256 * 0 ≠ (List.replicate 65533 0).length + 3) := by
  have hlen : (List.replicate 65533 0 : Bytes).length = 65533 := List.length_replicate _ _
  refine ⟨⟨escQRCode_get27 _, ?_, by decide⟩,
    escQRCode_store_prefix _, escQRCode_get27 _, ?_, ?_, ?_, ?_⟩
  · rw [escQRCode_get28]; rfl
  · rw [escQRCode_get28, hlen]; rfl
  · rw [escQRCode_get29, hlen]; rfl
  · rw [hlen]; decide
  · rw [hlen]; decide

/-- C1, amended: for every payload `d` of `n` bytes with `n + 3 < 65536`, the
two bytes `pL` and `pH` that `escQRCode d` writes right after the store-data
prefix `1D 28 6B` (the prefix is at indices 25 to 27, the two bytes at indices
28 and 29) satisfy `pL + 256 * pH = n + 3`. -/
theorem qr_length_field_decodes (d : Bytes) (h : d.length + 3 < 65536) :
    ∃ pL pH, ((escQRCode d).take 28).drop 25 = [0x1D, 0x28, 0x6B] ∧
      (escQRCode d)[28]? = some pL ∧ (escQRCode d)[29]? = some pH ∧
      pL + 256 * pH = d.length + 3 := by
  refine ⟨lenLow d.length, lenHigh d.length, escQRCode_store_prefix d,
    escQRCode_get28 d, escQRCode_get29 d, ?_⟩
  unfold lenLow lenHigh
  omega

/-- C1, amended, at the payload `AB`. -/
theorem qr_length_field_decodes_witness :
    ∃ pL pH, ((escQRCode [65, 66]).take 28).drop 25 = [0x1D, 0x28, 0x6B] ∧
      (escQRCode [65, 66])[28]? = some pL ∧ (escQRCode [65, 66])[29]? = some pH ∧
      pL + 256 * pH = [65, 66].length + 3 :=
  qr_length_field_decodes [65, 66] (by decide)

/-- C2: for every payload `d`, `escQRCode d` is the select-model group, the
module-size group, the error-correction group, the store-data header with the
two length bytes, the bytes of `d` unchanged and the print group, in this
order; its length is `len(d) + 41` and the payload occupies the indices 33 to
`32 + len(d)`. -/
theorem qr_five_groups (d : Bytes) :
    escQRCode d =
      [0x1D, 0x28, 0x6B, 0x04, 0x00, 0x31, 0x41, 0x32, 0x00]
      ++ [0x1D, 0x28, 0x6B, 0x03, 0x00, 0x31, 0x43, 0x07]
      ++ [0x1D, 0x28, 0x6B, 0x03, 0x00, 0x31, 0x45, 0x31]
      ++ [0x1D, 0x28, 0x6B, (d.length + 3) % 256, ((d.length + 3) / 256) % 256,
          0x31, 0x50, 0x30]
      ++ d
      ++ [0x1D, 0x28, 0x6B, 0x03, 0x00, 0x31, 0x51, 0x30]
    ∧ (escQRCode d).length = d.length + 41
    ∧ ((escQRCode d).drop 33).take d.length = d
    ∧ (escQRCode d).drop (33 + d.length) = [0x1D, 0x28, 0x6B, 0x03, 0x00, 0x31, 0x51, 0x30] := by
  refine ⟨?_, ?_, ?_, ?_⟩
  · rw [escQRCode_eq]; simp [lenLow, lenHigh]
  · rw [escQRCode_eq]; simp
  · rw [escQRCode_eq]; simp
  · rw [escQRCode_eq]
    simp only [List.cons_append, List.nil_append]
    rw [show 33 + d.length = d.length + 33 by omega]
    simp [List.drop_append]

/-! ## The string literals of `print` -/

theorem lit_empty : lit "" = [] := rfl

theorem lit_nl : lit "\n" = [LF] := rfl

theorem lit_nl2 : lit "\n\n" = [LF, LF] := rfl

theorem lit_sepEq : lit "================================\n" = sepEq := by decide

theorem lit_sepDash : lit "--------------------------------\n" = sepDash := by decide

theorem lit_nl_sepEq : lit "\n================================\n" = [LF] ++ sepEq := by decide

theorem lit_nl_sepDash : lit "\n--------------------------------\n" = [LF] ++ sepDash := by
  decide

theorem lit_thanks : lit "Terima kasih\n" = lit "Terima kasih" ++ [LF] := by decide

theorem lit_trust : lit "Atas kepercayaan Anda\n" = lit "Atas kepercayaan Anda" ++ [LF] := by
  decide

theorem lit_staff : lit "--- Untuk Staff ---\n" = lit "--- Untuk Staff ---" ++ [LF] := by decide

theorem lit_scan : lit "Scan untuk update status\n" = lit "Scan untuk update status" ++ [LF] := by
  decide

/-! ## The two loops of `print` -/

/-- One iteration of the qr-only loop appends the spacer (not before the first
entry), the block of the entry and, after the last entry, two line feeds and
the cut. -/
theorem qrOnlyLoop_cons (n i : Nat) (e : QRCodeData) (rest : List QRCodeData) (receipt : Bytes) :
    qrOnlyLoop n i (e :: rest) receipt =
      qrOnlyLoop n (i + 1) rest
        (receipt ++ ((if i > 0 then [LF, LF] else []) ++
          (qrBlock e ++ (if (i : Int) = (n : Int) - 1 then [LF, LF] ++ escCut else [])))) := by
  rw [qrOnlyLoop]
  by_cases h1 : i > 0 <;> by_cases h2 : (i : Int) = (n : Int) - 1 <;>
    simp only [h1, h2, if_true, if_false, qrBlock, lit_nl, lit_nl2, lit_sepEq, lit_sepDash,
      lit_nl_sepDash, lit_scan, List.append_assoc, List.append_nil, List.nil_append]

/-- The loop of the final branch is the loop of the qr-only branch. -/
theorem allLoop_eq_qrOnlyLoop (n : Nat) (codes : List QRCodeData) :
    ∀ (i : Nat) (receipt : Bytes), allLoop n i codes receipt = qrOnlyLoop n i codes receipt := by
  induction codes with
  | nil => intro i receipt; rw [allLoop, qrOnlyLoop]
  | cons e rest ih => intro i receipt; rw [allLoop, qrOnlyLoop, ih]

/-- From a positive index on, the loop appends every remaining entry behind a
spacer, then two line feeds and the cut. -/
theorem qrOnlyLoop_later (n : Nat) (codes : List QRCodeData) :
    ∀ (i : Nat) (receipt : Bytes), 0 < i → codes ≠ [] → i + codes.length = n →
      qrOnlyLoop n i codes receipt = receipt ++ (spacedBlocks codes ++ ([LF, LF] ++ escCut)) := by
  induction codes with
  | nil => intro i receipt _ hne; exact absurd rfl hne
  | cons e rest ih =>
    intro i receipt hi _ hlen
    rw [qrOnlyLoop_cons]
    cases rest with
    | nil =>
      have hlast : (i : Int) = (n : Int) - 1 := by
        simp only [List.length_cons, List.length_nil] at hlen; omega
      simp only [hi, hlast, if_true, qrOnlyLoop, spacedBlocks, List.append_assoc,
        List.append_nil, List.nil_append]
    | cons e2 rest2 =>
      have hnot : ¬ ((i : Int) = (n : Int) - 1) := by
        simp only [List.length_cons] at hlen; omega
      rw [ih (i + 1) _ (Nat.succ_pos i) (List.cons_ne_nil _ _)
        (by simp only [List.length_cons] at hlen ⊢; omega)]
      simp only [hi, hnot, if_true, if_false, spacedBlocks, List.append_assoc,
        List.append_nil, List.nil_append]

/-- The whole qr-only loop over a non-empty list: the first block without a
spacer, the later blocks each behind a spacer, two line feeds and the cut. -/
theorem qrOnlyLoop_all (e : QRCodeData) (rest : List QRCodeData) (receipt : Bytes) :
    qrOnlyLoop (e :: rest).length 0 (e :: rest) receipt =
      receipt ++ (qrBlock e ++ (spacedBlocks rest ++ ([LF, LF] ++ escCut))) := by
  rw [qrOnlyLoop_cons]
  cases rest with
  | nil =>
    simp [qrOnlyLoop, spacedBlocks]
  | cons e2 rest2 =>
    have hnot : ¬ (((0 : Nat) : Int) = (((e :: e2 :: rest2).length : Nat) : Int) - 1) := by
      simp only [List.length_cons]; omega
    rw [qrOnlyLoop_later _ _ 1 _ Nat.one_pos (List.cons_ne_nil _ _)
      (by simp only [List.length_cons]; omega)]
    simp only [hnot, if_false, Nat.lt_irrefl, gt_iff_lt, List.append_assoc, List.append_nil,
      List.nil_append]

/-! ## The three branches of `print` -/

theorem mode_receipt_ne_empty : lit "receipt-only" ≠ lit "" := by decide

theorem mode_all_ne_empty : lit "all" ≠ lit "" := by decide

theorem mode_all_ne_receipt : lit "all" ≠ lit "receipt-only" := by decide

theorem mode_all_ne_qr : lit "all" ≠ lit "qr-only" := by decide

theorem mode_qr_ne_empty : lit "qr-only" ≠ lit "" := by decide

theorem mode_qr_ne_receipt : lit "qr-only" ≠ lit "receipt-only" := by decide

/-- The stream of the receipt-only branch. -/
theorem printReceipt_receiptOnly (req : PrintRequest) (h : req.PrintMode = lit "receipt-only") :
    printReceipt req =
      escInit ++ (receiptText req.Title req.OrderID req.Body ++ ([LF, LF] ++ escCut)) := by
  unfold printReceipt
  simp only [h, mode_receipt_ne_empty, if_true, if_false, receiptText, lit_nl, lit_nl2,
    lit_sepEq, lit_sepDash, lit_nl_sepEq, lit_thanks, lit_trust, List.append_assoc,
    List.nil_append]

/-- An empty `print_mode` without any barcode source takes the receipt-only
branch. -/
theorem printReceipt_default_receipt (req : PrintRequest) (hm : req.PrintMode = lit "")
    (hc : req.QRCodes = []) (hv : req.QRValue = lit "") :
    printReceipt req =
      escInit ++ (receiptText req.Title req.OrderID req.Body ++ ([LF, LF] ++ escCut)) := by
  unfold printReceipt
  simp only [hm, hc, hv, List.length_nil, gt_iff_lt, Nat.lt_irrefl, ne_eq, not_true_eq_false,
    if_true, if_false, receiptText, lit_nl, lit_nl2,
    lit_sepEq, lit_sepDash, lit_nl_sepEq, lit_thanks, lit_trust, List.append_assoc,
    List.nil_append]

/-- The legacy block and the loop of the label part, after any buffer. -/
theorem qrPart_eq (req : PrintRequest) (receipt : Bytes) :
    (if req.QRCodes.length = 0 ∧ req.QRValue ≠ lit "" then
      qrOnlyLoop req.QRCodes.length 0 req.QRCodes receipt ++
        (qrBlock ⟨req.Title, req.OrderID, req.Body, req.QRValue⟩ ++ ([LF, LF] ++ escCut))
    else qrOnlyLoop req.QRCodes.length 0 req.QRCodes receipt) = receipt ++ qrPart req := by
  unfold qrPart
  cases hc : req.QRCodes with
  | nil =>
    by_cases hv : req.QRValue = []
    · simp [hv, lit_empty, qrOnlyLoop]
    · simp [hv, lit_empty, qrOnlyLoop]
  | cons e rest =>
    rw [qrOnlyLoop_all]
    simp

/-- The stream of the qr-only branch. -/
theorem printReceipt_qrOnly (req : PrintRequest) (h : req.PrintMode = lit "qr-only") :
    printReceipt req = escInit ++ qrPart req := by
  rw [← qrPart_eq req escInit]
  unfold printReceipt
  simp only [h, mode_qr_ne_empty, mode_qr_ne_receipt, if_true, if_false, qrBlock, lit_nl,
    lit_nl2, lit_sepEq, lit_sepDash, lit_nl_sepDash, lit_scan, List.append_assoc,
    List.nil_append]

/-- The stream of the final branch, taken by every resolved mode other than
`receipt-only` and `qr-only`. -/
theorem printReceipt_else (req : PrintRequest) (h0 : req.PrintMode ≠ lit "")
    (h1 : req.PrintMode ≠ lit "receipt-only") (h2 : req.PrintMode ≠ lit "qr-only") :
    printReceipt req =
      escInit ++ (receiptText req.Title req.OrderID req.Body ++ ([LF, LF] ++
        (staffBanner ++ qrPart req))) := by
  have key := qrPart_eq req
    (escInit ++ (receiptText req.Title req.OrderID req.Body ++ ([LF, LF] ++ staffBanner)))
  simp only [List.append_assoc] at key
  rw [← key]
  unfold printReceipt
  simp only [h0, h1, h2, if_true, if_false, allLoop_eq_qrOnlyLoop, receiptText, staffBanner,
    qrBlock, lit_nl, lit_nl2, lit_sepEq, lit_sepDash, lit_nl_sepEq, lit_nl_sepDash, lit_thanks,
    lit_trust, lit_staff, lit_scan, List.append_assoc, List.nil_append, List.singleton_append,
    List.cons_append]

/-- An empty `print_mode` with a barcode source takes the final branch. -/
theorem printReceipt_default_all (req : PrintRequest) (hm : req.PrintMode = lit "")
    (hsrc : req.QRCodes ≠ [] ∨ req.QRValue ≠ lit "") :
    printReceipt req =
      escInit ++ (receiptText req.Title req.OrderID req.Body ++ ([LF, LF] ++
        (staffBanner ++ qrPart req))) := by
  have key := qrPart_eq req
    (escInit ++ (receiptText req.Title req.OrderID req.Body ++ ([LF, LF] ++ staffBanner)))
  simp only [List.append_assoc] at key
  rw [← key]
  have hres : (if req.QRCodes.length > 0 then lit "all"
      else if req.QRValue ≠ lit "" then lit "all" else lit "receipt-only") = lit "all" := by
    rcases hsrc with hc | hv
    · have : req.QRCodes.length > 0 := List.length_pos.mpr hc
      simp only [this, if_true]
    · by_cases hl : req.QRCodes.length > 0
      · simp only [hl, if_true]
      · simp only [hl, hv, if_false, ne_eq, not_false_eq_true, if_true]
  unfold printReceipt
  simp only [hm, hres, mode_all_ne_receipt, mode_all_ne_qr, if_true, if_false,
    allLoop_eq_qrOnlyLoop, receiptText, staffBanner,
    qrBlock, lit_nl, lit_nl2, lit_sepEq, lit_sepDash, lit_nl_sepEq, lit_nl_sepDash, lit_thanks,
    lit_trust, lit_staff, lit_scan, List.append_assoc, List.nil_append, List.singleton_append,
    List.cons_append]

/-! ## The streams of the modes -/

/-- C4: for every request whose `print_mode` is `receipt-only`, the composed
stream is escInit, one LF, the centred bold double-height title line, the
line of 32 `=`, the centred bold `ORDER: ` line, the line of 32 `-`, the
left-aligned body verbatim, the centred closing line of 32 `=` behind an LF,
the bold `Terima kasih` line, the `Atas kepercayaan Anda` line, two LF and
escCut, in this order. -/
theorem receipt_only_stream (req : PrintRequest) (h : req.PrintMode = lit "receipt-only") :
    printReceipt req =
      escInit ++ [0x0A] ++ escAlignCenter ++ escBold true ++ escDoubleHeight true
      ++ req.Title ++ [0x0A] ++ escDoubleHeight false ++ escBold false
      ++ escAlignCenter ++ List.replicate 32 0x3D ++ [0x0A]
      ++ escAlignCenter ++ escBold true ++ lit "ORDER: " ++ req.OrderID ++ [0x0A]
      ++ escBold false
      ++ escAlignCenter ++ List.replicate 32 0x2D ++ [0x0A]
      ++ escAlignLeft ++ req.Body
      ++ escAlignCenter ++ [0x0A] ++ List.replicate 32 0x3D ++ [0x0A]
      ++ escBold true ++ lit "Terima kasih" ++ [0x0A] ++ escBold false
      ++ lit "Atas kepercayaan Anda" ++ [0x0A]
      ++ [0x0A, 0x0A] ++ escCut := by
  rw [printReceipt_receiptOnly req h]
  simp only [receiptText, sepEq, sepDash, LF, List.append_assoc]

/-- C4 at the request `Laundry Co` / `123` / `Thank you`. -/
theorem receipt_only_stream_witness :
    printReceipt ⟨[], lit "Laundry Co", lit "123", lit "Thank you\n", [],
        lit "receipt-only", [], false⟩ =
      escInit ++ [0x0A] ++ escAlignCenter ++ escBold true ++ escDoubleHeight true
      ++ lit "Laundry Co" ++ [0x0A] ++ escDoubleHeight false ++ escBold false
      ++ escAlignCenter ++ List.replicate 32 0x3D ++ [0x0A]
      ++ escAlignCenter ++ escBold true ++ lit "ORDER: " ++ lit "123" ++ [0x0A]
      ++ escBold false
      ++ escAlignCenter ++ List.replicate 32 0x2D ++ [0x0A]
      ++ escAlignLeft ++ lit "Thank you\n"
      ++ escAlignCenter ++ [0x0A] ++ List.replicate 32 0x3D ++ [0x0A]
      ++ escBold true ++ lit "Terima kasih" ++ [0x0A] ++ escBold false
      ++ lit "Atas kepercayaan Anda" ++ [0x0A]
      ++ [0x0A, 0x0A] ++ escCut :=
  receipt_only_stream ⟨[], lit "Laundry Co", lit "123", lit "Thank you\n", [],
    lit "receipt-only", [], false⟩ rfl

/-- C5: for every request with `print_mode` `qr-only` and a non-empty list
`e :: rest` of entries, the composed stream is escInit, the block of `e`, then
for each later entry two LF and its block, in list order, then two LF and
escCut; the block of an entry is the sequence listed first. In particular for
`[A, B]` the stream is escInit, block A, two LF, block B, two LF, escCut. -/
theorem qr_only_stream (req : PrintRequest) (e : QRCodeData) (rest : List QRCodeData)
    (hm : req.PrintMode = lit "qr-only") (hc : req.QRCodes = e :: rest) :
    (∀ x : QRCodeData, qrBlock x =
      escAlignCenter ++ escBold true ++ escDoubleHeight true ++ x.ServiceName ++ [0x0A]
      ++ escDoubleHeight false ++ escBold false
      ++ escAlignCenter ++ List.replicate 32 0x3D ++ [0x0A]
      ++ escAlignCenter ++ escBold true ++ lit "ORDER: " ++ x.OrderID ++ [0x0A]
      ++ escBold false
      ++ escAlignCenter ++ List.replicate 32 0x2D ++ [0x0A]
      ++ escAlignLeft ++ x.Body
      ++ escAlignCenter ++ [0x0A] ++ List.replicate 32 0x2D ++ [0x0A]
      ++ [0x0A] ++ escAlignCenter ++ escQRCode x.QRValue
      ++ [0x0A, 0x0A] ++ escAlignCenter ++ escBold true
      ++ lit "Scan untuk update status" ++ [0x0A] ++ escBold false) ∧
    (∀ x : QRCodeData, ∀ xs : List QRCodeData,
      spacedBlocks [] = [] ∧
      spacedBlocks (x :: xs) = [0x0A, 0x0A] ++ qrBlock x ++ spacedBlocks xs) ∧
    printReceipt req = escInit ++ qrBlock e ++ spacedBlocks rest ++ [0x0A, 0x0A] ++ escCut ∧
    (∀ b : QRCodeData, rest = [b] →
      printReceipt req =
        escInit ++ qrBlock e ++ [0x0A, 0x0A] ++ qrBlock b ++ [0x0A, 0x0A] ++ escCut) := by
  have hstream :
      printReceipt req = escInit ++ qrBlock e ++ spacedBlocks rest ++ [0x0A, 0x0A] ++ escCut := by
    rw [printReceipt_qrOnly req hm]
    simp only [qrPart, hc, LF, List.append_assoc]
  refine ⟨?_, ?_, hstream, ?_⟩
  · intro x
    simp only [qrBlock, sepEq, sepDash, LF, List.append_assoc]
  · intro x xs
    exact ⟨rfl, by simp only [spacedBlocks, LF, List.append_assoc]⟩
  · intro b hb
    rw [hstream, hb]
    simp only [spacedBlocks, LF, List.append_assoc, List.append_nil]

/-- C5 at a request with the two entries `A` and `B`. -/
theorem qr_only_stream_witness :
    printReceipt ⟨[], [], [], [], [], lit "qr-only",
        [⟨lit "A", lit "1", lit "a", lit "QA"⟩, ⟨lit "B", lit "2", lit "b", lit "QB"⟩], false⟩ =
      escInit ++ qrBlock ⟨lit "A", lit "1", lit "a", lit "QA"⟩ ++ [0x0A, 0x0A]
        ++ qrBlock ⟨lit "B", lit "2", lit "b", lit "QB"⟩ ++ [0x0A, 0x0A] ++ escCut :=
  (qr_only_stream ⟨[], [], [], [], [], lit "qr-only",
      [⟨lit "A", lit "1", lit "a", lit "QA"⟩, ⟨lit "B", lit "2", lit "b", lit "QB"⟩], false⟩
    ⟨lit "A", lit "1", lit "a", lit "QA"⟩ [⟨lit "B", lit "2", lit "b", lit "QB"⟩]
    rfl rfl).2.2.2 ⟨lit "B", lit "2", lit "b", lit "QB"⟩ rfl

/-- C6: for every request `r`, the stream composed with `print_mode` `all` is
the stream composed with `receipt-only` without its last three bytes (which
are the cut), followed by the staff banner, followed by the stream composed
with `qr-only` without its first two bytes (which are the initialize). -/
theorem all_is_receipt_banner_labels (r : PrintRequest) :
    printReceipt (withMode r (lit "all")) =
      (printReceipt (withMode r (lit "receipt-only"))).take
        ((printReceipt (withMode r (lit "receipt-only"))).length - 3)
      ++ (escAlignCenter ++ List.replicate 32 0x2D ++ [0x0A] ++ escAlignCenter ++ escBold true
          ++ lit "--- Untuk Staff ---" ++ [0x0A] ++ escBold false ++ escAlignCenter
          ++ List.replicate 32 0x2D ++ [0x0A] ++ [0x0A, 0x0A])
      ++ (printReceipt (withMode r (lit "qr-only"))).drop 2
    ∧ (printReceipt (withMode r (lit "receipt-only"))).drop
        ((printReceipt (withMode r (lit "receipt-only"))).length - 3) = escCut
    ∧ (printReceipt (withMode r (lit "qr-only"))).take 2 = escInit := by
  have hall := printReceipt_else (withMode r (lit "all")) mode_all_ne_empty mode_all_ne_receipt
    mode_all_ne_qr
  have hrec := printReceipt_receiptOnly (withMode r (lit "receipt-only")) rfl
  have hqr := printReceipt_qrOnly (withMode r (lit "qr-only")) rfl
  have hpart : qrPart (withMode r (lit "qr-only")) = qrPart (withMode r (lit "all")) := rfl
  have hrec2 : printReceipt (withMode r (lit "receipt-only")) =
      (escInit ++ (receiptText r.Title r.OrderID r.Body ++ [LF, LF])) ++ escCut := by
    rw [hrec]; simp only [withMode, List.append_assoc]
  have hlen : (printReceipt (withMode r (lit "receipt-only"))).length - 3 =
      (escInit ++ (receiptText r.Title r.OrderID r.Body ++ [LF, LF])).length := by
    rw [hrec2, List.length_append]; simp [escCut]
  refine ⟨?_, ?_, ?_⟩
  · rw [hlen, hrec2, List.take_left, hqr, hall, hpart]
    simp [withMode, staffBanner, sepDash, LF, escInit]
  · rw [hlen, hrec2, List.drop_left]
  · rw [hqr]; rfl

/-- C7: for every request with empty `print_mode`, empty `qr_codes` and empty
`qr_value`, the composed stream is the stream composed for the same request
with `print_mode` `receipt-only`. -/
theorem default_without_barcode_is_receipt_only (r : PrintRequest) (hm : r.PrintMode = lit "")
    (hc : r.QRCodes = []) (hv : r.QRValue = lit "") :
    printReceipt r = printReceipt (withMode r (lit "receipt-only")) := by
  rw [printReceipt_default_receipt r hm hc hv,
    printReceipt_receiptOnly (withMode r (lit "receipt-only")) rfl]
  rfl

/-- C7 at the request `T` / `1` with an empty body. -/
theorem default_without_barcode_is_receipt_only_witness :
    printReceipt ⟨[], lit "T", lit "1", [], [], [], [], false⟩ =
      printReceipt (withMode ⟨[], lit "T", lit "1", [], [], [], [], false⟩ (lit "receipt-only")) :=
  default_without_barcode_is_receipt_only ⟨[], lit "T", lit "1", [], [], [], [], false⟩
    rfl rfl rfl

/-- C8: for every request with empty `print_mode` in which `qr_codes` is
non-empty or `qr_value` is non-empty, the composed stream is the stream
composed for the same request with `print_mode` `all`. -/
theorem default_with_barcode_is_all (r : PrintRequest) (hm : r.PrintMode = lit "")
    (hsrc : r.QRCodes ≠ [] ∨ r.QRValue ≠ lit "") :
    printReceipt r = printReceipt (withMode r (lit "all")) := by
  rw [printReceipt_default_all r hm hsrc,
    printReceipt_else (withMode r (lit "all")) mode_all_ne_empty mode_all_ne_receipt
      mode_all_ne_qr]
  rfl

/-- C8 at a request with one entry and at a request with a legacy value. -/
theorem default_with_barcode_is_all_witness :
    printReceipt ⟨[], lit "T", lit "1", [], [], [], [⟨lit "A", lit "1", [], lit "QA"⟩], false⟩ =
      printReceipt (withMode
        ⟨[], lit "T", lit "1", [], [], [], [⟨lit "A", lit "1", [], lit "QA"⟩], false⟩
        (lit "all")) ∧
    printReceipt ⟨[], lit "T", lit "1", [], lit "X", [], [], false⟩ =
      printReceipt (withMode ⟨[], lit "T", lit "1", [], lit "X", [], [], false⟩ (lit "all")) :=
  ⟨default_with_barcode_is_all
      ⟨[], lit "T", lit "1", [], [], [], [⟨lit "A", lit "1", [], lit "QA"⟩], false⟩ rfl
      (Or.inl (by decide)),
    default_with_barcode_is_all ⟨[], lit "T", lit "1", [], lit "X", [], [], false⟩ rfl
      (Or.inr (by decide))⟩

/-- C9: for every request and every non-empty `print_mode` token other than
`receipt-only` and `qr-only`, the composed stream is the one composed for the
same request with `print_mode` `all`, and `print` does not reject the request:
a POST whose body decodes to it with the right token is answered 200 or 500,
never 400, 401 or 405; when the printer is found and the write succeeds the
answer is 200 and the stream written to the device is the stream of `all`; the
two answers 500 are the failed detection and the failed write, with the error
of the collaborator. With any token at all, the status and the message are
those of the same request with `print_mode` `all`. -/
theorem other_token_is_all (r : PrintRequest) (m : Bytes) (h0 : m ≠ lit "")
    (h1 : m ≠ lit "receipt-only") (h2 : m ≠ lit "qr-only") :
    printReceipt (withMode r m) = printReceipt (withMode r (lit "all")) ∧
    (∀ (w : World) (hr : HttpRequest), hr.Method = lit "POST" →
      w.decodeJSON hr.Body = some (withMode r m) → r.Token = lit "CLEANLINK_SECRET_123" →
      ((print w hr).status = 200 ∨ (print w hr).status = 500) ∧
      (∀ com : Bytes, w.detectPrinterCOM = Except.ok com →
        w.writeToCOM com (printReceipt (withMode r (lit "all"))) = none →
        print w hr =
          ⟨200, lit "\x7b\"status\":\"printed\",\"com\":\"" ++ com ++ lit "\"\x7d",
            [Effect.detectPrinter, Effect.compose (withMode r m),
              Effect.writeDevice com (printReceipt (withMode r (lit "all")))]⟩) ∧
      (∀ com err : Bytes, w.detectPrinterCOM = Except.ok com →
        w.writeToCOM com (printReceipt (withMode r (lit "all"))) = some err →
        print w hr =
          ⟨500, err, [Effect.detectPrinter, Effect.compose (withMode r m),
            Effect.writeDevice com (printReceipt (withMode r (lit "all")))]⟩) ∧
      (∀ err : Bytes, w.detectPrinterCOM = Except.error err →
        print w hr = ⟨500, err, [Effect.detectPrinter]⟩)) ∧
    (∀ (w : World) (hr hr2 : HttpRequest), hr.Method = lit "POST" → hr2.Method = lit "POST" →
      w.decodeJSON hr.Body = some (withMode r m) →
      w.decodeJSON hr2.Body = some (withMode r (lit "all")) →
      (print w hr).status = (print w hr2).status ∧
      (print w hr).message = (print w hr2).message) := by
  have hstream : printReceipt (withMode r m) = printReceipt (withMode r (lit "all")) := by
    rw [printReceipt_else (withMode r m) h0 h1 h2,
      printReceipt_else (withMode r (lit "all")) mode_all_ne_empty mode_all_ne_receipt
        mode_all_ne_qr]
    rfl
  refine ⟨hstream, ?_, ?_⟩
  · intro w hr hpost hdec htok
    have ht2 : (withMode r m).Token = API_TOKEN := htok
    have hok : ∀ com : Bytes, w.detectPrinterCOM = Except.ok com →
        w.writeToCOM com (printReceipt (withMode r (lit "all"))) = none →
        print w hr =
          ⟨200, lit "\x7b\"status\":\"printed\",\"com\":\"" ++ com ++ lit "\"\x7d",
            [Effect.detectPrinter, Effect.compose (withMode r m),
              Effect.writeDevice com (printReceipt (withMode r (lit "all")))]⟩ := by
      intro com hdet hwr
      unfold print
      simp only [hpost, hdec, ht2, hdet, hstream, hwr, ne_eq, not_true_eq_false, if_false]
    have hwrite : ∀ com err : Bytes, w.detectPrinterCOM = Except.ok com →
        w.writeToCOM com (printReceipt (withMode r (lit "all"))) = some err →
        print w hr =
          ⟨500, err, [Effect.detectPrinter, Effect.compose (withMode r m),
            Effect.writeDevice com (printReceipt (withMode r (lit "all")))]⟩ := by
      intro com err hdet hwr
      unfold print
      simp only [hpost, hdec, ht2, hdet, hstream, hwr, ne_eq, not_true_eq_false, if_false]
    have hdetect : ∀ err : Bytes, w.detectPrinterCOM = Except.error err →
        print w hr = ⟨500, err, [Effect.detectPrinter]⟩ := by
      intro err hdet
      unfold print
      simp only [hpost, hdec, ht2, hdet, ne_eq, not_true_eq_false, if_false]
    refine ⟨?_, hok, hwrite, hdetect⟩
    cases hdet : w.detectPrinterCOM with
    | error err => rw [hdetect err hdet]; exact Or.inr rfl
    | ok com =>
      cases hwr : w.writeToCOM com (printReceipt (withMode r (lit "all"))) with
      | none => rw [hok com hdet hwr]; exact Or.inl rfl
      | some err => rw [hwrite com err hdet hwr]; exact Or.inr rfl
  · intro w hr hr2 hpost hpost2 hdec hdec2
    by_cases htok : r.Token = API_TOKEN
    · have ht2 : (withMode r m).Token = API_TOKEN := htok
      have ht3 : (withMode r (lit "all")).Token = API_TOKEN := htok
      cases hdet : w.detectPrinterCOM with
      | error err =>
        unfold print
        simp only [hpost, hpost2, hdec, hdec2, ht2, ht3, hdet, ne_eq, not_true_eq_false,
          if_false, and_self]
      | ok com =>
        cases hwr : w.writeToCOM com (printReceipt (withMode r (lit "all"))) with
        | none =>
          unfold print
          simp only [hpost, hpost2, hdec, hdec2, ht2, ht3, hdet, hstream, hwr, ne_eq,
            not_true_eq_false, if_false, and_self]
        | some err =>
          unfold print
          simp only [hpost, hpost2, hdec, hdec2, ht2, ht3, hdet, hstream, hwr, ne_eq,
            not_true_eq_false, if_false, and_self]
    · have ht2 : (withMode r m).Token ≠ API_TOKEN := htok
      have ht3 : (withMode r (lit "all")).Token ≠ API_TOKEN := htok
      unfold print
      simp only [hpost, hpost2, hdec, hdec2, ht2, ht3, ne_eq, not_true_eq_false,
        not_false_eq_true, if_true, if_false, and_self]

/-- C9 at the tokens `label`, `separator` and `foo`: the streams are the stream
of `all`, and a POST with the right token and the token `foo`, in a world where
the printer is `COM10` and the write succeeds, is answered 200 after the stream
of `all` was written to `COM10`. -/
theorem other_token_is_all_witness :
    printReceipt (withMode ⟨[], lit "T", lit "1", [], lit "X", [], [], false⟩ (lit "label")) =
      printReceipt (withMode ⟨[], lit "T", lit "1", [], lit "X", [], [], false⟩ (lit "all")) ∧
    printReceipt (withMode ⟨[], lit "T", lit "1", [], lit "X", [], [], false⟩ (lit "separator")) =
      printReceipt (withMode ⟨[], lit "T", lit "1", [], lit "X", [], [], false⟩ (lit "all")) ∧
    printReceipt (withMode ⟨[], lit "T", lit "1", [], lit "X", [], [], false⟩ (lit "foo")) =
      printReceipt (withMode ⟨[], lit "T", lit "1", [], lit "X", [], [], false⟩ (lit "all")) ∧
    print
        ⟨fun _ => some (withMode
            ⟨lit "CLEANLINK_SECRET_123", lit "T", lit "1", lit "b", lit "X", [], [], false⟩
            (lit "foo")),
          Except.ok (lit "COM10"), fun _ _ => none⟩
        ⟨lit "POST", []⟩ =
      ⟨200, lit "\x7b\"status\":\"printed\",\"com\":\"COM10\"\x7d",
        [Effect.detectPrinter,
          Effect.compose (withMode
            ⟨lit "CLEANLINK_SECRET_123", lit "T", lit "1", lit "b", lit "X", [], [], false⟩
            (lit "foo")),
          Effect.writeDevice (lit "COM10") (printReceipt (withMode
            ⟨lit "CLEANLINK_SECRET_123", lit "T", lit "1", lit "b", lit "X", [], [], false⟩
            (lit "all")))]⟩ :=
  ⟨(other_token_is_all _ (lit "label") (by decide) (by decide) (by decide)).1,
    (other_token_is_all _ (lit "separator") (by decide) (by decide) (by decide)).1,
    (other_token_is_all _ (lit "foo") (by decide) (by decide) (by decide)).1,
    ((other_token_is_all
        ⟨lit "CLEANLINK_SECRET_123", lit "T", lit "1", lit "b", lit "X", [], [], false⟩
        (lit "foo") (by decide) (by decide) (by decide)).2.1
      ⟨fun _ => some (withMode
          ⟨lit "CLEANLINK_SECRET_123", lit "T", lit "1", lit "b", lit "X", [], [], false⟩
          (lit "foo")),
        Except.ok (lit "COM10"), fun _ _ => none⟩
      ⟨lit "POST", []⟩ rfl rfl rfl).2.1 (lit "COM10") rfl rfl⟩

/-! ## Occurrences of the cut sequence -/

theorem transparent_nil : Transparent [] := fun _ => rfl

theorem transparent_append {s t : Bytes} (hs : Transparent s) (ht : Transparent t) :
    Transparent (s ++ t) := by
  intro y
  rw [List.append_assoc, hs, ht]

/-- A byte other than `1D` in front of a stream starts no cut sequence. -/
theorem occurrences_cons_ne (b : Nat) (y : Bytes) (hb : b ≠ 0x1D) :
    occurrences escCut (b :: y) = occurrences escCut y := by
  have hb2 : ¬ (29 = b) := fun h => hb h.symm
  simp [occurrences, escCut, List.isPrefixOf, hb2]

/-- A segment without the byte `1D` is transparent. -/
theorem transparent_of_clean {s : Bytes} (h : 0x1D ∉ s) : Transparent s := by
  induction s with
  | nil => exact transparent_nil
  | cons b rest ih =>
    intro y
    have hb : b ≠ 0x1D := fun hb => h (hb ▸ List.mem_cons_self _ _)
    have hrest : 0x1D ∉ rest := fun hr => h (List.mem_cons_of_mem _ hr)
    rw [List.cons_append, occurrences_cons_ne _ _ hb]
    exact ih hrest y

/-- The byte `1D` followed by `28` starts no cut sequence. -/
theorem occurrences_gs_paren (y : Bytes) :
    occurrences escCut (0x1D :: 0x28 :: y) = occurrences escCut y := by
  simp [occurrences, escCut, List.isPrefixOf]

/-- The two length bytes followed by `31` start no cut sequence, whatever
their values. -/
theorem occurrences_length_bytes (a b : Nat) (y : Bytes) :
    occurrences escCut (a :: b :: 0x31 :: y) = occurrences escCut y := by
  simp [occurrences, escCut, List.isPrefixOf]

/-- The command group of a payload without the byte `1D` is transparent. -/
theorem transparent_escQRCode {d : Bytes} (h : 0x1D ∉ d) : Transparent (escQRCode d) := by
  intro y
  rw [escQRCode_eq]
  simp only [List.cons_append, List.nil_append, List.append_assoc]
  rw [occurrences_gs_paren, occurrences_cons_ne _ _ (by decide), occurrences_cons_ne _ _ (by decide),
    occurrences_cons_ne _ _ (by decide), occurrences_cons_ne _ _ (by decide),
    occurrences_cons_ne _ _ (by decide), occurrences_cons_ne _ _ (by decide),
    occurrences_cons_ne _ _ (by decide),
    occurrences_gs_paren, occurrences_cons_ne _ _ (by decide), occurrences_cons_ne _ _ (by decide),
    occurrences_cons_ne _ _ (by decide), occurrences_cons_ne _ _ (by decide),
    occurrences_cons_ne _ _ (by decide), occurrences_cons_ne _ _ (by decide),
    occurrences_gs_paren, occurrences_cons_ne _ _ (by decide), occurrences_cons_ne _ _ (by decide),
    occurrences_cons_ne _ _ (by decide), occurrences_cons_ne _ _ (by decide),
    occurrences_cons_ne _ _ (by decide), occurrences_cons_ne _ _ (by decide),
    occurrences_gs_paren, occurrences_cons_ne _ _ (by decide),
    occurrences_length_bytes, occurrences_cons_ne _ _ (by decide),
    occurrences_cons_ne _ _ (by decide),
    transparent_of_clean h,
    occurrences_gs_paren, occurrences_cons_ne _ _ (by decide), occurrences_cons_ne _ _ (by decide),
    occurrences_cons_ne _ _ (by decide), occurrences_cons_ne _ _ (by decide),
    occurrences_cons_ne _ _ (by decide), occurrences_cons_ne _ _ (by decide)]

/-- The receipt text of clean fields holds no byte `1D`. -/
theorem receiptText_clean {t o b : Bytes} (ht : 0x1D ∉ t) (ho : 0x1D ∉ o) (hb : 0x1D ∉ b) :
    0x1D ∉ receiptText t o b := by
  have h1 : 0x1D ∉ sepEq := by decide
  have h2 : 0x1D ∉ sepDash := by decide
  have h3 : 0x1D ∉ lit "ORDER: " := by decide
  have h4 : 0x1D ∉ lit "Terima kasih" := by decide
  have h5 : 0x1D ∉ lit "Atas kepercayaan Anda" := by decide
  simp [receiptText, escAlignCenter, escAlignLeft, escBold, escDoubleHeight, LF, ht, ho, hb,
    h1, h2, h3, h4, h5]

/-- The staff banner holds no byte `1D`. -/
theorem staffBanner_clean : 0x1D ∉ staffBanner := by decide

/-- The block of an entry with clean fields is transparent. -/
theorem transparent_qrBlock {e : QRCodeData} (h1 : 0x1D ∉ e.ServiceName)
    (h2 : 0x1D ∉ e.OrderID) (h3 : 0x1D ∉ e.Body) (h4 : 0x1D ∉ e.QRValue) :
    Transparent (qrBlock e) := by
  have hsplit : qrBlock e =
      labelHead e ++ (escQRCode e.QRValue ++ ([LF, LF] ++ (escAlignCenter ++ (escBold true ++
        (lit "Scan untuk update status" ++ ([LF] ++ escBold false)))))) := by
    simp only [qrBlock, labelHead, List.append_assoc]
  have c1 : 0x1D ∉ sepEq := by decide
  have c2 : 0x1D ∉ sepDash := by decide
  have c3 : 0x1D ∉ lit "ORDER: " := by decide
  have c4 : 0x1D ∉ lit "Scan untuk update status" := by decide
  rw [hsplit]
  refine transparent_append (transparent_of_clean ?_)
    (transparent_append (transparent_escQRCode h4) (transparent_of_clean ?_))
  · simp [labelHead, escAlignCenter, escAlignLeft, escBold, escDoubleHeight, LF, h1, h2, h3,
      c1, c2, c3]
  · simp [escAlignCenter, escBold, LF, c4]

/-- The spaced blocks of entries with clean fields are transparent. -/
theorem transparent_spacedBlocks (codes : List QRCodeData)
    (h : ∀ e ∈ codes,
      0x1D ∉ e.ServiceName ∧ 0x1D ∉ e.OrderID ∧ 0x1D ∉ e.Body ∧ 0x1D ∉ e.QRValue) :
    Transparent (spacedBlocks codes) := by
  induction codes with
  | nil => exact transparent_nil
  | cons e rest ih =>
    obtain ⟨h1, h2, h3, h4⟩ := h e (List.mem_cons_self _ _)
    rw [spacedBlocks]
    exact transparent_append (transparent_of_clean (by decide))
      (transparent_append (transparent_qrBlock h1 h2 h3 h4)
        (ih (fun x hx => h x (List.mem_cons_of_mem _ hx))))

/-- With a barcode source the label part ends with the cut, and what stands
before the cut is transparent when the text fields are clean. -/
theorem qrPart_split (req : PrintRequest) (hsrc : req.QRCodes ≠ [] ∨ req.QRValue ≠ lit "") :
    ∃ q : Bytes, qrPart req = q ++ escCut ∧ (textClean req → Transparent q) := by
  unfold qrPart
  cases hc : req.QRCodes with
  | cons e rest =>
    refine ⟨qrBlock e ++ (spacedBlocks rest ++ [LF, LF]), by simp only [List.append_assoc], ?_⟩
    rintro ⟨_, _, _, _, hall⟩
    rw [hc] at hall
    obtain ⟨h1, h2, h3, h4⟩ := hall e (List.mem_cons_self _ _)
    exact transparent_append (transparent_qrBlock h1 h2 h3 h4)
      (transparent_append
        (transparent_spacedBlocks rest (fun x hx => hall x (List.mem_cons_of_mem _ hx)))
        (transparent_of_clean (by decide)))
  | nil =>
    have hv : req.QRValue ≠ [] := by
      rcases hsrc with h | h
      · exact absurd hc h
      · exact h
    refine ⟨qrBlock ⟨req.Title, req.OrderID, req.Body, req.QRValue⟩ ++ [LF, LF], ?_, ?_⟩
    · simp only [hv, ne_eq, not_false_eq_true, if_true, List.append_assoc]
    · rintro ⟨h1, h2, h3, h4, _⟩
      exact transparent_append (transparent_qrBlock h1 h2 h3 h4)
        (transparent_of_clean (by decide))

/-- A stream made of a transparent part and the cut ends with the cut and
holds the cut sequence once. -/
theorem cut_at_end_of_split {s t : Bytes} (h : s = t ++ escCut) :
    s.drop (s.length - 3) = escCut := by
  have hl : s.length - 3 = t.length := by rw [h, List.length_append]; simp [escCut]
  rw [hl, h, List.drop_left]

theorem cut_once_of_split {s t : Bytes} (h : s = t ++ escCut) (ht : Transparent t) :
    occurrences escCut s = 1 := by
  rw [h, ht]; decide

/-! ## The cut command and the unrecognised tokens -/

set_option maxRecDepth 8192

/-- C3, as stated, fails. With `print_mode` `qr-only` and no barcode source the
stream is the two bytes of escInit and holds no cut. With `print_mode`
`receipt-only` and the title `1D 56 00` the cut sequence occurs twice. With
`print_mode` `all` and no barcode source the stream holds no cut and ends
with three line feeds, the end of the banner. -/
theorem cut_not_always_once :
    (printReceipt ⟨[], [], [], [], [], lit "qr-only", [], false⟩ = [0x1B, 0x40] ∧
      occurrences [0x1D, 0x56, 0x00]
        (printReceipt ⟨[], [], [], [], [], lit "qr-only", [], false⟩) = 0) ∧
    occurrences [0x1D, 0x56, 0x00]
      (printReceipt ⟨[], [0x1D, 0x56, 0x00], [], [], [], lit "receipt-only", [], false⟩) = 2 ∧
    (occurrences [0x1D, 0x56, 0x00]
        (printReceipt ⟨[], [], [], [], [], lit "all", [], false⟩) = 0 ∧
      (printReceipt ⟨[], [], [], [], [], lit "all", [], false⟩).drop
        ((printReceipt ⟨[], [], [], [], [], lit "all", [], false⟩).length - 3) =
        [0x0A, 0x0A, 0x0A]) := by
  refine ⟨⟨?_, ?_⟩, ?_, ?_, ?_⟩ <;> decide

/-- C3, amended: for every request whose `print_mode` is `receipt-only` or
empty, or in which `qr_codes` is non-empty or `qr_value` is non-empty, the
composed stream ends with the three bytes `1D 56 00`; and when in addition no
text field of the request holds the byte `1D`, this is the only occurrence of
`1D 56 00` in the stream. -/
theorem cut_once_at_end (req : PrintRequest)
    (h : req.PrintMode = lit "receipt-only" ∨ req.PrintMode = lit "" ∨
      req.QRCodes ≠ [] ∨ req.QRValue ≠ lit "") :
    (printReceipt req).drop ((printReceipt req).length - 3) = [0x1D, 0x56, 0x00] ∧
    (textClean req → occurrences [0x1D, 0x56, 0x00] (printReceipt req) = 1) := by
  have hinit : Transparent escInit := transparent_of_clean (by decide)
  have hgap : Transparent [LF, LF] := transparent_of_clean (by decide)
  have htext : textClean req → Transparent (receiptText req.Title req.OrderID req.Body) :=
    fun hc => transparent_of_clean (receiptText_clean hc.1 hc.2.1 hc.2.2.1)
  have hbanner : Transparent staffBanner := transparent_of_clean staffBanner_clean
  -- the stream is a part `t` followed by the cut, and `t` is transparent for clean text
  have hsplit : ∃ t : Bytes, printReceipt req = t ++ escCut ∧ (textClean req → Transparent t) := by
    by_cases hrec : req.PrintMode = lit "receipt-only"
    · refine ⟨escInit ++ (receiptText req.Title req.OrderID req.Body ++ [LF, LF]), ?_, ?_⟩
      · rw [printReceipt_receiptOnly req hrec]; simp only [List.append_assoc]
      · exact fun hc => transparent_append hinit (transparent_append (htext hc) hgap)
    · by_cases hsrc : req.QRCodes ≠ [] ∨ req.QRValue ≠ lit ""
      · obtain ⟨q, hq, hqt⟩ := qrPart_split req hsrc
        by_cases hqr : req.PrintMode = lit "qr-only"
        · refine ⟨escInit ++ q, ?_, fun hc => transparent_append hinit (hqt hc)⟩
          rw [printReceipt_qrOnly req hqr, hq]; simp only [List.append_assoc]
        · refine ⟨escInit ++ (receiptText req.Title req.OrderID req.Body ++ ([LF, LF] ++
              (staffBanner ++ q))), ?_, ?_⟩
          · by_cases hemp : req.PrintMode = lit ""
            · rw [printReceipt_default_all req hemp hsrc, hq]; simp only [List.append_assoc]
            · rw [printReceipt_else req hemp hrec hqr, hq]; simp only [List.append_assoc]
          · exact fun hc => transparent_append hinit (transparent_append (htext hc)
              (transparent_append hgap (transparent_append hbanner (hqt hc))))
      · have hemp : req.PrintMode = lit "" := by
          rcases h with h | h | h | h
          · exact absurd h hrec
          · exact h
          · exact absurd (Or.inl h) hsrc
          · exact absurd (Or.inr h) hsrc
        have hc0 : req.QRCodes = [] := by
          by_contra hne; exact hsrc (Or.inl hne)
        have hv0 : req.QRValue = lit "" := by
          by_contra hne; exact hsrc (Or.inr hne)
        refine ⟨escInit ++ (receiptText req.Title req.OrderID req.Body ++ [LF, LF]), ?_, ?_⟩
        · rw [printReceipt_default_receipt req hemp hc0 hv0]; simp only [List.append_assoc]
        · exact fun hc => transparent_append hinit (transparent_append (htext hc) hgap)
  obtain ⟨t, ht, htt⟩ := hsplit
  exact ⟨cut_at_end_of_split ht, fun hc => cut_once_of_split ht (htt hc)⟩

/-- C3, amended, at a request with `print_mode` `all` and two entries. -/
theorem cut_once_at_end_witness :
    (printReceipt ⟨[], lit "T", lit "1", lit "b", [], lit "all",
        [⟨lit "A", lit "1", lit "a", lit "QA"⟩, ⟨lit "B", lit "2", lit "b", lit "QB"⟩],
        false⟩).drop
      ((printReceipt ⟨[], lit "T", lit "1", lit "b", [], lit "all",
        [⟨lit "A", lit "1", lit "a", lit "QA"⟩, ⟨lit "B", lit "2", lit "b", lit "QB"⟩],
        false⟩).length - 3) = [0x1D, 0x56, 0x00] ∧
    occurrences [0x1D, 0x56, 0x00]
      (printReceipt ⟨[], lit "T", lit "1", lit "b", [], lit "all",
        [⟨lit "A", lit "1", lit "a", lit "QA"⟩, ⟨lit "B", lit "2", lit "b", lit "QB"⟩],
        false⟩) = 1 :=
  ⟨(cut_once_at_end _ (Or.inr (Or.inr (Or.inl (by decide))))).1,
    (cut_once_at_end _ (Or.inr (Or.inr (Or.inl (by decide))))).2 (by decide)⟩

/-- The stream of the final branch is longer than the stream of the qr-only
branch for the same fields. -/
theorem else_longer_than_qrOnly (t o b : Bytes) (q : Bytes) :
    (escInit ++ q).length <
      (escInit ++ (receiptText t o b ++ ([LF, LF] ++ (staffBanner ++ q)))).length := by
  simp only [List.length_append, List.length_cons, List.length_nil]
  omega

/-- C10, as stated, fails: for the request with all fields empty the stream
composed with `print_mode` `barcode-only` has 294 bytes (receipt and banner),
the stream composed with `qr-only` has the two bytes of escInit. -/
theorem barcode_only_differs_from_qr_only :
    (printReceipt (withMode ⟨[], [], [], [], [], [], [], false⟩ (lit "barcode-only"))).length
      = 294 ∧
    printReceipt (withMode ⟨[], [], [], [], [], [], [], false⟩ (lit "qr-only")) = [0x1B, 0x40] ∧
    printReceipt (withMode ⟨[], [], [], [], [], [], [], false⟩ (lit "barcode-only")) ≠
      printReceipt (withMode ⟨[], [], [], [], [], [], [], false⟩ (lit "qr-only")) := by
  refine ⟨?_, ?_, ?_⟩ <;> decide

/-- C10, amended: `barcode-only` is not a token of `print`; for every request
the stream composed with `print_mode` `barcode-only` is the stream composed
with `print_mode` `all`, and it differs from the stream composed with
`print_mode` `qr-only`. -/
theorem barcode_only_is_all (r : PrintRequest) :
    printReceipt (withMode r (lit "barcode-only")) = printReceipt (withMode r (lit "all")) ∧
    printReceipt (withMode r (lit "barcode-only")) ≠
      printReceipt (withMode r (lit "qr-only")) := by
  have hb := printReceipt_else (withMode r (lit "barcode-only"))
    (show lit "barcode-only" ≠ lit "" by decide)
    (show lit "barcode-only" ≠ lit "receipt-only" by decide)
    (show lit "barcode-only" ≠ lit "qr-only" by decide)
  have ha := printReceipt_else (withMode r (lit "all")) mode_all_ne_empty mode_all_ne_receipt
    mode_all_ne_qr
  have hq := printReceipt_qrOnly (withMode r (lit "qr-only")) rfl
  have hpart : qrPart (withMode r (lit "barcode-only")) = qrPart (withMode r (lit "qr-only")) :=
    rfl
  refine ⟨?_, ?_⟩
  · rw [hb, ha]; rfl
  · intro heq
    have hlen := congrArg List.length heq
    rw [hb, hq, hpart] at hlen
    exact absurd hlen.symm (Nat.ne_of_lt (else_longer_than_qrOnly _ _ _ _))

/-! ## The composition as a function of the resolved mode -/

/-- The stream of `print` in terms of the resolved mode. -/
theorem printReceipt_eq (req : PrintRequest) :
    printReceipt req =
      if resolveMode req = lit "receipt-only" then
        escInit ++ (receiptText req.Title req.OrderID req.Body ++ ([LF, LF] ++ escCut))
      else if resolveMode req = lit "qr-only" then escInit ++ qrPart req
      else escInit ++ (receiptText req.Title req.OrderID req.Body ++ ([LF, LF] ++
        (staffBanner ++ qrPart req))) := by
  by_cases hm : req.PrintMode = lit ""
  · by_cases hsrc : req.QRCodes ≠ [] ∨ req.QRValue ≠ lit ""
    · have hres : resolveMode req = lit "all" := by
        unfold resolveMode
        rcases hsrc with hc | hv
        · have : req.QRCodes.length > 0 := List.length_pos.mpr hc
          simp only [hm, this, if_true]
        · by_cases hl : req.QRCodes.length > 0
          · simp only [hm, hl, if_true]
          · simp only [hm, hl, hv, if_false, ne_eq, not_false_eq_true, if_true]
      rw [hres, if_neg mode_all_ne_receipt, if_neg mode_all_ne_qr,
        printReceipt_default_all req hm hsrc]
    · have hc0 : req.QRCodes = [] := by
        by_contra hne; exact hsrc (Or.inl hne)
      have hv0 : req.QRValue = lit "" := by
        by_contra hne; exact hsrc (Or.inr hne)
      have hres : resolveMode req = lit "receipt-only" := by
        unfold resolveMode
        simp only [hm, hc0, hv0, List.length_nil, gt_iff_lt, Nat.lt_irrefl, ne_eq,
          not_true_eq_false, if_true, if_false]
      rw [hres, if_pos rfl, printReceipt_default_receipt req hm hc0 hv0]
  · have hres : resolveMode req = req.PrintMode := by
      unfold resolveMode; rw [if_neg hm]
    rw [hres]
    by_cases hrec : req.PrintMode = lit "receipt-only"
    · rw [if_pos hrec, printReceipt_receiptOnly req hrec]
    · by_cases hqr : req.PrintMode = lit "qr-only"
      · rw [if_neg hrec, if_pos hqr, printReceipt_qrOnly req hqr]
      · rw [if_neg hrec, if_neg hqr, printReceipt_else req hm hrec hqr]

/-- With a non-empty list of entries the resolved mode does not depend on the
legacy value. -/
theorem resolveMode_of_codes (req : PrintRequest) (hne : req.QRCodes ≠ []) :
    resolveMode req = if req.PrintMode = lit "" then lit "all" else req.PrintMode := by
  have : req.QRCodes.length > 0 := List.length_pos.mpr hne
  unfold resolveMode
  simp only [this, if_true]

/-- With a non-empty list of entries the label part does not depend on the
legacy value. -/
theorem qrPart_of_codes (req : PrintRequest) (e : QRCodeData) (rest : List QRCodeData)
    (hc : req.QRCodes = e :: rest) :
    qrPart req = qrBlock e ++ (spacedBlocks rest ++ ([LF, LF] ++ escCut)) := by
  unfold qrPart; rw [hc]

/-- Without entries and with a legacy value the label part is the block of
the top-level fields, two line feeds and the cut. -/
theorem qrPart_of_legacy (req : PrintRequest) (hc : req.QRCodes = [])
    (hv : req.QRValue ≠ lit "") :
    qrPart req = qrBlock (legacyEntry req) ++ ([LF, LF] ++ escCut) := by
  have hv2 : req.QRValue ≠ [] := hv
  unfold qrPart legacyEntry; rw [hc]
  simp only [hv2, ne_eq, not_false_eq_true, if_true]

/-! ## The legacy value, determinism and the encoder table -/

/-- C11: two requests that differ only in `qr_value` (they agree on title,
order id, body, `print_mode` and `qr_codes`) and whose `qr_codes` list is
non-empty resolve to the same mode and compose identical streams, in every
`print_mode`. -/
theorem legacy_value_ignored_with_entries (r1 r2 : PrintRequest) (hne : r1.QRCodes ≠ [])
    (hT : r1.Title = r2.Title) (hO : r1.OrderID = r2.OrderID)
    (hB : r1.Body = r2.Body) (hM : r1.PrintMode = r2.PrintMode)
    (hC : r1.QRCodes = r2.QRCodes) :
    resolveMode r1 = resolveMode r2 ∧ printReceipt r1 = printReceipt r2 := by
  have hne2 : r2.QRCodes ≠ [] := hC ▸ hne
  have hres : resolveMode r1 = resolveMode r2 := by
    rw [resolveMode_of_codes r1 hne, resolveMode_of_codes r2 hne2, hM]
  have hpart : qrPart r1 = qrPart r2 := by
    cases hc1 : r1.QRCodes with
    | nil => exact absurd hc1 hne
    | cons e rest =>
      rw [qrPart_of_codes r1 e rest hc1, qrPart_of_codes r2 e rest (hC ▸ hc1)]
  refine ⟨hres, ?_⟩
  rw [printReceipt_eq r1, printReceipt_eq r2, hres, hpart, hT, hO, hB]

/-- C11 at two requests with one entry, empty `print_mode` and the legacy
values `X` and `Y`. -/
theorem legacy_value_ignored_with_entries_witness :
    resolveMode ⟨[], lit "T", lit "1", lit "b", lit "X", [],
        [⟨lit "A", lit "1", lit "a", lit "QA"⟩], false⟩ =
      resolveMode ⟨[], lit "T", lit "1", lit "b", lit "Y", [],
        [⟨lit "A", lit "1", lit "a", lit "QA"⟩], false⟩ ∧
    printReceipt ⟨[], lit "T", lit "1", lit "b", lit "X", [],
        [⟨lit "A", lit "1", lit "a", lit "QA"⟩], false⟩ =
      printReceipt ⟨[], lit "T", lit "1", lit "b", lit "Y", [],
        [⟨lit "A", lit "1", lit "a", lit "QA"⟩], false⟩ :=
  legacy_value_ignored_with_entries
    ⟨[], lit "T", lit "1", lit "b", lit "X", [], [⟨lit "A", lit "1", lit "a", lit "QA"⟩], false⟩
    ⟨[], lit "T", lit "1", lit "b", lit "Y", [], [⟨lit "A", lit "1", lit "a", lit "QA"⟩], false⟩
    (by decide) rfl rfl rfl rfl rfl

/-- C12: for every request `r` with empty `qr_codes` and non-empty `qr_value`,
in every `print_mode`, the composed stream is the stream composed for `r` with
`qr_codes` replaced by the single entry made of the top-level title, order id,
body and legacy value; in mode `qr-only` it is escInit, the block of that
entry, two LF and escCut, and in mode `all` the same follows the receipt text,
two LF and the staff banner. -/
theorem legacy_value_is_single_entry (r : PrintRequest) (hc : r.QRCodes = [])
    (hv : r.QRValue ≠ lit "") :
    printReceipt r = printReceipt (withCodes r [legacyEntry r]) ∧
    (r.PrintMode = lit "qr-only" →
      printReceipt r = escInit ++ qrBlock (legacyEntry r) ++ [0x0A, 0x0A] ++ escCut) ∧
    (r.PrintMode = lit "all" →
      printReceipt r = escInit ++ receiptText r.Title r.OrderID r.Body ++ [0x0A, 0x0A]
        ++ staffBanner ++ qrBlock (legacyEntry r) ++ [0x0A, 0x0A] ++ escCut) ∧
    legacyEntry r = ⟨r.Title, r.OrderID, r.Body, r.QRValue⟩ := by
  have hpart := qrPart_of_legacy r hc hv
  have hpart2 : qrPart (withCodes r [legacyEntry r]) = qrPart r := by
    rw [hpart, qrPart_of_codes (withCodes r [legacyEntry r]) (legacyEntry r) [] rfl]
    simp only [spacedBlocks, List.nil_append]
  have hres : resolveMode (withCodes r [legacyEntry r]) = resolveMode r := by
    rw [resolveMode_of_codes (withCodes r [legacyEntry r]) (List.cons_ne_nil _ _)]
    unfold resolveMode
    simp only [withCodes, hc, hv, List.length_nil, gt_iff_lt, Nat.lt_irrefl, ne_eq,
      not_false_eq_true, if_true, if_false]
  refine ⟨?_, ?_, ?_, rfl⟩
  · rw [printReceipt_eq r, printReceipt_eq (withCodes r [legacyEntry r]), hres, hpart2]
    rfl
  · intro hm
    rw [printReceipt_qrOnly r hm, hpart]
    simp only [LF, List.append_assoc]
  · intro hm
    rw [printReceipt_else r (hm ▸ mode_all_ne_empty) (hm ▸ mode_all_ne_receipt)
      (hm ▸ mode_all_ne_qr), hpart]
    simp only [LF, List.append_assoc]

/-- C12 at the request `T` / `1` / `b` with the legacy value `X` and
`print_mode` `qr-only`. -/
theorem legacy_value_is_single_entry_witness :
    printReceipt ⟨[], lit "T", lit "1", lit "b", lit "X", lit "qr-only", [], false⟩ =
      printReceipt ⟨[], lit "T", lit "1", lit "b", lit "X", lit "qr-only",
        [⟨lit "T", lit "1", lit "b", lit "X"⟩], false⟩ :=
  (legacy_value_is_single_entry
    ⟨[], lit "T", lit "1", lit "b", lit "X", lit "qr-only", [], false⟩ rfl (by decide)).1

/-- C13: for every request with `print_mode` `receipt-only`, the composed
stream starts with `1B 40`, holds the bytes of `ORDER: ` followed by the order
id and LF as a contiguous subsequence, and ends with `1D 56 00`. -/
theorem receipt_only_scenario (req : PrintRequest) (h : req.PrintMode = lit "receipt-only") :
    List.IsPrefix [0x1B, 0x40] (printReceipt req) ∧
    List.IsInfix (lit "ORDER: " ++ req.OrderID ++ [0x0A]) (printReceipt req) ∧
    List.IsSuffix [0x1D, 0x56, 0x00] (printReceipt req) := by
  rw [printReceipt_receiptOnly req h]
  refine ⟨⟨receiptText req.Title req.OrderID req.Body ++ ([LF, LF] ++ escCut), rfl⟩, ?_,
    ⟨escInit ++ (receiptText req.Title req.OrderID req.Body ++ [LF, LF]), ?_⟩⟩
  · refine ⟨escInit ++ ([LF] ++ (escAlignCenter ++ (escBold true ++ (escDoubleHeight true ++
      (req.Title ++ ([LF] ++ (escDoubleHeight false ++ (escBold false ++ (escAlignCenter ++
      (sepEq ++ (escAlignCenter ++ escBold true))))))))))),
      escBold false ++ (escAlignCenter ++ (sepDash ++ (escAlignLeft ++ (req.Body ++
      (escAlignCenter ++ ([LF] ++ (sepEq ++ (escBold true ++ (lit "Terima kasih" ++ ([LF] ++
      (escBold false ++ (lit "Atas kepercayaan Anda" ++ ([LF] ++ ([LF, LF] ++ escCut)))))))))))))),
      ?_⟩
    simp only [receiptText, LF, List.append_assoc]
  · simp only [escCut, List.append_assoc]

/-- C13 at the request `Laundry Co` / `123` / `Thank you`. -/
theorem receipt_only_scenario_witness :
    List.IsPrefix [0x1B, 0x40]
      (printReceipt ⟨[], lit "Laundry Co", lit "123", lit "Thank you\n", [],
        lit "receipt-only", [], false⟩) ∧
    List.IsInfix (lit "ORDER: " ++ lit "123" ++ [0x0A])
      (printReceipt ⟨[], lit "Laundry Co", lit "123", lit "Thank you\n", [],
        lit "receipt-only", [], false⟩) ∧
    List.IsSuffix [0x1D, 0x56, 0x00]
      (printReceipt ⟨[], lit "Laundry Co", lit "123", lit "Thank you\n", [],
        lit "receipt-only", [], false⟩) :=
  receipt_only_scenario ⟨[], lit "Laundry Co", lit "123", lit "Thank you\n", [],
    lit "receipt-only", [], false⟩ rfl

/-- C15: two requests that agree on title, order id, body, `qr_value`,
`print_mode` and `qr_codes` compose identical streams; in particular the
fields `token` and `no_paper_cut` change no emitted byte. -/
theorem composition_is_pure (r1 r2 : PrintRequest) (hT : r1.Title = r2.Title)
    (hO : r1.OrderID = r2.OrderID) (hB : r1.Body = r2.Body) (hV : r1.QRValue = r2.QRValue)
    (hM : r1.PrintMode = r2.PrintMode) (hC : r1.QRCodes = r2.QRCodes) :
    printReceipt r1 = printReceipt r2 ∧
    (∀ (tok : Bytes) (npc : Bool),
      printReceipt { r1 with Token := tok, NoPaperCut := npc } = printReceipt r1) := by
  refine ⟨?_, fun _ _ => rfl⟩
  unfold printReceipt
  rw [hT, hO, hB, hV, hM, hC]

/-- C15 at two requests that differ in `token` and `no_paper_cut` only. -/
theorem composition_is_pure_witness :
    printReceipt ⟨lit "a", lit "T", lit "1", lit "b", lit "X", [],
        [⟨lit "A", lit "1", lit "a", lit "QA"⟩], false⟩ =
      printReceipt ⟨lit "b", lit "T", lit "1", lit "b", lit "X", [],
        [⟨lit "A", lit "1", lit "a", lit "QA"⟩], true⟩ :=
  (composition_is_pure
    ⟨lit "a", lit "T", lit "1", lit "b", lit "X", [], [⟨lit "A", lit "1", lit "a", lit "QA"⟩],
      false⟩
    ⟨lit "b", lit "T", lit "1", lit "b", lit "X", [], [⟨lit "A", lit "1", lit "a", lit "QA"⟩],
      true⟩ rfl rfl rfl rfl rfl rfl).1

/-- C16: the command encoders of main.go return the bytes of the table, for
every argument. -/
theorem encoder_table :
    escInit = [0x1B, 0x40] ∧
    escBold true = [0x1B, 0x45, 0x01] ∧ escBold false = [0x1B, 0x45, 0x00] ∧
    escAlignCenter = [0x1B, 0x61, 0x01] ∧ escAlignLeft = [0x1B, 0x61, 0x00] ∧
    escDoubleHeight true = [0x1B, 0x21, 0x10] ∧ escDoubleHeight false = [0x1B, 0x21, 0x00] ∧
    escUnderline true = [0x1B, 0x2D, 0x01] ∧ escUnderline false = [0x1B, 0x2D, 0x00] ∧
    escFontSize false = [0x1B, 0x21, 0x01] ∧ escFontSize true = [0x1B, 0x21, 0x00] ∧
    escCut = [0x1D, 0x56, 0x00] ∧
    (∀ b : Bool, escBold b = [0x1B, 0x45, if b then 0x01 else 0x00]) ∧
    (∀ b : Bool, escDoubleHeight b = [0x1B, 0x21, if b then 0x10 else 0x00]) ∧
    (∀ b : Bool, escUnderline b = [0x1B, 0x2D, if b then 0x01 else 0x00]) ∧
    (∀ b : Bool, escFontSize b = [0x1B, 0x21, if b then 0x00 else 0x01]) := by
  refine ⟨rfl, rfl, rfl, rfl, rfl, rfl, rfl, rfl, rfl, rfl, rfl, rfl, ?_, ?_, ?_, ?_⟩ <;>
    intro b <;> cases b <;> rfl

/-! ## The store-data header in a receipt-only stream -/

/-- The receipt text is its three text fields between four fixed segments. -/
theorem receiptText_split (t o b : Bytes) :
    receiptText t o b =
      receiptPre ++ (t ++ (receiptMid1 ++ (o ++ (receiptMid2 ++ (b ++ receiptPost))))) := by
  simp only [receiptText, receiptPre, receiptMid1, receiptMid2, receiptPost, List.append_assoc]

/-- No store-data header starts at a byte other than `1D`. -/
theorem storeHeaderAt_cons_ne (b : Nat) (y : Bytes) (hb : b ≠ 0x1D) :
    storeHeaderAt (b :: y) = false := by
  cases y with
  | nil => simp [storeHeaderAt, hb]
  | cons y0 y1 =>
    cases y1 with
    | nil => simp [storeHeaderAt, hb]
    | cons y2 y3 => simp [storeHeaderAt, hb]

/-- A segment without the byte `1D` in front of a stream adds no store-data
header. -/
theorem hasStoreHeader_append_clean (s y : Bytes) (h : 0x1D ∉ s) :
    hasStoreHeader (s ++ y) = hasStoreHeader y := by
  induction s with
  | nil => rfl
  | cons b rest ih =>
    have hb : b ≠ 0x1D := fun hb => h (hb ▸ List.mem_cons_self _ _)
    have hrest : 0x1D ∉ rest := fun hr => h (List.mem_cons_of_mem _ hr)
    rw [List.cons_append, hasStoreHeader, storeHeaderAt_cons_ne _ _ hb, ih hrest]
    rfl

/-- In front of a stream that admits no straddling header, a non-empty text
starts a header exactly when it starts one on its own. -/
theorem storeHeaderAt_append (l y : Bytes) (hl : l ≠ []) (hy : NoStraddle y) :
    storeHeaderAt (l ++ y) = storeHeaderAt l := by
  obtain ⟨a, b, c, rest, rfl, h1, h2, h3, h4, h5, h6, h7⟩ := hy
  rcases l with _ | ⟨x0, _ | ⟨x1, _ | ⟨x2, _ | ⟨x3, _ | ⟨x4, _ | ⟨x5, _ | ⟨x6, _ | ⟨x7, l8⟩⟩⟩⟩⟩⟩⟩⟩
  · exact absurd rfl hl
  all_goals simp [storeHeaderAt, h1, h2, h3, h4, h5, h6, h7]

/-- A text in front of a stream that admits no straddling header: the headers
are those of the text and those of the stream. -/
theorem hasStoreHeader_append_text (t y : Bytes) (hy : NoStraddle y) :
    hasStoreHeader (t ++ y) = (hasStoreHeader t || hasStoreHeader y) := by
  induction t with
  | nil => simp [hasStoreHeader]
  | cons x rest ih =>
    have h := storeHeaderAt_append (x :: rest) y (List.cons_ne_nil _ _) hy
    rw [List.cons_append] at h
    rw [List.cons_append, hasStoreHeader, hasStoreHeader, h, ih, Bool.or_assoc]

theorem noStraddle_receiptMid1 (y : Bytes) : NoStraddle (receiptMid1 ++ y) :=
  ⟨0x0A, 0x1B, 0x21, _, rfl, by decide, by decide, by decide, by decide, by decide, by decide,
    by decide⟩

theorem noStraddle_receiptMid2 (y : Bytes) : NoStraddle (receiptMid2 ++ y) :=
  ⟨0x0A, 0x1B, 0x45, _, rfl, by decide, by decide, by decide, by decide, by decide, by decide,
    by decide⟩

theorem noStraddle_receiptPost (y : Bytes) : NoStraddle (receiptPost ++ y) :=
  ⟨0x1B, 0x61, 0x01, _, rfl, by decide, by decide, by decide, by decide, by decide, by decide,
    by decide⟩

/-- C14, as stated, fails: with `print_mode` `receipt-only` and the title
`1D 28 6B 03 00 31 50 30` the stream holds a store-data header, at index 12. -/
theorem receipt_only_can_hold_store_header :
    hasStoreHeader (printReceipt ⟨[], [0x1D, 0x28, 0x6B, 0x03, 0x00, 0x31, 0x50, 0x30], [], [],
      [], lit "receipt-only", [], false⟩) = true ∧
    ((printReceipt ⟨[], [0x1D, 0x28, 0x6B, 0x03, 0x00, 0x31, 0x50, 0x30], [], [],
      [], lit "receipt-only", [], false⟩).drop 12).take 8 =
      [0x1D, 0x28, 0x6B, 0x03, 0x00, 0x31, 0x50, 0x30] := by
  refine ⟨?_, ?_⟩ <;> decide

/-- C14, amended: for every request with `print_mode` `receipt-only`, the
composed stream holds a store-data command header `1D 28 6B x y 31 50 30`
exactly when the title, the order id or the body holds one: `print` emits none
of its own and none arises across the end of a text field; so the stream holds
none when these three fields hold none. -/
theorem receipt_only_store_header (req : PrintRequest) (h : req.PrintMode = lit "receipt-only") :
    hasStoreHeader (printReceipt req) =
      (hasStoreHeader req.Title || hasStoreHeader req.OrderID || hasStoreHeader req.Body) ∧
    (hasStoreHeader req.Title = false → hasStoreHeader req.OrderID = false →
      hasStoreHeader req.Body = false → hasStoreHeader (printReceipt req) = false) := by
  have key : hasStoreHeader (printReceipt req) =
      (hasStoreHeader req.Title || hasStoreHeader req.OrderID || hasStoreHeader req.Body) := by
    have hcut : hasStoreHeader escCut = false := by decide
    rw [printReceipt_receiptOnly req h, receiptText_split]
    simp only [List.append_assoc]
    rw [hasStoreHeader_append_clean escInit _ (by decide),
      hasStoreHeader_append_clean receiptPre _ (by decide),
      hasStoreHeader_append_text req.Title _ (noStraddle_receiptMid1 _),
      hasStoreHeader_append_clean receiptMid1 _ (by decide),
      hasStoreHeader_append_text req.OrderID _ (noStraddle_receiptMid2 _),
      hasStoreHeader_append_clean receiptMid2 _ (by decide),
      hasStoreHeader_append_text req.Body _ (noStraddle_receiptPost _),
      hasStoreHeader_append_clean receiptPost _ (by decide),
      hasStoreHeader_append_clean [LF, LF] _ (by decide), hcut]
    simp only [Bool.or_false, Bool.or_assoc]
  refine ⟨key, fun h1 h2 h3 => ?_⟩
  rw [key, h1, h2, h3]
  rfl

/-- C14, amended, at the request `Laundry Co` / `123` / `Thank you`. -/
theorem receipt_only_store_header_witness :
    hasStoreHeader (printReceipt ⟨[], lit "Laundry Co", lit "123", lit "Thank you\n", [],
      lit "receipt-only", [], false⟩) = false :=
  (receipt_only_store_header ⟨[], lit "Laundry Co", lit "123", lit "Thank you\n", [],
    lit "receipt-only", [], false⟩ rfl).2 (by decide) (by decide) (by decide)

/-! ## Loops over the entries, in general -/

/-- A loop over the entries that appends a spacer before every entry but the
first, the block of the entry, and a tail after the last entry, appends in all
the first block, the later blocks each behind the spacer, and the tail. This
is the shape of the loops of `printHandler`. -/
theorem loop_later {E : Type} (f : Nat → Nat → List E → Bytes → Bytes) (sp tail : Bytes)
    (block : E → Bytes) (hnil : ∀ n i r, f n i [] r = r)
    (hcons : ∀ n i e rest r, f n i (e :: rest) r =
      f n (i + 1) rest (r ++ ((if i > 0 then sp else []) ++
        (block e ++ (if (i : Int) = (n : Int) - 1 then tail else [])))))
    (n : Nat) (codes : List E) :
    ∀ (i : Nat) (r : Bytes), 0 < i → codes ≠ [] → i + codes.length = n →
      f n i codes r = r ++ (spacedWith sp block codes ++ tail) := by
  induction codes with
  | nil => intro i r _ hne; exact absurd rfl hne
  | cons e rest ih =>
    intro i r hi _ hlen
    rw [hcons]
    cases rest with
    | nil =>
      have hlast : (i : Int) = (n : Int) - 1 := by
        simp only [List.length_cons, List.length_nil] at hlen; omega
      simp only [hi, hlast, if_true, hnil, spacedWith, List.append_assoc, List.append_nil]
    | cons e2 rest2 =>
      have hnot : ¬ ((i : Int) = (n : Int) - 1) := by
        simp only [List.length_cons] at hlen; omega
      rw [ih (i + 1) _ (Nat.succ_pos i) (List.cons_ne_nil _ _)
        (by simp only [List.length_cons] at hlen ⊢; omega)]
      simp only [hi, hnot, if_true, if_false, spacedWith, List.append_assoc, List.append_nil]

theorem loop_all {E : Type} (f : Nat → Nat → List E → Bytes → Bytes) (sp tail : Bytes)
    (block : E → Bytes) (hnil : ∀ n i r, f n i [] r = r)
    (hcons : ∀ n i e rest r, f n i (e :: rest) r =
      f n (i + 1) rest (r ++ ((if i > 0 then sp else []) ++
        (block e ++ (if (i : Int) = (n : Int) - 1 then tail else [])))))
    (e : E) (rest : List E) (r : Bytes) :
    f (e :: rest).length 0 (e :: rest) r = r ++ (block e ++ (spacedWith sp block rest ++ tail)) := by
  rw [hcons]
  cases rest with
  | nil => simp [hnil, spacedWith]
  | cons e2 rest2 =>
    have hnot : ¬ (((0 : Nat) : Int) = (((e :: e2 :: rest2).length : Nat) : Int) - 1) := by
      simp only [List.length_cons]; omega
    rw [loop_later f sp tail block hnil hcons _ _ 1 _ Nat.one_pos (List.cons_ne_nil _ _)
      (by simp only [List.length_cons]; omega)]
    simp only [hnot, if_false, Nat.lt_irrefl, gt_iff_lt, List.append_assoc, List.nil_append,
      List.append_nil]

/-! ## `src/linux/main.go`: the separator mode -/

namespace Linux

/-- C17: for every request with `print_mode` `separator`, the stream composed
by `printHandler` of linux/main.go is escInit, one LF, two LF, escAlignCenter,
32 `-` and LF, escAlignCenter, escBold(true), `--- Untuk Staff ---` and LF,
escBold(false), escAlignCenter, 32 `-` and LF, two LF, escCut; it holds none of
the title, order id, body and `qr_value`. -/
theorem separator_stream (req : PrintRequest) (h : req.PrintMode = lit "separator") :
    printHandlerReceipt req =
      escInit ++ [0x0A] ++ [0x0A, 0x0A] ++ escAlignCenter ++ List.replicate 32 0x2D ++ [0x0A]
      ++ escAlignCenter ++ escBold true ++ lit "--- Untuk Staff ---" ++ [0x0A] ++ escBold false
      ++ escAlignCenter ++ List.replicate 32 0x2D ++ [0x0A] ++ [0x0A, 0x0A] ++ escCut := by
  have hne : lit "separator" ≠ lit "" := by decide
  unfold printHandlerReceipt
  simp only [h, hne, if_true, if_false, lit_nl, lit_nl2, lit_sepDash, lit_staff, sepDash, LF,
    List.append_assoc, List.nil_append]

/-- C17 at two requests with different title, order id, body and `qr_value`. -/
theorem separator_stream_witness :
    printHandlerReceipt ⟨[], lit "T", lit "1", lit "b", lit "X", lit "separator"⟩ =
      escInit ++ [0x0A] ++ [0x0A, 0x0A] ++ escAlignCenter ++ List.replicate 32 0x2D ++ [0x0A]
      ++ escAlignCenter ++ escBold true ++ lit "--- Untuk Staff ---" ++ [0x0A] ++ escBold false
      ++ escAlignCenter ++ List.replicate 32 0x2D ++ [0x0A] ++ [0x0A, 0x0A] ++ escCut ∧
    printHandlerReceipt ⟨[], lit "T", lit "1", lit "b", lit "X", lit "separator"⟩ =
      printHandlerReceipt ⟨[], [], [], [], [], lit "separator"⟩ :=
  ⟨separator_stream ⟨[], lit "T", lit "1", lit "b", lit "X", lit "separator"⟩ rfl,
    (separator_stream ⟨[], lit "T", lit "1", lit "b", lit "X", lit "separator"⟩ rfl).trans
      (separator_stream ⟨[], [], [], [], [], lit "separator"⟩ rfl).symm⟩

end Linux

/-! ## `src/app-windows/main.go`: the branches of `printHandler` -/

namespace AppWindows

theorem lit_nl4 : lit "\n\n\n\n" = [LF, LF, LF, LF] := rfl

theorem lit_nl6 : lit "\n\n\n\n\n\n" = [LF, LF, LF, LF, LF, LF] := rfl

theorem lit_scanBarcode : lit "Scan Barcode\n" = lit "Scan Barcode" ++ [LF] := by decide

theorem lit_terimakasih : lit "Terimakasih\n" = lit "Terimakasih" ++ [LF] := by decide

theorem lit_atas : lit "Atas Kepercayaan Anda\n" = lit "Atas Kepercayaan Anda" ++ [LF] := by
  decide

/-- One iteration of the label loop. -/
theorem labelLoop_cons (req : PrintRequest) (n i : Nat) (e : QRCodeData)
    (rest : List QRCodeData) (receipt : Bytes) :
    labelLoop req n i (e :: rest) receipt =
      labelLoop req n (i + 1) rest
        (receipt ++ ((if i > 0 then [LF, LF, LF, LF] else []) ++
          (labelBlock req.Title e ++
            (if (i : Int) = (n : Int) - 1 then
              [LF, LF, LF, LF, LF, LF] ++ (escCut ++ escInit) else [])))) := by
  rw [labelLoop]
  by_cases h1 : i > 0 <;> by_cases h2 : (i : Int) = (n : Int) - 1 <;>
    simp only [h1, h2, if_true, if_false, labelBlock, lit_nl, lit_nl4, lit_nl6, lit_sepDash,
      lit_scanBarcode, List.append_assoc, List.append_nil, List.nil_append]

/-- The loop of the final branch is the loop of the label branch. -/
theorem allLoop_eq_labelLoop (req : PrintRequest) (n : Nat) (codes : List QRCodeData) :
    ∀ (i : Nat) (receipt : Bytes),
      allLoop req n i codes receipt = labelLoop req n i codes receipt := by
  induction codes with
  | nil => intro i receipt; rw [allLoop, labelLoop]
  | cons e rest ih => intro i receipt; rw [allLoop, labelLoop, ih]

/-- The whole label loop over a non-empty list. -/
theorem labelLoop_all (req : PrintRequest) (e : QRCodeData) (rest : List QRCodeData)
    (receipt : Bytes) :
    labelLoop req (e :: rest).length 0 (e :: rest) receipt =
      receipt ++ (labelBlock req.Title e ++
        (spacedWith [LF, LF, LF, LF] (labelBlock req.Title) rest ++
          ([LF, LF, LF, LF, LF, LF] ++ (escCut ++ escInit)))) :=
  loop_all (labelLoop req) [LF, LF, LF, LF] ([LF, LF, LF, LF, LF, LF] ++ (escCut ++ escInit))
    (labelBlock req.Title) (fun n i r => by rw [labelLoop])
    (fun n i e rest r => labelLoop_cons req n i e rest r) e rest receipt

theorem mode_label_ne_empty : lit "label" ≠ lit "" := by decide

theorem mode_label_ne_receipt : lit "label" ≠ lit "receipt-only" := by decide

theorem mode_label_ne_qr : lit "label" ≠ lit "qr-only" := by decide

theorem mode_all_ne_label : lit "all" ≠ lit "label" := by decide

/-- The stream of the receipt-only branch of app-windows. -/
theorem printHandler_receiptOnly (req : PrintRequest) (h : req.PrintMode = lit "receipt-only") :
    printHandlerReceipt req =
      escInit ++ ([LF] ++ (escAlignCenter ++ (escBold true ++ (escDoubleHeight true ++
      (req.Title ++ ([LF] ++ (escDoubleHeight false ++ (escBold false ++
      (receiptRest req.Body ++ ([LF, LF, LF, LF, LF, LF] ++ (escCut ++ escInit))))))))))) := by
  unfold printHandlerReceipt
  simp only [h, mode_receipt_ne_empty, if_true, if_false, receiptRest, lit_nl, lit_nl6,
    lit_sepDash, lit_terimakasih, lit_atas, List.append_assoc, List.nil_append]

/-- The stream of the label branch of app-windows for a non-empty list. -/
theorem printHandler_label (req : PrintRequest) (e : QRCodeData) (rest : List QRCodeData)
    (h : req.PrintMode = lit "label") (hc : req.QRCodes = e :: rest) :
    printHandlerReceipt req =
      escInit ++ (labelBlock req.Title e ++
        (spacedWith [LF, LF, LF, LF] (labelBlock req.Title) rest ++
          ([LF, LF, LF, LF, LF, LF] ++ (escCut ++ escInit)))) := by
  unfold printHandlerReceipt
  simp only [h, hc, mode_label_ne_empty, mode_label_ne_receipt, mode_label_ne_qr, if_true,
    if_false, labelLoop_all, List.nil_append]

/-- The stream of the final branch of app-windows for the token `all` and a
non-empty list. -/
theorem printHandler_all (req : PrintRequest) (e : QRCodeData) (rest : List QRCodeData)
    (h : req.PrintMode = lit "all") (hc : req.QRCodes = e :: rest) :
    printHandlerReceipt req =
      escInit ++ ([LF] ++ (escAlignCenter ++ (escBold true ++ (req.Title ++ ([LF] ++
      (escBold false ++ (receiptRest req.Body ++ ([LF, LF] ++ (staffBanner ++
      (labelBlock req.Title e ++
        (spacedWith [LF, LF, LF, LF] (labelBlock req.Title) rest ++
          ([LF, LF, LF, LF, LF, LF] ++ (escCut ++ escInit))))))))))))) := by
  have hlen : ¬ ((e :: rest).length = 0) := by simp
  unfold printHandlerReceipt
  simp only [h, hc, mode_all_ne_empty, mode_all_ne_receipt, mode_all_ne_qr, mode_all_ne_label,
    hlen, false_and, if_true, if_false, allLoop_eq_labelLoop, labelLoop_all, receiptRest,
    staffBanner, lit_nl, lit_nl2, lit_sepDash, lit_terimakasih, lit_atas, lit_staff,
    List.append_assoc, List.nil_append]

end AppWindows

/-! ## `src/app-windows/main.go`: the streams of the modes -/

namespace AppWindows

/-- C18: for every request with `print_mode` `label` and a non-empty list
`e :: rest` of entries, the stream composed by `printHandler` of
app-windows/main.go is escInit, then the block of each entry in list order,
with a spacer of four LF before every entry but the first, then six LF, escCut
and escInit; the block of an entry is the sequence listed first. The cut is
emitted once, after the last block. -/
theorem label_stream (req : PrintRequest) (e : QRCodeData) (rest : List QRCodeData)
    (hm : req.PrintMode = lit "label") (hc : req.QRCodes = e :: rest) :
    (∀ x : QRCodeData, labelBlock req.Title x =
      escAlignCenter ++ escBold true ++ escDoubleHeight true ++ req.Title ++ [0x0A]
      ++ escDoubleHeight false ++ escBold false
      ++ escAlignCenter ++ List.replicate 32 0x2D ++ [0x0A]
      ++ escAlignLeft ++ x.Body
      ++ escAlignCenter ++ List.replicate 32 0x2D ++ [0x0A]
      ++ [0x0A] ++ escAlignCenter ++ lit "Scan Barcode" ++ [0x0A]
      ++ [0x0A] ++ escQRCode x.QRValue ++ [0x0A]) ∧
    (∀ x : QRCodeData, ∀ xs : List QRCodeData,
      spacedWith [0x0A, 0x0A, 0x0A, 0x0A] (labelBlock req.Title) [] = [] ∧
      spacedWith [0x0A, 0x0A, 0x0A, 0x0A] (labelBlock req.Title) (x :: xs) =
        [0x0A, 0x0A, 0x0A, 0x0A] ++ labelBlock req.Title x
          ++ spacedWith [0x0A, 0x0A, 0x0A, 0x0A] (labelBlock req.Title) xs) ∧
    printHandlerReceipt req =
      escInit ++ labelBlock req.Title e
        ++ spacedWith [0x0A, 0x0A, 0x0A, 0x0A] (labelBlock req.Title) rest
        ++ [0x0A, 0x0A, 0x0A, 0x0A, 0x0A, 0x0A] ++ escCut ++ escInit := by
  refine ⟨?_, ?_, ?_⟩
  · intro x
    simp only [labelBlock, sepDash, LF, List.append_assoc]
  · intro x xs
    exact ⟨rfl, by simp only [spacedWith, List.append_assoc]⟩
  · rw [printHandler_label req e rest hm hc]
    simp only [LF, List.append_assoc]

/-- C18 at a request with the two entries `A` and `B`. -/
theorem label_stream_witness :
    printHandlerReceipt ⟨[], lit "T", [], [], [], lit "label",
        [⟨lit "A", lit "1", lit "a", lit "QA"⟩, ⟨lit "B", lit "2", lit "b", lit "QB"⟩], false⟩ =
      escInit ++ labelBlock (lit "T") ⟨lit "A", lit "1", lit "a", lit "QA"⟩
        ++ spacedWith [0x0A, 0x0A, 0x0A, 0x0A] (labelBlock (lit "T"))
            [⟨lit "B", lit "2", lit "b", lit "QB"⟩]
        ++ [0x0A, 0x0A, 0x0A, 0x0A, 0x0A, 0x0A] ++ escCut ++ escInit :=
  (label_stream ⟨[], lit "T", [], [], [], lit "label",
      [⟨lit "A", lit "1", lit "a", lit "QA"⟩, ⟨lit "B", lit "2", lit "b", lit "QB"⟩], false⟩
    ⟨lit "A", lit "1", lit "a", lit "QA"⟩ [⟨lit "B", lit "2", lit "b", lit "QB"⟩]
    rfl rfl).2.2

/-- C19, as stated, fails: for the request `Laundry Co` / `123` / `Thank you`
with `print_mode` `receipt-only`, the stream of app-windows/main.go does not
hold the bytes of `ORDER: 123` and LF, and it does not end with `1D 56 00`: its
last five bytes are `1D 56 00 1B 40`. -/
theorem app_receipt_only_scenario_fails :
    ¬ List.IsInfix (lit "ORDER: " ++ lit "123" ++ [0x0A]) (printHandlerReceipt ⟨[], lit "Laundry Co", lit "123", lit "Thank you\n", [], lit "receipt-only", [], false⟩) ∧
    ¬ List.IsSuffix [0x1D, 0x56, 0x00] (printHandlerReceipt ⟨[], lit "Laundry Co", lit "123", lit "Thank you\n", [], lit "receipt-only", [], false⟩) ∧
    (printHandlerReceipt ⟨[], lit "Laundry Co", lit "123", lit "Thank you\n", [], lit "receipt-only", [], false⟩).drop ((printHandlerReceipt ⟨[], lit "Laundry Co", lit "123", lit "Thank you\n", [], lit "receipt-only", [], false⟩).length - 5) =
      [0x1D, 0x56, 0x00, 0x1B, 0x40] := by
  refine ⟨?_, ?_, ?_⟩
  · intro hin
    have hmem : 0x4F ∈ printHandlerReceipt ⟨[], lit "Laundry Co", lit "123", lit "Thank you\n", [], lit "receipt-only", [], false⟩ :=
      hin.subset (by decide)
    revert hmem
    decide
  · decide
  · decide

/-- C19, amended: for every request with `print_mode` `receipt-only`, the
stream composed by `printHandler` of app-windows/main.go starts with `1B 40`
and ends with `1D 56 00 1B 40` (the cut and a second initialize); it is
escInit, LF, the centred bold double-height title line, 32 `-` and LF, LF, the
left-aligned body, LF, the centred lines `Terimakasih` and
`Atas Kepercayaan Anda`, six LF, escCut, escInit, and holds no order line: the
order id changes no byte. -/
theorem app_receipt_only_stream (req : PrintRequest) (h : req.PrintMode = lit "receipt-only") :
    printHandlerReceipt req =
      escInit ++ [0x0A] ++ escAlignCenter ++ escBold true ++ escDoubleHeight true
      ++ req.Title ++ [0x0A] ++ escDoubleHeight false ++ escBold false
      ++ escAlignCenter ++ List.replicate 32 0x2D ++ [0x0A] ++ [0x0A]
      ++ escAlignLeft ++ req.Body ++ [0x0A]
      ++ escAlignCenter ++ lit "Terimakasih" ++ [0x0A] ++ lit "Atas Kepercayaan Anda" ++ [0x0A]
      ++ [0x0A, 0x0A, 0x0A, 0x0A, 0x0A, 0x0A] ++ escCut ++ escInit ∧
    List.IsPrefix [0x1B, 0x40] (printHandlerReceipt req) ∧
    List.IsSuffix [0x1D, 0x56, 0x00, 0x1B, 0x40] (printHandlerReceipt req) ∧
    (∀ o : Bytes, printHandlerReceipt { req with OrderID := o } = printHandlerReceipt req) := by
  have hform := printHandler_receiptOnly req h
  refine ⟨?_, ?_, ?_, ?_⟩
  · rw [hform]
    simp only [receiptRest, sepDash, LF, List.append_assoc]
  · rw [hform]
    exact ⟨_, rfl⟩
  · rw [hform]
    refine ⟨escInit ++ ([LF] ++ (escAlignCenter ++ (escBold true ++ (escDoubleHeight true ++
      (req.Title ++ ([LF] ++ (escDoubleHeight false ++ (escBold false ++
      (receiptRest req.Body ++ [LF, LF, LF, LF, LF, LF]))))))))), ?_⟩
    simp only [escCut, escInit, List.append_assoc, List.cons_append, List.nil_append]
  · intro o
    rw [hform, printHandler_receiptOnly { req with OrderID := o } h]

/-- C19, amended, at the request `Laundry Co` / `123` / `Thank you`. -/
theorem app_receipt_only_stream_witness :
    List.IsPrefix [0x1B, 0x40] (printHandlerReceipt ⟨[], lit "Laundry Co", lit "123", lit "Thank you\n", [], lit "receipt-only", [], false⟩) ∧
    List.IsSuffix [0x1D, 0x56, 0x00, 0x1B, 0x40] (printHandlerReceipt ⟨[], lit "Laundry Co", lit "123", lit "Thank you\n", [], lit "receipt-only", [], false⟩) :=
  ⟨(app_receipt_only_stream ⟨[], lit "Laundry Co", lit "123", lit "Thank you\n", [], lit "receipt-only", [], false⟩ rfl).2.1, (app_receipt_only_stream ⟨[], lit "Laundry Co", lit "123", lit "Thank you\n", [], lit "receipt-only", [], false⟩ rfl).2.2.1⟩

/-- C20, as stated, fails: for the request `T` / `1` / `b` with the single
entry `A`, the stream of mode `all` departs from the stream of mode
`receipt-only` at index 9 (the title where receipt-only has the double-height
command), so no prefix of ten bytes or more of the receipt-only stream starts
it; and it does not end with the qr-only stream without its initialize: the
entry blocks of mode `all` are those of mode `label`. -/
theorem app_all_is_not_receipt_then_qr_only :
    ((printHandlerReceipt (withMode ⟨[], lit "T", lit "1", lit "b", [], [], [⟨lit "A", lit "1", lit "a", lit "QA"⟩], false⟩ (lit "all"))).take 10 ≠
      (printHandlerReceipt (withMode ⟨[], lit "T", lit "1", lit "b", [], [], [⟨lit "A", lit "1", lit "a", lit "QA"⟩], false⟩ (lit "receipt-only"))).take 10) ∧
    (¬ ∃ (k : Nat) (tail : Bytes), 10 ≤ k ∧
      printHandlerReceipt (withMode ⟨[], lit "T", lit "1", lit "b", [], [], [⟨lit "A", lit "1", lit "a", lit "QA"⟩], false⟩ (lit "all")) =
        (printHandlerReceipt (withMode ⟨[], lit "T", lit "1", lit "b", [], [], [⟨lit "A", lit "1", lit "a", lit "QA"⟩], false⟩ (lit "receipt-only"))).take k ++ tail) ∧
    ¬ List.IsSuffix ((printHandlerReceipt (withMode ⟨[], lit "T", lit "1", lit "b", [], [], [⟨lit "A", lit "1", lit "a", lit "QA"⟩], false⟩ (lit "qr-only"))).drop 2)
      (printHandlerReceipt (withMode ⟨[], lit "T", lit "1", lit "b", [], [], [⟨lit "A", lit "1", lit "a", lit "QA"⟩], false⟩ (lit "all"))) ∧
    List.IsSuffix ((printHandlerReceipt (withMode ⟨[], lit "T", lit "1", lit "b", [], [], [⟨lit "A", lit "1", lit "a", lit "QA"⟩], false⟩ (lit "label"))).drop 2)
      (printHandlerReceipt (withMode ⟨[], lit "T", lit "1", lit "b", [], [], [⟨lit "A", lit "1", lit "a", lit "QA"⟩], false⟩ (lit "all"))) := by
  have hne : (printHandlerReceipt (withMode ⟨[], lit "T", lit "1", lit "b", [], [], [⟨lit "A", lit "1", lit "a", lit "QA"⟩], false⟩ (lit "all"))).take 10 ≠
      (printHandlerReceipt (withMode ⟨[], lit "T", lit "1", lit "b", [], [], [⟨lit "A", lit "1", lit "a", lit "QA"⟩], false⟩ (lit "receipt-only"))).take 10 := by decide
  have hlen : 10 ≤ (printHandlerReceipt (withMode ⟨[], lit "T", lit "1", lit "b", [], [], [⟨lit "A", lit "1", lit "a", lit "QA"⟩], false⟩ (lit "receipt-only"))).length := by decide
  refine ⟨hne, ?_, ?_, ?_⟩
  · rintro ⟨k, tail, hk, heq⟩
    apply hne
    have hk2 : 10 ≤ ((printHandlerReceipt (withMode ⟨[], lit "T", lit "1", lit "b", [], [], [⟨lit "A", lit "1", lit "a", lit "QA"⟩], false⟩ (lit "receipt-only"))).take k).length := by
      rw [List.length_take]; omega
    rw [heq, List.take_append_of_le_length hk2, List.take_take, Nat.min_eq_left hk]
  · decide
  · decide

/-- C20, amended: for every request `r` with a non-empty list `e :: rest` of
entries, the stream of mode `all` is escInit, LF, the centred bold title line
without the double-height commands of mode `receipt-only`, the rest of the
receipt text (separator, body, thank-you lines), two LF, the staff banner, and
then the stream of mode `label` without its leading initialize, that is the
entry blocks of mode `label`, six LF, escCut and escInit. -/
theorem app_all_is_receipt_banner_labels (r : PrintRequest) (e : QRCodeData)
    (rest : List QRCodeData) (hc : r.QRCodes = e :: rest) :
    printHandlerReceipt (withMode r (lit "all")) =
      escInit ++ [0x0A] ++ escAlignCenter ++ escBold true ++ r.Title ++ [0x0A] ++ escBold false
      ++ receiptRest r.Body ++ [0x0A, 0x0A] ++ staffBanner
      ++ (printHandlerReceipt (withMode r (lit "label"))).drop 2 ∧
    printHandlerReceipt (withMode r (lit "receipt-only")) =
      escInit ++ [0x0A] ++ escAlignCenter ++ escBold true ++ escDoubleHeight true ++ r.Title
      ++ [0x0A] ++ escDoubleHeight false ++ escBold false
      ++ receiptRest r.Body ++ [0x0A, 0x0A, 0x0A, 0x0A, 0x0A, 0x0A] ++ escCut ++ escInit ∧
    printHandlerReceipt (withMode r (lit "label")) =
      escInit ++ labelBlock r.Title e
        ++ spacedWith [0x0A, 0x0A, 0x0A, 0x0A] (labelBlock r.Title) rest
        ++ [0x0A, 0x0A, 0x0A, 0x0A, 0x0A, 0x0A] ++ escCut ++ escInit ∧
    receiptRest r.Body =
      escAlignCenter ++ List.replicate 32 0x2D ++ [0x0A] ++ [0x0A] ++ escAlignLeft ++ r.Body
      ++ [0x0A] ++ escAlignCenter ++ lit "Terimakasih" ++ [0x0A]
      ++ lit "Atas Kepercayaan Anda" ++ [0x0A] ∧
    staffBanner =
      escAlignCenter ++ List.replicate 32 0x2D ++ [0x0A] ++ escAlignCenter ++ escBold true
      ++ lit "--- Untuk Staff ---" ++ [0x0A] ++ escBold false ++ escAlignCenter
      ++ List.replicate 32 0x2D ++ [0x0A] ++ [0x0A, 0x0A] := by
  have hall := printHandler_all (withMode r (lit "all")) e rest rfl hc
  have hlab := printHandler_label (withMode r (lit "label")) e rest rfl hc
  have hrec := printHandler_receiptOnly (withMode r (lit "receipt-only")) rfl
  refine ⟨?_, ?_, ?_, ?_, ?_⟩
  · rw [hall, hlab]
    simp [withMode, escInit, LF]
  · rw [hrec]
    simp only [withMode, LF, List.append_assoc]
  · rw [hlab]
    simp only [withMode, LF, List.append_assoc]
  · simp only [receiptRest, sepDash, LF, List.append_assoc]
  · simp only [staffBanner, sepDash, LF, List.append_assoc]

/-- C20, amended, at the request `T` / `1` / `b` with the single entry `A`. -/
theorem app_all_is_receipt_banner_labels_witness :
    printHandlerReceipt (withMode ⟨[], lit "T", lit "1", lit "b", [], [], [⟨lit "A", lit "1", lit "a", lit "QA"⟩], false⟩ (lit "all")) =
      escInit ++ [0x0A] ++ escAlignCenter ++ escBold true ++ lit "T" ++ [0x0A] ++ escBold false
      ++ receiptRest (lit "b") ++ [0x0A, 0x0A] ++ staffBanner
      ++ (printHandlerReceipt (withMode ⟨[], lit "T", lit "1", lit "b", [], [], [⟨lit "A", lit "1", lit "a", lit "QA"⟩], false⟩ (lit "label"))).drop 2 :=
  (app_all_is_receipt_banner_labels ⟨[], lit "T", lit "1", lit "b", [], [], [⟨lit "A", lit "1", lit "a", lit "QA"⟩], false⟩ ⟨lit "A", lit "1", lit "a", lit "QA"⟩ [] rfl).1

end AppWindows

/-! ## The length field and the frames of `escQRCode` -/

/-- C25: for every payload of `n` bytes, `escQRCode` writes the low byte
`(n + 3) mod 256` at index 28 and the high byte `((n + 3) div 256) mod 256` at
index 29; the branch on `n + 3 > 255` changes nothing, as the two assignments
of either branch give these values; the high byte is 0 and the low byte is
`n + 3` whenever `n + 3 <= 255`; and the field decodes to `(n + 3) mod 65536`. -/
theorem qr_length_bytes (d : Bytes) :
    (escQRCode d)[28]? = some ((d.length + 3) % 256) ∧
    (escQRCode d)[29]? = some (((d.length + 3) / 256) % 256) ∧
    (toByte ((d.length + 3) % 256) = toByte (d.length + 3)) ∧
    (¬ (d.length + 3 > 255) → toByte ((d.length + 3) / 256) = toByte 0x00) ∧
    (d.length + 3 ≤ 255 →
      (escQRCode d)[28]? = some (d.length + 3) ∧ (escQRCode d)[29]? = some 0) ∧
    (d.length + 3) % 256 + 256 * (((d.length + 3) / 256) % 256) = (d.length + 3) % 65536 := by
  refine ⟨escQRCode_get28 d, escQRCode_get29 d, ?_, ?_, ?_, ?_⟩
  · unfold toByte; omega
  · intro h; unfold toByte; omega
  · intro h
    rw [escQRCode_get28, escQRCode_get29]
    unfold lenLow lenHigh
    constructor
    · congr 1; omega
    · congr 1; omega
  · omega

/-- One frame in front of a stream: with fuel left and enough bytes behind the
length bytes, the frame is read and the parse goes on behind it. -/
theorem parseFrames_frame (fuel pL pH : Nat) (rest : Bytes) (h : pL + 256 * pH ≤ rest.length) :
    parseFrames (fuel + 1) (0x1D :: 0x28 :: 0x6B :: pL :: pH :: rest) =
      (parseFrames fuel (rest.drop (pL + 256 * pH))).map
        (fun frames => rest.take (pL + 256 * pH) :: frames) := by
  simp [parseFrames, parseFrame, h]

/-- No frame starts with a byte other than `1D`. -/
theorem parseFrames_bad_start (fuel b : Nat) (rest : Bytes) (hb : b ≠ 0x1D) :
    parseFrames fuel (b :: rest) = none := by
  cases fuel with
  | zero => rfl
  | succ f =>
    cases rest with
    | nil => simp [parseFrames, parseFrame, hb]
    | cons r0 r1 =>
      cases r1 with
      | nil => simp [parseFrames, parseFrame, hb]
      | cons r2 r3 => simp [parseFrames, parseFrame, hb]

/-- With five frames of fuel or more, the output of `escQRCode` for a payload
with `n + 3 < 65536` parses as its five frames. -/
theorem parseFrames_escQRCode (f : Nat) (d : Bytes) (h : d.length + 3 < 65536) :
    parseFrames (f + 5) (escQRCode d) =
      some [[0x31, 0x41, 0x32, 0x00], [0x31, 0x43, 0x07], [0x31, 0x45, 0x31],
        [0x31, 0x50, 0x30] ++ d, [0x31, 0x51, 0x30]] := by
  have hlen : lenLow d.length + 256 * lenHigh d.length = d.length + 3 := by
    unfold lenLow lenHigh; omega
  rw [escQRCode_eq]
  simp only [List.cons_append, List.nil_append]
  rw [parseFrames_frame (f + 4) 4 0 _ (by simp), show 4 + 256 * 0 = 4 from rfl]
  simp only [List.drop_succ_cons, List.drop_zero, List.take_succ_cons, List.take_zero]
  rw [parseFrames_frame (f + 3) 3 0 _ (by simp), show 3 + 256 * 0 = 3 from rfl]
  simp only [List.drop_succ_cons, List.drop_zero, List.take_succ_cons, List.take_zero]
  rw [parseFrames_frame (f + 2) 3 0 _ (by simp)]
  simp only [show 3 + 256 * 0 = 3 from rfl, List.drop_succ_cons, List.drop_zero,
    List.take_succ_cons, List.take_zero]
  rw [parseFrames_frame (f + 1) _ _ _ (by rw [hlen]; simp), hlen]
  simp only [List.drop_succ_cons, List.take_succ_cons, List.drop_left, List.take_left]
  rw [parseFrames_frame f 3 0 _ (by simp)]
  simp [parseFrames]

/-- With the length bytes both 0, the parse stops at the byte `31` that
follows the empty fourth frame. -/
theorem parseFrames_escQRCode_wrapped (f : Nat) (d : Bytes) (h0 : lenLow d.length = 0)
    (h1 : lenHigh d.length = 0) : parseFrames (f + 5) (escQRCode d) = none := by
  rw [escQRCode_eq, h0, h1]
  simp only [List.cons_append, List.nil_append]
  rw [parseFrames_frame (f + 4) 4 0 _ (by simp), show 4 + 256 * 0 = 4 from rfl]
  simp only [List.drop_succ_cons, List.drop_zero, List.take_succ_cons, List.take_zero]
  rw [parseFrames_frame (f + 3) 3 0 _ (by simp), show 3 + 256 * 0 = 3 from rfl]
  simp only [List.drop_succ_cons, List.drop_zero, List.take_succ_cons, List.take_zero]
  rw [parseFrames_frame (f + 2) 3 0 _ (by simp)]
  simp only [show 3 + 256 * 0 = 3 from rfl, List.drop_succ_cons, List.drop_zero,
    List.take_succ_cons, List.take_zero]
  rw [parseFrames_frame (f + 1) 0 0 _ (by simp)]
  simp only [show 0 + 256 * 0 = 0 from rfl, List.drop_zero, List.take_zero]
  rw [parseFrames_bad_start (f + 1) 0x31 _ (by decide)]
  rfl

/-- The length of the output of `escQRCode`. -/
theorem escQRCode_length (d : Bytes) : (escQRCode d).length = d.length + 41 := by
  rw [escQRCode_eq]; simp

/-- The fuel of `parse` on the output of `escQRCode` is five frames and more. -/
theorem parse_escQRCode (d : Bytes) :
    parse (escQRCode d) = parseFrames ((d.length + 36) + 5) (escQRCode d) := by
  unfold parse
  rw [escQRCode_length]

/-- C29: for every payload `d` with `len(d) + 3 < 65536`, the output of
`escQRCode` parses completely, with the fuel of its length and with any fuel of
five frames or more, as exactly five frames with nothing left over: their
parameter bytes are `31 41 32 00`, `31 43 07`, `31 45 31`, `31 50 30` followed
by `d`, and `31 51 30`, of lengths 4, 3, 3, `len(d) + 3` and 3; and for the
payload of 65533 zero bytes, for which `len(d) + 3 = 65536`, the parse
fails. -/
theorem qr_parses_as_five_frames (d : Bytes) (h : d.length + 3 < 65536) :
    parse (escQRCode d) =
      some [[0x31, 0x41, 0x32, 0x00], [0x31, 0x43, 0x07], [0x31, 0x45, 0x31],
        [0x31, 0x50, 0x30] ++ d, [0x31, 0x51, 0x30]] ∧
    (∀ f : Nat, parseFrames (f + 5) (escQRCode d) =
      some [[0x31, 0x41, 0x32, 0x00], [0x31, 0x43, 0x07], [0x31, 0x45, 0x31],
        [0x31, 0x50, 0x30] ++ d, [0x31, 0x51, 0x30]]) ∧
    ([0x31, 0x50, 0x30] ++ d).length = d.length + 3 ∧
    (∃ big : Bytes, big.length + 3 ≥ 65536 ∧ parse (escQRCode big) = none ∧
      ∀ f : Nat, parseFrames (f + 5) (escQRCode big) = none) := by
  have hbig : (List.replicate 65533 0 : Bytes).length = 65533 := List.length_replicate _ _
  have hb0 : lenLow (List.replicate 65533 0 : Bytes).length = 0 := by rw [hbig]; rfl
  have hb1 : lenHigh (List.replicate 65533 0 : Bytes).length = 0 := by rw [hbig]; rfl
  refine ⟨?_, fun f => parseFrames_escQRCode f d h, by simp,
    List.replicate 65533 0, by rw [hbig], ?_,
    fun f => parseFrames_escQRCode_wrapped f _ hb0 hb1⟩
  · rw [parse_escQRCode]
    exact parseFrames_escQRCode _ d h
  · rw [parse_escQRCode]
    exact parseFrames_escQRCode_wrapped _ _ hb0 hb1

/-- C29 at the payload `AB`. -/
theorem qr_parses_as_five_frames_witness :
    parse (escQRCode [65, 66]) =
      some [[0x31, 0x41, 0x32, 0x00], [0x31, 0x43, 0x07], [0x31, 0x45, 0x31],
        [0x31, 0x50, 0x30, 65, 66], [0x31, 0x51, 0x30]] :=
  (qr_parses_as_five_frames [65, 66] (by decide)).1

/-- C30: for every payload `d`, dropping the first 33 bytes and the last 8
bytes of `escQRCode d` yields exactly `d`; so `escQRCode` is injective. -/
theorem qr_payload_read_back :
    (∀ d : Bytes,
      ((escQRCode d).drop 33).take (((escQRCode d).drop 33).length - 8) = d ∧
      ((escQRCode d).drop 33).length - 8 = d.length) ∧
    Function.Injective escQRCode := by
  have hread : ∀ d : Bytes,
      ((escQRCode d).drop 33).take (((escQRCode d).drop 33).length - 8) = d ∧
      ((escQRCode d).drop 33).length - 8 = d.length := by
    intro d
    rw [escQRCode_eq]
    simp
  refine ⟨hread, ?_⟩
  intro a b hab
  have ha := (hread a).1
  have hb := (hread b).1
  rw [hab] at ha
  exact ha.symm.trans hb

/-! ## The cut in clean streams and the streams without a barcode source -/

/-- Without entries and without a legacy value the label part is empty. -/
theorem qrPart_of_nothing (req : PrintRequest) (hc : req.QRCodes = [])
    (hv : req.QRValue = lit "") : qrPart req = [] := by
  have hv2 : req.QRValue = [] := hv
  unfold qrPart; rw [hc]
  simp only [hv2, ne_eq, not_true_eq_false, if_false]

/-- C26: for every request in which no text field holds the byte `1D` and
whose resolved mode is `receipt-only`, or is `qr-only` or `all` with a barcode
source (non-empty `qr_codes` or non-empty `qr_value`), the sequence `1D 56 00`
occurs exactly once in the composed stream and is its final three bytes; the
command group of a payload without `1D` holds no occurrence, whatever its
length bytes are. -/
theorem clean_stream_has_one_cut (req : PrintRequest) (hclean : textClean req)
    (hmode : resolveMode req = lit "receipt-only" ∨
      ((resolveMode req = lit "qr-only" ∨ resolveMode req = lit "all") ∧
        (req.QRCodes ≠ [] ∨ req.QRValue ≠ lit ""))) :
    occurrences [0x1D, 0x56, 0x00] (printReceipt req) = 1 ∧
    (printReceipt req).drop ((printReceipt req).length - 3) = [0x1D, 0x56, 0x00] ∧
    (∀ d : Bytes, 0x1D ∉ d → occurrences [0x1D, 0x56, 0x00] (escQRCode d) = 0) := by
  have hinit : Transparent escInit := transparent_of_clean (by decide)
  have hgap : Transparent [LF, LF] := transparent_of_clean (by decide)
  have htext : Transparent (receiptText req.Title req.OrderID req.Body) :=
    transparent_of_clean (receiptText_clean hclean.1 hclean.2.1 hclean.2.2.1)
  have hbanner : Transparent staffBanner := transparent_of_clean staffBanner_clean
  have hsplit : ∃ t : Bytes, printReceipt req = t ++ escCut ∧ Transparent t := by
    rw [printReceipt_eq]
    rcases hmode with hrec | ⟨hqa, hsrc⟩
    · rw [if_pos hrec]
      exact ⟨escInit ++ (receiptText req.Title req.OrderID req.Body ++ [LF, LF]),
        by simp only [List.append_assoc],
        transparent_append hinit (transparent_append htext hgap)⟩
    · obtain ⟨q, hq, hqt⟩ := qrPart_split req hsrc
      rcases hqa with hqr | hall
      · rw [hqr, if_neg mode_qr_ne_receipt, if_pos rfl, hq]
        exact ⟨escInit ++ q, by simp only [List.append_assoc],
          transparent_append hinit (hqt hclean)⟩
      · rw [hall, if_neg mode_all_ne_receipt, if_neg mode_all_ne_qr, hq]
        exact ⟨escInit ++ (receiptText req.Title req.OrderID req.Body ++ ([LF, LF] ++
            (staffBanner ++ q))), by simp only [List.append_assoc],
          transparent_append hinit (transparent_append htext
            (transparent_append hgap (transparent_append hbanner (hqt hclean))))⟩
  obtain ⟨t, ht, htt⟩ := hsplit
  refine ⟨cut_once_of_split ht htt, cut_at_end_of_split ht, fun d hd => ?_⟩
  have h := transparent_escQRCode hd []
  rw [List.append_nil] at h
  exact h

/-- C26 at a request with `print_mode` `qr-only` and a payload of 26 bytes,
whose low length byte is `1D`. -/
theorem clean_stream_has_one_cut_witness :
    occurrences [0x1D, 0x56, 0x00]
      (printReceipt ⟨[], lit "T", lit "1", lit "b", [], lit "qr-only",
        [⟨lit "A", lit "1", lit "a", lit "abcdefghijklmnopqrstuvwxyz"⟩], false⟩) = 1 ∧
    (escQRCode (lit "abcdefghijklmnopqrstuvwxyz"))[28]? = some 0x1D :=
  ⟨(clean_stream_has_one_cut ⟨[], lit "T", lit "1", lit "b", [], lit "qr-only",
      [⟨lit "A", lit "1", lit "a", lit "abcdefghijklmnopqrstuvwxyz"⟩], false⟩ (by decide)
      (Or.inr ⟨Or.inl (by decide), Or.inl (by decide)⟩)).1, by decide⟩

/-- C27: for every request with empty `qr_codes` and empty `qr_value` whose
`print_mode` is `all` or any other non-empty token different from
`receipt-only` and `qr-only`, the composed stream is escInit, the receipt text
with its two LF, and the staff banner; it ends with the LF of the last
separator line and the two LF of the banner, not with `1D 56 00`, and for text
fields without the byte `1D` it holds no cut sequence at all. -/
theorem no_cut_without_barcode_source (req : PrintRequest) (hc : req.QRCodes = [])
    (hv : req.QRValue = lit "") (h0 : req.PrintMode ≠ lit "")
    (h1 : req.PrintMode ≠ lit "receipt-only") (h2 : req.PrintMode ≠ lit "qr-only") :
    printReceipt req =
      escInit ++ receiptText req.Title req.OrderID req.Body ++ [0x0A, 0x0A]
      ++ (escAlignCenter ++ List.replicate 32 0x2D ++ [0x0A] ++ escAlignCenter ++ escBold true
          ++ lit "--- Untuk Staff ---" ++ [0x0A] ++ escBold false ++ escAlignCenter
          ++ List.replicate 32 0x2D ++ [0x0A] ++ [0x0A, 0x0A]) ∧
    List.IsSuffix [0x0A, 0x0A] (printReceipt req) ∧
    (printReceipt req).drop ((printReceipt req).length - 3) = [0x0A, 0x0A, 0x0A] ∧
    ¬ List.IsSuffix [0x1D, 0x56, 0x00] (printReceipt req) ∧
    (textClean req → occurrences [0x1D, 0x56, 0x00] (printReceipt req) = 0) := by
  have hform : printReceipt req =
      escInit ++ (receiptText req.Title req.OrderID req.Body ++ ([LF, LF] ++ staffBanner)) := by
    rw [printReceipt_else req h0 h1 h2, qrPart_of_nothing req hc hv, List.append_nil]
  have hend : ∃ y : Bytes, printReceipt req = y ++ [0x0A, 0x0A, 0x0A] := by
    refine ⟨escInit ++ (receiptText req.Title req.OrderID req.Body ++ ([LF, LF] ++
      (escAlignCenter ++ (sepDash ++ (escAlignCenter ++ (escBold true ++
      (lit "--- Untuk Staff ---" ++ ([LF] ++ (escBold false ++ (escAlignCenter ++
      List.replicate 32 0x2D)))))))))), ?_⟩
    rw [hform]
    simp only [staffBanner, sepDash, LF, List.append_assoc, List.singleton_append,
      List.cons_append, List.nil_append]
  obtain ⟨y, hy⟩ := hend
  refine ⟨?_, ?_, ?_, ?_, ?_⟩
  · rw [hform]
    simp only [staffBanner, sepDash, LF, List.append_assoc]
  · exact ⟨y ++ [0x0A], by rw [hy]; simp only [List.append_assoc, List.singleton_append]⟩
  · have hl : (printReceipt req).length - 3 = y.length := by
      rw [hy, List.length_append]; simp
    rw [hl, hy, List.drop_left]
  · rintro ⟨t, ht⟩
    rw [hy] at ht
    have := List.append_inj_right' ht rfl
    revert this
    decide
  · intro hclean
    have hall : Transparent (escInit ++ (receiptText req.Title req.OrderID req.Body ++
        ([LF, LF] ++ staffBanner))) :=
      transparent_append (transparent_of_clean (by decide))
        (transparent_append
          (transparent_of_clean (receiptText_clean hclean.1 hclean.2.1 hclean.2.2.1))
          (transparent_append (transparent_of_clean (by decide))
            (transparent_of_clean staffBanner_clean)))
    have h := hall []
    rw [List.append_nil] at h
    rw [hform]
    exact h

/-- C27 at the request `T` / `1` / `b` with the tokens `all` and `label`. -/
theorem no_cut_without_barcode_source_witness :
    (printReceipt ⟨[], lit "T", lit "1", lit "b", [], lit "all", [], false⟩).drop
      ((printReceipt ⟨[], lit "T", lit "1", lit "b", [], lit "all", [], false⟩).length - 3) =
      [0x0A, 0x0A, 0x0A] ∧
    ¬ List.IsSuffix [0x1D, 0x56, 0x00]
      (printReceipt ⟨[], lit "T", lit "1", lit "b", [], lit "label", [], false⟩) :=
  ⟨(no_cut_without_barcode_source ⟨[], lit "T", lit "1", lit "b", [], lit "all", [], false⟩
      rfl rfl (by decide) (by decide) (by decide)).2.2.1,
    (no_cut_without_barcode_source ⟨[], lit "T", lit "1", lit "b", [], lit "label", [], false⟩
      rfl rfl (by decide) (by decide) (by decide)).2.2.2.1⟩

/-- C28: for every request with `print_mode` `qr-only`, empty `qr_codes` and
empty `qr_value`, the composed stream is exactly the two bytes `1B 40`,
whatever the title, order id and body are. -/
theorem qr_only_without_source_is_init (req : PrintRequest) (hm : req.PrintMode = lit "qr-only")
    (hc : req.QRCodes = []) (hv : req.QRValue = lit "") :
    printReceipt req = [0x1B, 0x40] := by
  rw [printReceipt_qrOnly req hm, qrPart_of_nothing req hc hv]
  rfl

/-- C28 at the request `T` / `1` / `b`. -/
theorem qr_only_without_source_is_init_witness :
    printReceipt ⟨[], lit "T", lit "1", lit "b", [], lit "qr-only", [], false⟩ = [0x1B, 0x40] :=
  qr_only_without_source_is_init ⟨[], lit "T", lit "1", lit "b", [], lit "qr-only", [], false⟩
    rfl rfl rfl

/-! ## `src/app-windows/main.go`: the qr-only branch and empty lists -/

namespace AppWindows

/-- One iteration of the qr-only loop of app-windows. -/
theorem app_qrOnlyLoop_cons (req : PrintRequest) (n i : Nat) (e : QRCodeData)
    (rest : List QRCodeData) (receipt : Bytes) :
    qrOnlyLoop req n i (e :: rest) receipt =
      qrOnlyLoop req n (i + 1) rest
        (receipt ++ ((if i > 0 then [LF, LF, LF, LF] else []) ++
          (qrBlock e ++
            (if (i : Int) = (n : Int) - 1 then
              [LF, LF, LF, LF, LF, LF] ++ (escCut ++ escInit) else [])))) := by
  rw [qrOnlyLoop]
  by_cases h1 : i > 0 <;> by_cases h2 : (i : Int) = (n : Int) - 1 <;>
    simp only [h1, h2, if_true, if_false, qrBlock, lit_nl, lit_nl2, lit_nl4, lit_nl6, lit_sepEq,
      lit_sepDash, lit_nl_sepDash, lit_scan, List.append_assoc, List.append_nil,
      List.nil_append]

/-- The whole qr-only loop of app-windows over a non-empty list. -/
theorem app_qrOnlyLoop_all (req : PrintRequest) (e : QRCodeData) (rest : List QRCodeData)
    (receipt : Bytes) :
    qrOnlyLoop req (e :: rest).length 0 (e :: rest) receipt =
      receipt ++ (qrBlock e ++
        (spacedWith [LF, LF, LF, LF] qrBlock rest ++
          ([LF, LF, LF, LF, LF, LF] ++ (escCut ++ escInit)))) :=
  loop_all (qrOnlyLoop req) [LF, LF, LF, LF] ([LF, LF, LF, LF, LF, LF] ++ (escCut ++ escInit))
    qrBlock (fun n i r => by rw [qrOnlyLoop])
    (fun n i e rest r => app_qrOnlyLoop_cons req n i e rest r) e rest receipt

/-- The stream of the qr-only branch of app-windows for a non-empty list. -/
theorem app_printHandler_qrOnly (req : PrintRequest) (e : QRCodeData) (rest : List QRCodeData)
    (h : req.PrintMode = lit "qr-only") (hc : req.QRCodes = e :: rest) :
    printHandlerReceipt req =
      escInit ++ (qrBlock e ++
        (spacedWith [LF, LF, LF, LF] qrBlock rest ++
          ([LF, LF, LF, LF, LF, LF] ++ (escCut ++ escInit)))) := by
  have hlen : ¬ ((e :: rest).length = 0) := by simp
  unfold printHandlerReceipt
  simp only [h, hc, mode_qr_ne_empty, mode_qr_ne_receipt, hlen, false_and, if_true, if_false,
    app_qrOnlyLoop_all, List.nil_append]

/-- The stream of the qr-only branch of app-windows for an empty list and a
legacy value. -/
theorem printHandler_qrOnly_legacy (req : PrintRequest) (h : req.PrintMode = lit "qr-only")
    (hc : req.QRCodes = []) (hv : req.QRValue ≠ lit "") :
    printHandlerReceipt req =
      escInit ++ (qrBlock (legacyEntry req) ++
        ([LF, LF, LF, LF, LF, LF] ++ (escCut ++ escInit))) := by
  unfold printHandlerReceipt
  simp only [h, hc, hv, mode_qr_ne_empty, mode_qr_ne_receipt, List.length_nil, true_and,
    ne_eq, not_false_eq_true, if_true, if_false, qrOnlyLoop, qrBlock, legacyEntry, lit_nl,
    lit_nl2, lit_nl6, lit_sepEq, lit_sepDash, lit_nl_sepDash, lit_scan, List.append_assoc,
    List.nil_append]

/-- The stream of the label branch of app-windows for an empty list: the loop
runs no iteration and the branch has no other statement. -/
theorem printHandler_label_nil (req : PrintRequest) (h : req.PrintMode = lit "label")
    (hc : req.QRCodes = []) : printHandlerReceipt req = escInit := by
  unfold printHandlerReceipt
  simp only [h, hc, mode_label_ne_empty, mode_label_ne_receipt, mode_label_ne_qr, if_true,
    if_false, labelLoop, List.nil_append]

end AppWindows

/-! ## `src/linux/main.go`: the qr-only branch and the default mode -/

namespace Linux

/-- The stream of the qr-only branch of linux/main.go. -/
theorem linux_printHandler_qrOnly (req : PrintRequest) (h : req.PrintMode = lit "qr-only") :
    printHandlerReceipt req =
      escInit ++ ([LF] ++ (escAlignCenter ++ (escBold true ++ (escBold false ++
      (escAlignCenter ++ (escBold true ++ (escDoubleHeight true ++ (req.Title ++ ([LF] ++
      (escDoubleHeight false ++ (escBold false ++ (escAlignCenter ++ (sepEq ++
      (escAlignCenter ++ (escBold true ++ (lit "ORDER: " ++ (req.OrderID ++ ([LF] ++
      (escBold false ++ (escAlignCenter ++ (sepDash ++ (escAlignLeft ++ (req.Body ++
      (escAlignCenter ++ ([LF] ++ (sepDash ++ ([LF] ++ (escAlignCenter ++
      (escQRCode req.QRValue ++ ([LF, LF] ++ (escAlignCenter ++ (escBold true ++
      (lit "Scan untuk update status" ++ ([LF] ++ (escBold false ++
      ([LF, LF] ++ escCut)))))))))))))))))))))))))))))))))))) := by
  have h1 : lit "qr-only" ≠ lit "separator" := by decide
  unfold printHandlerReceipt
  simp only [h, h1, mode_qr_ne_empty, if_true, if_false, lit_nl, lit_nl2, lit_sepEq,
    lit_sepDash, lit_nl_sepDash, lit_scan, List.append_assoc, List.nil_append]

/-- The stream of the final branch of linux/main.go, which an empty
`print_mode` always reaches, with or without a `qr_value`. -/
theorem printHandler_default (req : PrintRequest) (h : req.PrintMode = lit "") :
    printHandlerReceipt req =
      escInit ++ ([LF] ++ (escAlignCenter ++ (escBold true ++ (escDoubleHeight true ++
      (req.Title ++ ([LF] ++ (escDoubleHeight false ++ (escBold false ++ (escAlignCenter ++
      (sepEq ++ (escAlignCenter ++ (escBold true ++ (lit "ORDER: " ++ (req.OrderID ++ ([LF] ++
      (escBold false ++ (escAlignCenter ++ (sepDash ++ (escAlignLeft ++ (req.Body ++
      (escAlignCenter ++ ([LF] ++ (sepEq ++ (escBold true ++ (lit "Terima kasih" ++ ([LF] ++
      (escBold false ++ (lit "Atas kepercayaan Anda" ++ ([LF] ++
      ([LF, LF] ++ escCut)))))))))))))))))))))))))))))) := by
  have h1 : lit "all" ≠ lit "separator" := by decide
  have h2 : lit "receipt-only" ≠ lit "separator" := by decide
  have h3 : lit "receipt-only" ≠ lit "qr-only" := by decide
  unfold printHandlerReceipt
  by_cases hv : req.QRValue = lit ""
  · simp only [h, hv, h2, h3, ne_eq, not_true_eq_false, if_true, if_false, lit_nl, lit_nl2,
      lit_sepEq, lit_sepDash, lit_nl_sepEq, lit_thanks, lit_trust, List.append_assoc,
      List.nil_append]
  · simp only [h, hv, h1, mode_all_ne_qr, ne_eq, not_false_eq_true, if_true, if_false, lit_nl,
      lit_nl2, lit_sepEq, lit_sepDash, lit_nl_sepEq, lit_thanks, lit_trust, List.append_assoc,
      List.nil_append]

end Linux

/-! ## `src/app-windows/main.go`: the spacer and the label mode without entries -/

namespace AppWindows

/-- C21, as stated, fails: for the request `T` / `1` / `b` with the entries
`A` and `B`, in each of the modes `qr-only`, `label` and `all` the stream is
not the one with two LF between the block of `A` and the block of `B`. -/
theorem app_spacer_is_not_two_lf :
    printHandlerReceipt ⟨[], lit "T", lit "1", lit "b", [], lit "qr-only", [⟨lit "A", lit "1", lit "a", lit "QA"⟩, ⟨lit "B", lit "2", lit "b", lit "QB"⟩], false⟩ ≠
      escInit ++ qrBlock ⟨lit "A", lit "1", lit "a", lit "QA"⟩ ++ [0x0A, 0x0A] ++ qrBlock ⟨lit "B", lit "2", lit "b", lit "QB"⟩
        ++ [0x0A, 0x0A, 0x0A, 0x0A, 0x0A, 0x0A] ++ escCut ++ escInit ∧
    printHandlerReceipt ⟨[], lit "T", lit "1", lit "b", [], lit "label", [⟨lit "A", lit "1", lit "a", lit "QA"⟩, ⟨lit "B", lit "2", lit "b", lit "QB"⟩], false⟩ ≠
      escInit ++ labelBlock (lit "T") ⟨lit "A", lit "1", lit "a", lit "QA"⟩ ++ [0x0A, 0x0A] ++ labelBlock (lit "T") ⟨lit "B", lit "2", lit "b", lit "QB"⟩
        ++ [0x0A, 0x0A, 0x0A, 0x0A, 0x0A, 0x0A] ++ escCut ++ escInit ∧
    printHandlerReceipt ⟨[], lit "T", lit "1", lit "b", [], lit "all", [⟨lit "A", lit "1", lit "a", lit "QA"⟩, ⟨lit "B", lit "2", lit "b", lit "QB"⟩], false⟩ ≠
      escInit ++ [0x0A] ++ escAlignCenter ++ escBold true ++ lit "T" ++ [0x0A] ++ escBold false
        ++ receiptRest (lit "b") ++ [0x0A, 0x0A] ++ staffBanner
        ++ labelBlock (lit "T") ⟨lit "A", lit "1", lit "a", lit "QA"⟩ ++ [0x0A, 0x0A] ++ labelBlock (lit "T") ⟨lit "B", lit "2", lit "b", lit "QB"⟩
        ++ [0x0A, 0x0A, 0x0A, 0x0A, 0x0A, 0x0A] ++ escCut ++ escInit := by
  refine ⟨?_, ?_, ?_⟩ <;> decide

/-- C21, amended: for every request with `qr_codes = [a, b]`, in each of the
modes `qr-only`, `label` and `all` the bytes between the block of `a` and the
block of `b` are four LF, and no spacer stands before the block of `a`: it
follows escInit in the modes `qr-only` and `label` and the staff banner in the
mode `all`. The block of the mode `qr-only` is the sequence listed first. -/
theorem app_spacer_is_four_lf (req : PrintRequest) (a b : QRCodeData)
    (hc : req.QRCodes = [a, b]) :
    (∀ x : QRCodeData, qrBlock x =
      escAlignCenter ++ escBold true ++ escDoubleHeight true ++ x.ServiceName ++ [0x0A]
      ++ escDoubleHeight false ++ escBold false
      ++ escAlignCenter ++ List.replicate 32 0x3D ++ [0x0A]
      ++ escAlignCenter ++ escBold true ++ lit "ORDER: " ++ x.OrderID ++ [0x0A]
      ++ escBold false
      ++ escAlignCenter ++ List.replicate 32 0x2D ++ [0x0A]
      ++ escAlignLeft ++ x.Body
      ++ escAlignCenter ++ [0x0A] ++ List.replicate 32 0x2D ++ [0x0A]
      ++ [0x0A, 0x0A] ++ escAlignCenter ++ escQRCode x.QRValue ++ [0x0A]
      ++ [0x0A, 0x0A] ++ escAlignCenter ++ escBold true
      ++ lit "Scan untuk update status" ++ [0x0A] ++ escBold false) ∧
    (req.PrintMode = lit "qr-only" →
      printHandlerReceipt req =
        escInit ++ qrBlock a ++ [0x0A, 0x0A, 0x0A, 0x0A] ++ qrBlock b
          ++ [0x0A, 0x0A, 0x0A, 0x0A, 0x0A, 0x0A] ++ escCut ++ escInit) ∧
    (req.PrintMode = lit "label" →
      printHandlerReceipt req =
        escInit ++ labelBlock req.Title a ++ [0x0A, 0x0A, 0x0A, 0x0A] ++ labelBlock req.Title b
          ++ [0x0A, 0x0A, 0x0A, 0x0A, 0x0A, 0x0A] ++ escCut ++ escInit) ∧
    (req.PrintMode = lit "all" →
      printHandlerReceipt req =
        escInit ++ [0x0A] ++ escAlignCenter ++ escBold true ++ req.Title ++ [0x0A]
          ++ escBold false ++ receiptRest req.Body ++ [0x0A, 0x0A] ++ staffBanner
          ++ labelBlock req.Title a ++ [0x0A, 0x0A, 0x0A, 0x0A] ++ labelBlock req.Title b
          ++ [0x0A, 0x0A, 0x0A, 0x0A, 0x0A, 0x0A] ++ escCut ++ escInit) := by
  refine ⟨?_, ?_, ?_, ?_⟩
  · intro x
    simp only [qrBlock, sepEq, sepDash, LF, List.append_assoc]
  · intro hm
    rw [app_printHandler_qrOnly req a [b] hm hc]
    simp only [spacedWith, LF, List.append_assoc, List.append_nil]
  · intro hm
    rw [printHandler_label req a [b] hm hc]
    simp only [spacedWith, LF, List.append_assoc, List.append_nil]
  · intro hm
    rw [printHandler_all req a [b] hm hc]
    simp only [spacedWith, LF, List.append_assoc, List.append_nil]

/-- C21, amended, at the request `T` / `1` / `b` with the entries `A` and `B`
in the mode `label`. -/
theorem app_spacer_is_four_lf_witness :
    printHandlerReceipt ⟨[], lit "T", lit "1", lit "b", [], lit "label", [⟨lit "A", lit "1", lit "a", lit "QA"⟩, ⟨lit "B", lit "2", lit "b", lit "QB"⟩], false⟩ =
      escInit ++ labelBlock (lit "T") ⟨lit "A", lit "1", lit "a", lit "QA"⟩ ++ [0x0A, 0x0A, 0x0A, 0x0A]
        ++ labelBlock (lit "T") ⟨lit "B", lit "2", lit "b", lit "QB"⟩
        ++ [0x0A, 0x0A, 0x0A, 0x0A, 0x0A, 0x0A] ++ escCut ++ escInit :=
  (app_spacer_is_four_lf ⟨[], lit "T", lit "1", lit "b", [], lit "label", [⟨lit "A", lit "1", lit "a", lit "QA"⟩, ⟨lit "B", lit "2", lit "b", lit "QB"⟩], false⟩ ⟨lit "A", lit "1", lit "a", lit "QA"⟩ ⟨lit "B", lit "2", lit "b", lit "QB"⟩ rfl).2.2.1 rfl

/-- C22, at the failing input: for the request `T` / `1` / `b` with
`print_mode` `label`, no entries and the legacy value `X`, the stream is the
two bytes of escInit and holds no byte of a command group; with `print_mode`
`qr-only` the same request gets the block of the top-level fields with the
group of `X`, six LF, escCut and escInit. -/
theorem app_label_drops_legacy_value :
    printHandlerReceipt ⟨[], lit "T", lit "1", lit "b", lit "X", lit "label", [], false⟩ = [0x1B, 0x40] ∧
    ¬ List.IsInfix (escQRCode (lit "X")) (printHandlerReceipt ⟨[], lit "T", lit "1", lit "b", lit "X", lit "label", [], false⟩) ∧
    printHandlerReceipt (withMode ⟨[], lit "T", lit "1", lit "b", lit "X", lit "label", [], false⟩ (lit "qr-only")) =
      escInit ++ qrBlock ⟨lit "T", lit "1", lit "b", lit "X"⟩
        ++ [0x0A, 0x0A, 0x0A, 0x0A, 0x0A, 0x0A] ++ escCut ++ escInit := by
  have h0 : printHandlerReceipt ⟨[], lit "T", lit "1", lit "b", lit "X", lit "label", [], false⟩ = [0x1B, 0x40] :=
    printHandler_label_nil _ rfl rfl
  refine ⟨h0, ?_, ?_⟩
  · intro hin
    have hlen := hin.length_le
    rw [h0] at hlen
    revert hlen
    decide
  · rw [printHandler_qrOnly_legacy (withMode ⟨[], lit "T", lit "1", lit "b", lit "X", lit "label", [], false⟩ (lit "qr-only")) rfl rfl (by decide)]
    simp only [legacyEntry, withMode, LF, List.append_assoc]

end AppWindows

/-! ## `src/linux/main.go`: the default mode and the qr-only mode -/

namespace Linux

/-- The command group of `qr_value` stands in the stream of the qr-only branch
of linux/main.go. -/
theorem group_in_qrOnly (req : PrintRequest) (h : req.PrintMode = lit "qr-only") :
    List.IsInfix (escQRCode req.QRValue) (printHandlerReceipt req) := by
  rw [linux_printHandler_qrOnly req h]
  exact ⟨escInit ++ ([LF] ++ (escAlignCenter ++ (escBold true ++ (escBold false ++
    (escAlignCenter ++ (escBold true ++ (escDoubleHeight true ++ (req.Title ++ ([LF] ++
    (escDoubleHeight false ++ (escBold false ++ (escAlignCenter ++ (sepEq ++
    (escAlignCenter ++ (escBold true ++ (lit "ORDER: " ++ (req.OrderID ++ ([LF] ++
    (escBold false ++ (escAlignCenter ++ (sepDash ++ (escAlignLeft ++ (req.Body ++
    (escAlignCenter ++ ([LF] ++ (sepDash ++ ([LF] ++ escAlignCenter))))))))))))))))))))))))))),
    [LF, LF] ++ (escAlignCenter ++ (escBold true ++
    (lit "Scan untuk update status" ++ ([LF] ++ (escBold false ++
    ([LF, LF] ++ escCut)))))),
    by simp only [List.append_assoc]⟩

/-- C23, as stated, fails: for the request `T` / `1` / `b` with empty
`print_mode` and the `qr_value` `X`, the stream of linux/main.go is the
receipt alone, the same stream as without a `qr_value`; it holds no byte `28`,
so it does not hold the command group of `X`. -/
theorem default_mode_prints_receipt_alone :
    printHandlerReceipt ⟨[], lit "T", lit "1", lit "b", lit "X", []⟩ =
      escInit ++ [0x0A] ++ escAlignCenter ++ escBold true ++ escDoubleHeight true
      ++ lit "T" ++ [0x0A] ++ escDoubleHeight false ++ escBold false
      ++ escAlignCenter ++ List.replicate 32 0x3D ++ [0x0A]
      ++ escAlignCenter ++ escBold true ++ lit "ORDER: " ++ lit "1" ++ [0x0A]
      ++ escBold false
      ++ escAlignCenter ++ List.replicate 32 0x2D ++ [0x0A]
      ++ escAlignLeft ++ lit "b"
      ++ escAlignCenter ++ [0x0A] ++ List.replicate 32 0x3D ++ [0x0A]
      ++ escBold true ++ lit "Terima kasih" ++ [0x0A] ++ escBold false
      ++ lit "Atas kepercayaan Anda" ++ [0x0A]
      ++ [0x0A, 0x0A] ++ escCut ∧
    printHandlerReceipt ⟨[], lit "T", lit "1", lit "b", lit "X", []⟩ = printHandlerReceipt ⟨[], lit "T", lit "1", lit "b", [], []⟩ ∧
    0x28 ∉ printHandlerReceipt ⟨[], lit "T", lit "1", lit "b", lit "X", []⟩ ∧
    ¬ List.IsInfix (escQRCode (lit "X")) (printHandlerReceipt ⟨[], lit "T", lit "1", lit "b", lit "X", []⟩) := by
  have hform := printHandler_default ⟨[], lit "T", lit "1", lit "b", lit "X", []⟩ rfl
  have hno : 0x28 ∉ printHandlerReceipt ⟨[], lit "T", lit "1", lit "b", lit "X", []⟩ := by decide
  refine ⟨?_, ?_, hno, ?_⟩
  · rw [hform]
    simp only [sepEq, sepDash, LF, List.append_assoc]
  · rw [hform, printHandler_default ⟨[], lit "T", lit "1", lit "b", [], []⟩ rfl]
  · intro hin
    exact hno (hin.subset (by decide))

/-- C24, as stated, fails: for the request `T` / `1` / `b` with `print_mode`
`qr-only` and an empty `qr_value`, the stream of linux/main.go holds the
command group of the empty payload, 41 bytes with the length field `03 00`. -/
theorem qr_only_prints_empty_group :
    List.IsInfix (escQRCode [])
      (printHandlerReceipt ⟨[], lit "T", lit "1", lit "b", [], lit "qr-only"⟩) ∧
    escQRCode [] =
      [0x1D, 0x28, 0x6B, 0x04, 0x00, 0x31, 0x41, 0x32, 0x00]
      ++ [0x1D, 0x28, 0x6B, 0x03, 0x00, 0x31, 0x43, 0x07]
      ++ [0x1D, 0x28, 0x6B, 0x03, 0x00, 0x31, 0x45, 0x31]
      ++ [0x1D, 0x28, 0x6B, 0x03, 0x00, 0x31, 0x50, 0x30]
      ++ [0x1D, 0x28, 0x6B, 0x03, 0x00, 0x31, 0x51, 0x30] ∧
    (escQRCode []).length = 41 := by
  exact ⟨group_in_qrOnly ⟨[], lit "T", lit "1", lit "b", [], lit "qr-only"⟩ rfl, by decide,
    by decide⟩

/-- C24, amended: the qr-only branch of linux/main.go has no test on
`qr_value`: for every request with `print_mode` `qr-only` the stream is
escInit, LF, the header lines, the body, then escAlignCenter, the command group
`escQRCode` of `qr_value`, the caption, two LF and escCut; the group is there
for an empty `qr_value` too. -/
theorem qr_only_always_prints_group (req : PrintRequest) (h : req.PrintMode = lit "qr-only") :
    printHandlerReceipt req =
      escInit ++ [0x0A] ++ escAlignCenter ++ escBold true ++ escBold false
      ++ escAlignCenter ++ escBold true ++ escDoubleHeight true ++ req.Title ++ [0x0A]
      ++ escDoubleHeight false ++ escBold false
      ++ escAlignCenter ++ List.replicate 32 0x3D ++ [0x0A]
      ++ escAlignCenter ++ escBold true ++ lit "ORDER: " ++ req.OrderID ++ [0x0A]
      ++ escBold false
      ++ escAlignCenter ++ List.replicate 32 0x2D ++ [0x0A]
      ++ escAlignLeft ++ req.Body
      ++ escAlignCenter ++ [0x0A] ++ List.replicate 32 0x2D ++ [0x0A]
      ++ [0x0A] ++ escAlignCenter ++ escQRCode req.QRValue
      ++ [0x0A, 0x0A] ++ escAlignCenter ++ escBold true
      ++ lit "Scan untuk update status" ++ [0x0A] ++ escBold false
      ++ [0x0A, 0x0A] ++ escCut ∧
    List.IsInfix (escQRCode req.QRValue) (printHandlerReceipt req) := by
  have hform := linux_printHandler_qrOnly req h
  refine ⟨?_, ?_⟩
  · rw [hform]
    simp only [sepEq, sepDash, LF, List.append_assoc]
  · exact group_in_qrOnly req h

/-- C24, amended, at the request `T` / `1` / `b` with an empty `qr_value`. -/
theorem qr_only_always_prints_group_witness :
    List.IsInfix (escQRCode []) (printHandlerReceipt ⟨[], lit "T", lit "1", lit "b", [], lit "qr-only"⟩) :=
  (qr_only_always_prints_group ⟨[], lit "T", lit "1", lit "b", [], lit "qr-only"⟩ rfl).2

end Linux

/-! ## `src/app-windows/main-console.go` against `src/main.go` -/

namespace Console

theorem console_escInit : escInit = PrintAgent.escInit := rfl

theorem console_escBold (b : Bool) : escBold b = PrintAgent.escBold b := rfl

theorem console_escAlignCenter : escAlignCenter = PrintAgent.escAlignCenter := rfl

theorem console_escAlignLeft : escAlignLeft = PrintAgent.escAlignLeft := rfl

theorem console_escCut : escCut = PrintAgent.escCut := rfl

theorem console_escDoubleHeight (b : Bool) :
    escDoubleHeight b = PrintAgent.escDoubleHeight b := rfl

theorem console_escQRCode (d : Bytes) : escQRCode d = PrintAgent.escQRCode d := rfl

/-- The qr-only loop of main-console.go is the qr-only loop of main.go. -/
theorem console_qrOnlyLoop (n : Nat) (codes : List QRCodeData) :
    ∀ (i : Nat) (receipt : Bytes),
      qrOnlyLoop n i codes receipt = PrintAgent.qrOnlyLoop n i codes receipt := by
  induction codes with
  | nil => intro i receipt; rw [qrOnlyLoop, PrintAgent.qrOnlyLoop]
  | cons e rest ih =>
    intro i receipt
    rw [qrOnlyLoop, PrintAgent.qrOnlyLoop, ih]
    simp only [console_escBold, console_escAlignCenter, console_escAlignLeft, console_escCut,
      console_escDoubleHeight, console_escQRCode]

/-- The loop of the final branch of main-console.go is that of main.go. -/
theorem console_allLoop (n : Nat) (codes : List QRCodeData) :
    ∀ (i : Nat) (receipt : Bytes),
      allLoop n i codes receipt = PrintAgent.allLoop n i codes receipt := by
  induction codes with
  | nil => intro i receipt; rw [allLoop, PrintAgent.allLoop]
  | cons e rest ih =>
    intro i receipt
    rw [allLoop, PrintAgent.allLoop, ih]
    simp only [console_escBold, console_escAlignCenter, console_escAlignLeft, console_escCut,
      console_escDoubleHeight, console_escQRCode]

/-- C31: for every request, the stream composed by `print` of main.go and the
stream composed by `printHandler` of main-console.go are byte-identical. -/
theorem console_stream_is_main_stream (req : PrintRequest) :
    printHandlerReceipt req = printReceipt req := by
  unfold printHandlerReceipt printReceipt
  simp only [console_escInit, console_escBold, console_escAlignCenter, console_escAlignLeft,
    console_escCut, console_escDoubleHeight, console_escQRCode, console_qrOnlyLoop,
    console_allLoop]

end Console

/-! ## The variants of `escQRCode` -/

/-- The output of `escQRCode` of app-windows/main.go: module size 6 and level
H in the second and third group. -/
theorem app_escQRCode_eq (d : Bytes) :
    AppWindows.escQRCode d =
      [0x1D, 0x28, 0x6B, 0x04, 0x00, 0x31, 0x41, 0x32, 0x00] ++
      ([0x1D, 0x28, 0x6B, 0x03, 0x00, 0x31, 0x43, 0x06] ++
      ([0x1D, 0x28, 0x6B, 0x03, 0x00, 0x31, 0x45, 0x33] ++
      ([0x1D, 0x28, 0x6B, lenLow d.length, lenHigh d.length, 0x31, 0x50, 0x30] ++
      (d ++ [0x1D, 0x28, 0x6B, 0x03, 0x00, 0x31, 0x51, 0x30])))) := by
  by_cases h : d.length + 3 > 255
  · simp [AppWindows.escQRCode, toByte, lenLow, lenHigh, h]
  · have h1 : d.length + 3 < 256 := by omega
    have h2 : (d.length + 3) / 256 = 0 := Nat.div_eq_of_lt h1
    simp [AppWindows.escQRCode, toByte, lenLow, lenHigh, h, h2]

/-- The output of app-windows/main.go is the output of main.go with the bytes
at the indices 16 and 24 replaced. -/
theorem app_escQRCode_set (d : Bytes) :
    AppWindows.escQRCode d = ((escQRCode d).set 16 0x06).set 24 0x33 := by
  rw [app_escQRCode_eq, escQRCode_eq]
  simp

/-- C33: for every payload `d`, `escQRCode d` of app-windows/main.go and of
main.go have the same length and agree at every index other than 16 and 24;
at index 16 stand `06` and `07`, at index 24 `33` and `31`; and the functions
`escQRCode` of main.go, linux/main.go and main-console.go are equal on `d`. -/
theorem escQRCode_variants (d : Bytes) (i : Nat) (h16 : i ≠ 16) (h24 : i ≠ 24) :
    (AppWindows.escQRCode d).length = (escQRCode d).length ∧
    (AppWindows.escQRCode d)[i]? = (escQRCode d)[i]? ∧
    (AppWindows.escQRCode d)[16]? = some 0x06 ∧ (escQRCode d)[16]? = some 0x07 ∧
    (AppWindows.escQRCode d)[24]? = some 0x33 ∧ (escQRCode d)[24]? = some 0x31 ∧
    Linux.escQRCode d = escQRCode d ∧ Console.escQRCode d = escQRCode d := by
  refine ⟨?_, ?_, ?_, ?_, ?_, ?_, rfl, rfl⟩
  · rw [app_escQRCode_set]; simp
  · rw [app_escQRCode_set, List.getElem?_set_ne (Ne.symm h24),
      List.getElem?_set_ne (Ne.symm h16)]
  · rw [app_escQRCode_eq]; simp
  · rw [escQRCode_eq]; simp
  · rw [app_escQRCode_eq]; simp
  · rw [escQRCode_eq]; simp

/-- C33 at the payload `AB` and the index 33, the first payload byte. -/
theorem escQRCode_variants_witness :
    (AppWindows.escQRCode [65, 66]).length = (escQRCode [65, 66]).length ∧
    (AppWindows.escQRCode [65, 66])[33]? = (escQRCode [65, 66])[33]? :=
  ⟨(escQRCode_variants [65, 66] 33 (by decide) (by decide)).1,
    (escQRCode_variants [65, 66] 33 (by decide) (by decide)).2.1⟩

/-! ## Receipt-only streams and the barcode fields -/

/-- C34: two requests with `print_mode` `receipt-only` that agree on title,
order id and body compose identical streams, whatever their `qr_value` and
`qr_codes` are. -/
theorem receipt_only_ignores_barcode_fields (r1 r2 : PrintRequest)
    (h1 : r1.PrintMode = lit "receipt-only") (h2 : r2.PrintMode = lit "receipt-only")
    (hT : r1.Title = r2.Title) (hO : r1.OrderID = r2.OrderID) (hB : r1.Body = r2.Body) :
    printReceipt r1 = printReceipt r2 := by
  rw [printReceipt_receiptOnly r1 h1, printReceipt_receiptOnly r2 h2, hT, hO, hB]

/-- C34 at two requests that differ in `qr_value` and in `qr_codes`. -/
theorem receipt_only_ignores_barcode_fields_witness :
    printReceipt ⟨[], lit "T", lit "1", lit "b", lit "X", lit "receipt-only",
        [⟨lit "A", lit "1", lit "a", lit "QA"⟩], false⟩ =
      printReceipt ⟨[], lit "T", lit "1", lit "b", [], lit "receipt-only", [], false⟩ :=
  receipt_only_ignores_barcode_fields
    ⟨[], lit "T", lit "1", lit "b", lit "X", lit "receipt-only",
      [⟨lit "A", lit "1", lit "a", lit "QA"⟩], false⟩
    ⟨[], lit "T", lit "1", lit "b", [], lit "receipt-only", [], false⟩ rfl rfl rfl rfl rfl

/-! ## `src/linux/main.go` against the receipt-only stream of `src/main.go` -/

/-- The store-data headers of a receipt-only stream are those of its three
text fields. -/
theorem hasStoreHeader_receiptOnly (t o b : Bytes) :
    hasStoreHeader (escInit ++ (receiptText t o b ++ ([LF, LF] ++ escCut))) =
      (hasStoreHeader t || hasStoreHeader o || hasStoreHeader b) := by
  have hcut : hasStoreHeader escCut = false := by decide
  rw [receiptText_split]
  simp only [List.append_assoc]
  rw [hasStoreHeader_append_clean escInit _ (by decide),
    hasStoreHeader_append_clean receiptPre _ (by decide),
    hasStoreHeader_append_text t _ (noStraddle_receiptMid1 _),
    hasStoreHeader_append_clean receiptMid1 _ (by decide),
    hasStoreHeader_append_text o _ (noStraddle_receiptMid2 _),
    hasStoreHeader_append_clean receiptMid2 _ (by decide),
    hasStoreHeader_append_text b _ (noStraddle_receiptPost _),
    hasStoreHeader_append_clean receiptPost _ (by decide),
    hasStoreHeader_append_clean [LF, LF] _ (by decide), hcut]
  simp only [Bool.or_false, Bool.or_assoc]

namespace Linux

theorem linux_escInit : escInit = PrintAgent.escInit := rfl

theorem linux_escBold (b : Bool) : escBold b = PrintAgent.escBold b := rfl

theorem linux_escAlignCenter : escAlignCenter = PrintAgent.escAlignCenter := rfl

theorem linux_escAlignLeft : escAlignLeft = PrintAgent.escAlignLeft := rfl

theorem linux_escCut : escCut = PrintAgent.escCut := rfl

theorem linux_escDoubleHeight (b : Bool) :
    escDoubleHeight b = PrintAgent.escDoubleHeight b := rfl

/-- The stream of the final branch of linux/main.go, which every `print_mode`
other than `separator` and `qr-only` reaches: it is the receipt-only stream of
main.go for the title, the order id and the body. -/
theorem linux_printHandler_else (req : PrintRequest) (h1 : req.PrintMode ≠ lit "separator")
    (h2 : req.PrintMode ≠ lit "qr-only") :
    printHandlerReceipt req =
      PrintAgent.escInit ++ (receiptText req.Title req.OrderID req.Body ++
        ([LF, LF] ++ PrintAgent.escCut)) := by
  by_cases h0 : req.PrintMode = lit ""
  · rw [printHandler_default req h0]
    simp only [receiptText, linux_escInit, linux_escBold, linux_escAlignCenter,
      linux_escAlignLeft, linux_escCut, linux_escDoubleHeight, List.append_assoc]
  · unfold printHandlerReceipt
    simp only [h0, h1, h2, if_false, receiptText, linux_escInit, linux_escBold,
      linux_escAlignCenter, linux_escAlignLeft, linux_escCut, linux_escDoubleHeight, lit_nl,
      lit_nl2, lit_sepEq, lit_sepDash, lit_nl_sepEq, lit_thanks, lit_trust, List.append_assoc,
      List.nil_append]

/-- C32: for every request of linux/main.go whose `print_mode` is neither
`separator` nor `qr-only`, the stream composed by `printHandler` is the stream
that `print` of main.go composes for the same title, order id and body with
`print_mode` `receipt-only`, whatever the other fields of that request are; the
`qr_value` changes no byte of it, and it holds a store-data header only when
the title, the order id or the body holds one. -/
theorem linux_else_is_receipt_only (req : PrintRequest) (h1 : req.PrintMode ≠ lit "separator")
    (h2 : req.PrintMode ≠ lit "qr-only") :
    (∀ (tok qv : Bytes) (codes : List QRCodeData) (npc : Bool),
      printHandlerReceipt req =
        printReceipt ⟨tok, req.Title, req.OrderID, req.Body, qv, lit "receipt-only", codes,
          npc⟩) ∧
    (∀ v : Bytes, printHandlerReceipt { req with QRValue := v } = printHandlerReceipt req) ∧
    hasStoreHeader (printHandlerReceipt req) =
      (hasStoreHeader req.Title || hasStoreHeader req.OrderID || hasStoreHeader req.Body) := by
  have hform := linux_printHandler_else req h1 h2
  refine ⟨?_, ?_, ?_⟩
  · intro tok qv codes npc
    rw [hform, printReceipt_receiptOnly _ rfl]
  · intro v
    rw [hform, linux_printHandler_else { req with QRValue := v } h1 h2]
  · rw [hform, hasStoreHeader_receiptOnly]

/-- C32 at the request `T` / `1` / `b` with the `qr_value` `X` and the tokens
`all` and the empty one. -/
theorem linux_else_is_receipt_only_witness :
    printHandlerReceipt ⟨[], lit "T", lit "1", lit "b", lit "X", lit "all"⟩ =
      printReceipt ⟨[], lit "T", lit "1", lit "b", [], lit "receipt-only", [], false⟩ ∧
    printHandlerReceipt ⟨[], lit "T", lit "1", lit "b", lit "X", []⟩ =
      printReceipt ⟨[], lit "T", lit "1", lit "b", [], lit "receipt-only", [], false⟩ :=
  ⟨(linux_else_is_receipt_only ⟨[], lit "T", lit "1", lit "b", lit "X", lit "all"⟩
      (by decide) (by decide)).1 [] [] [] false,
    (linux_else_is_receipt_only ⟨[], lit "T", lit "1", lit "b", lit "X", []⟩
      (by decide) (by decide)).1 [] [] [] false⟩

end Linux

/-! ## `src/linux/main.go`: the empty mode with a `qr_value` -/

/-- A store-data header at the front of `p` stands at the front of `p ++ y`. -/
theorem storeHeaderAt_append_right (p y : Bytes) (h : storeHeaderAt p = true) :
    storeHeaderAt (p ++ y) = true := by
  unfold storeHeaderAt at h ⊢
  simp only [Bool.and_eq_true, beq_iff_eq] at h ⊢
  obtain ⟨h3, h5⟩ := h
  have hlen : 3 ≤ (p.drop 5).length := by
    have := congrArg List.length h5
    simp only [List.length_take, List.length_cons, List.length_nil] at this
    omega
  have hlen5 : 5 ≤ p.length := by
    simp only [List.length_drop] at hlen
    omega
  have hlen3 : 3 ≤ p.length := by omega
  rw [List.take_append_of_le_length hlen3, List.drop_append_of_le_length hlen5,
    List.take_append_of_le_length hlen]
  exact ⟨h3, h5⟩

/-- A store-data header of `p` is a store-data header of `p ++ y`. -/
theorem hasStoreHeader_append_right (p y : Bytes) (h : hasStoreHeader p = true) :
    hasStoreHeader (p ++ y) = true := by
  induction p with
  | nil => simp [hasStoreHeader] at h
  | cons b rest ih =>
    rw [List.cons_append]
    simp only [hasStoreHeader, Bool.or_eq_true] at h ⊢
    rcases h with h | h
    · exact Or.inl (storeHeaderAt_append_right (b :: rest) y h)
    · exact Or.inr (ih h)

/-- A store-data header of `x` is a store-data header of `a ++ x`. -/
theorem hasStoreHeader_append_left (a x : Bytes) (h : hasStoreHeader x = true) :
    hasStoreHeader (a ++ x) = true := by
  induction a with
  | nil => exact h
  | cons b rest ih =>
    rw [List.cons_append]
    simp only [hasStoreHeader, Bool.or_eq_true]
    exact Or.inr ih

/-- A stream that holds a byte sequence with a store-data header holds a
store-data header. -/
theorem hasStoreHeader_of_infix {p s : Bytes} (hin : List.IsInfix p s)
    (h : hasStoreHeader p = true) : hasStoreHeader s = true := by
  obtain ⟨a, b, rfl⟩ := hin
  exact hasStoreHeader_append_right _ _ (hasStoreHeader_append_left _ _ h)

/-- Every command group of `escQRCode` holds a store-data header. -/
theorem escQRCode_hasStoreHeader (d : Bytes) : hasStoreHeader (escQRCode d) = true := by
  rw [escQRCode_eq]
  refine hasStoreHeader_append_left _ _ (hasStoreHeader_append_left _ _
    (hasStoreHeader_append_left _ _ ?_))
  simp [hasStoreHeader, storeHeaderAt]

namespace Linux

theorem linux_escQRCode (d : Bytes) : escQRCode d = PrintAgent.escQRCode d := rfl

/-- C23, amended: in linux/main.go an empty `print_mode` with a non-empty
`qr_value` is resolved to `all`, and `all` reaches the final branch, which
prints the receipt and no QR code. For every such request the stream is
escInit, LF, the title, order and body lines, the thank-you lines, two LF and
escCut; it is the stream of the same request with `print_mode` `all`, with
`print_mode` `receipt-only`, and without a `qr_value`; it holds a store-data
header only when the title, the order id or the body holds one, so when none of
them does the command group `escQRCode` of the `qr_value` is not in it. The
group is printed for the same fields by a request with `print_mode`
`qr-only`. -/
theorem default_mode_with_qr_value_is_receipt (req : PrintRequest)
    (hm : req.PrintMode = lit "") (hv : req.QRValue ≠ lit "") :
    printHandlerReceipt req =
      escInit ++ [0x0A] ++ escAlignCenter ++ escBold true ++ escDoubleHeight true
      ++ req.Title ++ [0x0A] ++ escDoubleHeight false ++ escBold false
      ++ escAlignCenter ++ List.replicate 32 0x3D ++ [0x0A]
      ++ escAlignCenter ++ escBold true ++ lit "ORDER: " ++ req.OrderID ++ [0x0A]
      ++ escBold false
      ++ escAlignCenter ++ List.replicate 32 0x2D ++ [0x0A]
      ++ escAlignLeft ++ req.Body
      ++ escAlignCenter ++ [0x0A] ++ List.replicate 32 0x3D ++ [0x0A]
      ++ escBold true ++ lit "Terima kasih" ++ [0x0A] ++ escBold false
      ++ lit "Atas kepercayaan Anda" ++ [0x0A]
      ++ [0x0A, 0x0A] ++ escCut ∧
    printHandlerReceipt req = printHandlerReceipt { req with PrintMode := lit "all" } ∧
    printHandlerReceipt req = printHandlerReceipt { req with PrintMode := lit "receipt-only" } ∧
    printHandlerReceipt req = printHandlerReceipt { req with QRValue := lit "" } ∧
    hasStoreHeader (printHandlerReceipt req) =
      (hasStoreHeader req.Title || hasStoreHeader req.OrderID || hasStoreHeader req.Body) ∧
    (hasStoreHeader req.Title = false → hasStoreHeader req.OrderID = false →
      hasStoreHeader req.Body = false →
      ¬ List.IsInfix (escQRCode req.QRValue) (printHandlerReceipt req)) ∧
    List.IsInfix (escQRCode req.QRValue)
      (printHandlerReceipt { req with PrintMode := lit "qr-only" }) := by
  have h1 : lit "all" ≠ lit "separator" := by decide
  have h2 : lit "receipt-only" ≠ lit "separator" := by decide
  have h3 : lit "receipt-only" ≠ lit "qr-only" := by decide
  have hs : req.PrintMode ≠ lit "separator" := by rw [hm]; decide
  have hq : req.PrintMode ≠ lit "qr-only" := by rw [hm]; decide
  have hform := linux_printHandler_else req hs hq
  have hhead : hasStoreHeader (printHandlerReceipt req) =
      (hasStoreHeader req.Title || hasStoreHeader req.OrderID || hasStoreHeader req.Body) := by
    rw [hform, hasStoreHeader_receiptOnly]
  refine ⟨?_, ?_, ?_, ?_, hhead, ?_, ?_⟩
  · unfold printHandlerReceipt
    simp only [hm, hv, h1, mode_all_ne_qr, ne_eq, not_false_eq_true, if_true, if_false, lit_nl,
      lit_nl2, lit_sepEq, lit_sepDash, lit_nl_sepEq, lit_thanks, lit_trust, sepEq, sepDash, LF,
      List.append_assoc, List.nil_append]
  · rw [hform, linux_printHandler_else { req with PrintMode := lit "all" } h1 mode_all_ne_qr]
  · rw [hform, linux_printHandler_else { req with PrintMode := lit "receipt-only" } h2 h3]
  · rw [hform, linux_printHandler_else { req with QRValue := lit "" } hs hq]
  · intro ht ho hb hin
    have htrue := hasStoreHeader_of_infix hin
      (by rw [linux_escQRCode]; exact escQRCode_hasStoreHeader _)
    rw [hhead, ht, ho, hb] at htrue
    exact absurd htrue (by decide)
  · exact group_in_qrOnly { req with PrintMode := lit "qr-only" } rfl

/-- C23, amended, at the request `T` / `1` / `b` with empty `print_mode` and
the `qr_value` `X`: the stream is the one of the request without a `qr_value`
and the command group of `X` is not in it. -/
theorem default_mode_with_qr_value_is_receipt_witness :
    printHandlerReceipt ⟨[], lit "T", lit "1", lit "b", lit "X", lit ""⟩ =
      printHandlerReceipt ⟨[], lit "T", lit "1", lit "b", lit "", lit ""⟩ ∧
    ¬ List.IsInfix (escQRCode (lit "X"))
      (printHandlerReceipt ⟨[], lit "T", lit "1", lit "b", lit "X", lit ""⟩) :=
  ⟨(default_mode_with_qr_value_is_receipt ⟨[], lit "T", lit "1", lit "b", lit "X", lit ""⟩ rfl
      (by decide)).2.2.2.1,
    (default_mode_with_qr_value_is_receipt ⟨[], lit "T", lit "1", lit "b", lit "X", lit ""⟩ rfl
      (by decide)).2.2.2.2.2.1 (by decide) (by decide) (by decide)⟩

end Linux

/-! ## The checks of the handler `print` -/

/-- C35: for every POST request whose body decodes to a request with a token
other than `CLEANLINK_SECRET_123`, `print` answers 401 `Unauthorized` and
performs no printer detection, no composition and no device write. The checks
run in the order method, decoding, token, detection: another method gives 405
whatever the body is; a POST body that does not decode gives 400 whatever the
printer is; and with the right token a failed detection gives 500 after the
detection alone. -/
theorem token_gates_every_effect (w : World) (r : HttpRequest) (req : PrintRequest)
    (hpost : r.Method = lit "POST") (hdec : w.decodeJSON r.Body = some req)
    (htok : req.Token ≠ lit "CLEANLINK_SECRET_123") :
    print w r = ⟨401, lit "Unauthorized", []⟩ ∧
    (∀ (w2 : World) (r2 : HttpRequest), r2.Method ≠ lit "POST" →
      print w2 r2 = ⟨405, lit "Method not allowed", []⟩) ∧
    (∀ (w2 : World) (r2 : HttpRequest), r2.Method = lit "POST" →
      w2.decodeJSON r2.Body = none → print w2 r2 = ⟨400, lit "Invalid JSON", []⟩) ∧
    (∀ (w2 : World) (r2 : HttpRequest) (q : PrintRequest) (err : Bytes),
      r2.Method = lit "POST" → w2.decodeJSON r2.Body = some q →
      q.Token = lit "CLEANLINK_SECRET_123" → w2.detectPrinterCOM = Except.error err →
      print w2 r2 = ⟨500, err, [Effect.detectPrinter]⟩) := by
  refine ⟨?_, ?_, ?_, ?_⟩
  · unfold print
    have htok2 : req.Token ≠ API_TOKEN := htok
    simp only [hpost, hdec, htok2, ne_eq, not_true_eq_false, not_false_eq_true, if_true,
      if_false]
  · intro w2 r2 hm
    unfold print
    simp only [hm, ne_eq, not_false_eq_true, if_true]
  · intro w2 r2 hm hd
    unfold print
    simp only [hm, hd, ne_eq, not_true_eq_false, if_false]
  · intro w2 r2 q err hm hd ht he
    have ht2 : q.Token = API_TOKEN := ht
    unfold print
    simp only [hm, hd, ht2, he, ne_eq, not_true_eq_false, if_false]

/-- C35 at a POST request with the token `wrong`, in a world where the printer
would be found and the write would succeed. -/
theorem token_gates_every_effect_witness :
    print ⟨fun _ => some ⟨lit "wrong", lit "T", lit "1", lit "b", [], [], [], false⟩,
        Except.ok (lit "COM10"), fun _ _ => none⟩ ⟨lit "POST", []⟩ =
      ⟨401, lit "Unauthorized", []⟩ :=
  (token_gates_every_effect
    ⟨fun _ => some ⟨lit "wrong", lit "T", lit "1", lit "b", [], [], [], false⟩,
      Except.ok (lit "COM10"), fun _ _ => none⟩ ⟨lit "POST", []⟩
    ⟨lit "wrong", lit "T", lit "1", lit "b", [], [], [], false⟩ rfl rfl (by decide)).1

/-! ## The printer dropdown of `src/app-windows/main.go` -/

namespace AppWindows

/-- Without the byte `c` the scan keeps the index it has. -/
theorem lastIndexFrom_not_mem (c : Nat) (s : Bytes) (h : c ∉ s) :
    ∀ (i : Nat) (acc : Int), lastIndexFrom c s i acc = acc := by
  induction s with
  | nil => intro i acc; rfl
  | cons b rest ih =>
    intro i acc
    have hb : b ≠ c := fun hb => h (hb ▸ List.mem_cons_self _ _)
    have hrest : c ∉ rest := fun hr => h (List.mem_cons_of_mem _ hr)
    rw [lastIndexFrom, if_neg hb, ih hrest]

/-- The scan finds the byte `c` after which no `c` comes. -/
theorem lastIndexFrom_append (c : Nat) (pre post : Bytes) (h : c ∉ post) :
    ∀ (i : Nat) (acc : Int),
      lastIndexFrom c (pre ++ c :: post) i acc = ((i + pre.length : Nat) : Int) := by
  induction pre with
  | nil =>
    intro i acc
    rw [List.nil_append, lastIndexFrom, if_pos rfl, lastIndexFrom_not_mem c post h]
    rfl
  | cons b rest ih =>
    intro i acc
    rw [List.cons_append, lastIndexFrom, ih]
    simp only [List.length_cons]
    congr 1
    omega

/-- The index of the last `c` of `pre ++ c :: post` when `post` holds no `c`. -/
theorem lastIndexByte_append (c : Nat) (pre post : Bytes) (h : c ∉ post) :
    lastIndexByte (pre ++ c :: post) c = (pre.length : Int) := by
  unfold lastIndexByte
  rw [lastIndexFrom_append c pre post h]
  simp

/-- Trimming the one-byte suffix that was appended gives the text back. -/
theorem trimSuffix_append_singleton (t : Bytes) (c : Nat) : trimSuffix (t ++ [c]) [c] = t := by
  have hs : hasSuffix (t ++ [c]) [c] = true := by
    simp [hasSuffix]
  unfold trimSuffix
  rw [if_pos hs]
  simp

/-- The option of a printer is the name, a space, `(`, the device id and `)`. -/
theorem formatOption_eq (name deviceID : Bytes) :
    formatOption name deviceID = (name ++ [0x20]) ++ 0x28 :: (deviceID ++ [0x29]) := by
  have h1 : lit " (" = [0x20, 0x28] := rfl
  have h2 : lit ")" = [0x29] := rfl
  unfold formatOption
  rw [h1, h2]
  simp

/-- What follows the last `(` of an option whose device id holds no `(`,
without one trailing `)`, is the device id. -/
theorem port_of_option (name deviceID : Bytes) (h : 0x28 ∉ deviceID) :
    lastIndexByte (formatOption name deviceID) 0x28 = ((name ++ [0x20]).length : Int) ∧
    trimSuffix ((formatOption name deviceID).drop ((name ++ [0x20]).length + 1)) (lit ")") =
      deviceID := by
  have hpost : 0x28 ∉ deviceID ++ [0x29] := by
    simp only [List.mem_append, List.mem_singleton, not_or]
    exact ⟨h, by decide⟩
  have h2 : lit ")" = [0x29] := rfl
  refine ⟨?_, ?_⟩
  · rw [formatOption_eq, lastIndexByte_append 0x28 _ _ hpost]
  · rw [formatOption_eq, h2, List.drop_append, List.drop_succ_cons, List.drop_zero,
      trimSuffix_append_singleton]

/-- C36: for every printer name and every device id that holds no `(`, the
callback of `printerSelect` and the auto-select code, applied to the option
`<name> (<id>)`, yield exactly the device id, also when the name holds
parentheses; and for the device id `a(b` they yield `b`. -/
theorem port_extraction_undoes_formatting (name deviceID : Bytes) (h : 0x28 ∉ deviceID) :
    selectedPort (formatOption name deviceID) = some deviceID ∧
    (∀ others : List Bytes, firstCOMPort (formatOption name deviceID :: others) = deviceID) ∧
    (∃ (name2 deviceID2 : Bytes), 0x28 ∈ deviceID2 ∧
      selectedPort (formatOption name2 deviceID2) ≠ some deviceID2 ∧
      firstCOMPort [formatOption name2 deviceID2] ≠ deviceID2) := by
  obtain ⟨hidx, hport⟩ := port_of_option name deviceID h
  have hne : formatOption name deviceID ≠ lit "" := by
    rw [formatOption_eq]
    intro hnil
    have hlen := congrArg List.length hnil
    rw [lit_empty] at hlen
    simp at hlen
  have hnot : ¬ (((name ++ [0x20]).length : Int) = -1) := by omega
  have hnat : (((name ++ [0x20]).length : Int) + 1).toNat = (name ++ [0x20]).length + 1 := by
    omega
  refine ⟨?_, ?_, lit "P", lit "a(b", by decide, by decide, by decide⟩
  · unfold selectedPort
    simp only [hne, hidx, hnot, hnat, hport, ne_eq, not_false_eq_true, if_true]
  · intro others
    unfold firstCOMPort
    simp only [hidx, hnot, hnat, hport, ne_eq, not_false_eq_true, if_true]

/-- C36 at the option of the printer
`Standard Serial over Bluetooth link (COM10)` with the device id `COM10`. -/
theorem port_extraction_undoes_formatting_witness :
    selectedPort (formatOption (lit "Standard Serial over Bluetooth link (COM10)")
      (lit "COM10")) = some (lit "COM10") :=
  (port_extraction_undoes_formatting (lit "Standard Serial over Bluetooth link (COM10)")
    (lit "COM10") (by decide)).1

end AppWindows

end PrintAgent
